import Mathlib

/-!
# MemPoolTest: benchmark orchestration and buffer configuration

A shallow embedding of the parts of `MemPoolTest.cpp`, `AppSettings.{h,cpp}` and the
SampleFramework12 helpers that the benchmark sweep, the buffer provisioning and the
per-frame update rely on, followed by theorems about them.

Conventions:
* `uint32` / `uint64` values are natural numbers, with an explicit `% 2^32` / `% 2^64`
  wherever the C++ operation can wrap;
* `Assert_` failures and out-of-bounds container accesses make an operation return `none`;
* `double` arithmetic is kept abstract (class `DoubleArith`).
-/

namespace MemPoolTest

/-! ## Definitions -/

/-! ### AppSettings.h : enumerations -/

/-- Heap types, `enum class HeapTypes` of AppSettings.h. -/
inductive HeapTypes where
  | Upload
  | Default
  | Custom
  | GPUUpload
  deriving DecidableEq, Repr

/-- CPU page properties, `enum class CPUPageProperties` of AppSettings.h. -/
inductive CPUPageProperties where
  | NotAvailable
  | WriteCombine
  | WriteBack
  deriving DecidableEq, Repr

/-- Memory pools, `enum class MemoryPools` of AppSettings.h. -/
inductive MemoryPools where
  | L0
  | L1
  deriving DecidableEq, Repr

/-- Buffer representations, `enum class BufferTypes` of AppSettings.h. -/
inductive BufferTypes where
  | Raw
  | Formatted
  | Structured
  | Constant
  deriving DecidableEq, Repr

/-- Upload paths, `enum class BufferUploadPaths` of AppSettings.h. -/
inductive BufferUploadPaths where
  | DirectQueue
  | UploadCopyQueue
  | FastUploadCopyQueue
  deriving DecidableEq, Repr

/-- The table `HeapTypesValues` of AppSettings.cpp. -/
def HeapTypesValues : List HeapTypes :=
  [HeapTypes.Upload, HeapTypes.Default, HeapTypes.Custom, HeapTypes.GPUUpload]

/-- The table `CPUPagePropertiesValues` of AppSettings.cpp. -/
def CPUPagePropertiesValues : List CPUPageProperties :=
  [CPUPageProperties.NotAvailable, CPUPageProperties.WriteCombine, CPUPageProperties.WriteBack]

/-- The table `MemoryPoolsValues` of AppSettings.cpp. -/
def MemoryPoolsValues : List MemoryPools :=
  [MemoryPools.L0, MemoryPools.L1]

/-- The table `HeapTypesLabels` of AppSettings.cpp, indexed by the enum value. -/
def HeapTypesLabels : HeapTypes → String
  | HeapTypes.Upload => "Upload"
  | HeapTypes.Default => "Default"
  | HeapTypes.Custom => "Custom"
  | HeapTypes.GPUUpload => "GPU Upload"

/-- The table `CPUPagePropertiesLabels` of AppSettings.cpp, indexed by the enum value. -/
def CPUPagePropertiesLabels : CPUPageProperties → String
  | CPUPageProperties.NotAvailable => "Not Available (No CPU Access)"
  | CPUPageProperties.WriteCombine => "Write-Combined (Uncached)"
  | CPUPageProperties.WriteBack => "Write-Back (Cached)"

/-- The table `MemoryPoolsLabels` of AppSettings.cpp, indexed by the enum value. -/
def MemoryPoolsLabels : MemoryPools → String
  | MemoryPools.L0 => "L0 (CPU RAM)"
  | MemoryPools.L1 => "L1 (VRAM)"

/-- The table `BufferTypesLabels` of AppSettings.cpp, indexed by the enum value. -/
def BufferTypesLabels : BufferTypes → String
  | BufferTypes.Raw => "Raw"
  | BufferTypes.Formatted => "Formatted"
  | BufferTypes.Structured => "Structured"
  | BufferTypes.Constant => "Constant"

/-! ### MemPoolTest.h : records -/

/-- One point of the benchmark sweep, `struct BenchmarkConfig` of MemPoolTest.h
(the integer fields are `uint32`, `InputBufferSize` is `uint64`). -/
structure BenchmarkConfig where
  HeapType : HeapTypes := HeapTypes.Upload
  CPUPageProperty : CPUPageProperties := CPUPageProperties.NotAvailable
  MemoryPool : MemoryPools := MemoryPools.L0
  InputBufferType : BufferTypes := BufferTypes.Raw
  NumThreadGroups : Nat := 0
  InputBufferSize : Nat := 0
  ElemsPerThread : Nat := 0
  ThreadElemStride : Nat := 0
  GroupElemOffset : Nat := 0
  ThreadElemOffset : Nat := 0
  deriving DecidableEq, Repr

/-- The values of the settings of namespace `AppSettings` that the modelled code reads
or writes. `IntSetting` values are `int32`. -/
structure Settings where
  HeapType : HeapTypes := HeapTypes.Upload
  CPUPageProperty : CPUPageProperties := CPUPageProperties.NotAvailable
  MemoryPool : MemoryPools := MemoryPools.L0
  InputBufferType : BufferTypes := BufferTypes.Raw
  InputBufferSizeMB : Int := 16
  InputBufferSizeKB : Int := 0
  InputBufferSizeBytes : Int := 0
  ElemsPerThread : Int := 1
  ThreadElemStride : Int := 1
  GroupElemOffset : Int := 1
  ThreadElemOffset : Int := 1
  NumThreadGroups : Int := 4096
  ReadFromGPUMem : Bool := false
  BufferUploadPath : BufferUploadPaths := BufferUploadPaths.FastUploadCopyQueue
  NumInputBufferElems : Int := 0
  InputBufferIdx : Int := -1
  OutputBufferIdx : Int := -1
  EnableVSync : Bool := true
  deriving DecidableEq, Repr

/-- Averaged or sampled timings, `struct BenchmarkResults` of MemPoolTest.h; `F` stands
for `double`. -/
structure BenchmarkResults (F : Type) where
  ComputeJobTime : F
  CPUTimeUpdatingBuffer : F
  CPUTimeReadingBuffer : F
  deriving DecidableEq, Repr

/-- The operations on `double` that the benchmark uses. IEEE arithmetic is not modelled:
the theorems hold for every interpretation of these operations. -/
class DoubleArith (F : Type) where
  /-- The literal `0.0`. -/
  zero : F
  /-- Addition of doubles. -/
  add : F → F → F
  /-- Division of doubles. -/
  div : F → F → F
  /-- Conversion of an unsigned integer to `double`. -/
  ofNat : Nat → F
  /-- The text `printf` produces for the conversion `%f`. -/
  format : F → String

/-- The value-initialised record `BenchmarkResults()`: all three timings are `0.0`. -/
def BenchmarkResults.init (F : Type) [DoubleArith F] : BenchmarkResults F :=
  { ComputeJobTime := DoubleArith.zero
    CPUTimeUpdatingBuffer := DoubleArith.zero
    CPUTimeReadingBuffer := DoubleArith.zero }

/-- The member variables of class `MemPoolTest` (MemPoolTest.h) that the benchmark uses,
together with the globals they are used with: the settings of namespace `AppSettings`,
the static `GPUUploadHeapAvailable` and the flag `architectureData.UMA`.
`List<T>` and `Array<T>` are lists; the three counters are `uint32`. -/
structure State (F : Type) where
  AppSettings : Settings := {}
  GPUUploadHeapAvailable : Bool := false
  UMA : Bool := false
  benchmarkConfigIdx : Nat := 2 ^ 32 - 1
  numBenchmarks : Nat := 0
  benchmarkFrameIdx : Nat := 0
  benchmarkConfigs : List BenchmarkConfig := []
  benchmarkSamples : List (BenchmarkResults F) := []
  benchmarkResults : List (BenchmarkResults F) := []

/-! ### MemPoolTest.cpp : constants -/

/-- The constant `NumBenchmarkWarmupFrames`. -/
def NumBenchmarkWarmupFrames : Nat := 8

/-- The constant `NumBenchmarkMeasureFrames`. -/
def NumBenchmarkMeasureFrames : Nat := 64

/-- The constant `NumBenchmarkTotalFrames`. -/
def NumBenchmarkTotalFrames : Nat := NumBenchmarkWarmupFrames + NumBenchmarkMeasureFrames

/-- Constants of the Direct3D 12 headers that the sources use without defining them; they
are parameters of the model. -/
structure D3D12 where
  /-- The constant `D3D12_REQ_CONSTANT_BUFFER_ELEMENT_COUNT`. -/
  REQ_CONSTANT_BUFFER_ELEMENT_COUNT : Nat
  /-- The constant `D3D12_DEFAULT_RESOURCE_PLACEMENT_ALIGNMENT`. -/
  DEFAULT_RESOURCE_PLACEMENT_ALIGNMENT : Nat
  deriving DecidableEq, Repr

/-- The values the Direct3D 12 headers give to the constants of `D3D12`. -/
def d3d12 : D3D12 :=
  { REQ_CONSTANT_BUFFER_ELEMENT_COUNT := 4096
    DEFAULT_RESOURCE_PLACEMENT_ALIGNMENT := 65536 }

/-- The constant `MaxCBufferSize = D3D12_REQ_CONSTANT_BUFFER_ELEMENT_COUNT * 16` (`uint32`). -/
def MaxCBufferSize (sdk : D3D12) : Nat := (sdk.REQ_CONSTANT_BUFFER_ELEMENT_COUNT * 16) % 2 ^ 32

/-- Modelled from the spec: `DX12::ConstantBufferAlignment` is
`D3D12_CONSTANT_BUFFER_DATA_PLACEMENT_ALIGNMENT`, a constant of the Direct3D 12 headers,
which are not among the sources; the specification gives the constant-buffer alignment as
256 bytes. -/
def ConstantBufferAlignment : Nat := 256

/-- The constant `DX12::RenderLatency` of DX12.h. -/
def RenderLatency : Nat := 2

/-- The constant `AppSettings::ThreadGroupSize` of AppSettings.h (`uint64`). -/
def ThreadGroupSize : Nat := 256

/-! ### Integer conversions -/

/-- Conversion of a signed integer to `uint32`. -/
def toUInt32 (i : Int) : Nat := (i % 2 ^ 32).toNat

/-- Conversion of a signed integer to `uint64`. -/
def toUInt64 (i : Int) : Nat := (i % 2 ^ 64).toNat

/-! ### Utility.h and SF12_Math.h -/

/-- The overload `AlignTo(uint32 num, uint32 alignment)` of Utility.h. -/
def AlignTo (num alignment : Nat) : Option Nat :=
  if alignment > 0 then
    some ((((num + alignment - 1) % 2 ^ 32) / alignment * alignment) % 2 ^ 32)
  else
    none

/-- The overload `AlignTo(uint64 num, uint64 alignment)` of Utility.h. -/
def AlignTo64 (num alignment : Nat) : Option Nat :=
  if alignment > 0 then
    some ((((num + alignment - 1) % 2 ^ 64) / alignment * alignment) % 2 ^ 64)
  else
    none

/-- The template `Clamp<T>(val, min, max)` of SF12_Math.h on unsigned integers. -/
def Clamp (val min max : Nat) : Option Nat :=
  if max ≥ min then
    some (if val < min then min else if val > max then max else val)
  else
    none

/-! ### Containers.h -/

/-- The method `List<T>::Add()` followed by the assignments to the returned reference:
the new element becomes the last one. -/
def ListAdd {α : Type} (list : List α) (item : α) : List α := list ++ [item]

/-- The method `Array<T>::Init(numElements)` for a record type whose default constructor
yields `fill`. -/
def ArrayInit {α : Type} (numElements : Nat) (fill : α) : List α :=
  List.replicate numElements fill

/-! ### MemPoolTest.cpp : InitBenchmark -/

/-- The table `threadGroupCounts` of `InitBenchmark`. -/
def threadGroupCounts : List Nat := [32 * 1024]

/-- The table `inputBufferSizes` of `InitBenchmark`. -/
def inputBufferSizes : List Nat :=
  [32 * 1024 * 1024, 64 * 1024 * 1024, 96 * 1024 * 1024, 128 * 1024 * 1024]

/-- The table `elemsPerThreadCounts` of `InitBenchmark`. -/
def elemsPerThreadCounts : List Nat := [1]

/-- The table `threadElemStrides` of `InitBenchmark`. -/
def threadElemStrides : List Nat := [1]

/-- The table `groupElemOffsets` of `InitBenchmark`. -/
def groupElemOffsets : List Nat := [1]

/-- The table `threadElemOffsets` of `InitBenchmark`. -/
def threadElemOffsets : List Nat := [1]

/-- The nested enumeration loops of `MemPoolTest::InitBenchmark`, appending to
`benchmarkConfigs`. -/
def enumerateConfigs (sdk : D3D12) (GPUUploadHeapAvailable UMA : Bool)
    (benchmarkConfigs : List BenchmarkConfig) : List BenchmarkConfig := Id.run do
  let mut configs := benchmarkConfigs
  for heapType in HeapTypesValues do
    -- Can't use this heap type unless it's supported on the device
    if heapType = HeapTypes.GPUUpload ∧ GPUUploadHeapAvailable = false then
      continue
    if heapType = HeapTypes.Custom then
      continue
    for cpuPageProperty in CPUPagePropertiesValues do
      if heapType ≠ HeapTypes.Custom ∧ cpuPageProperty ≠ CPUPageProperties.NotAvailable then
        continue
      for memoryPool in MemoryPoolsValues do
        if heapType ≠ HeapTypes.Custom ∧ memoryPool ≠ MemoryPools.L0 then
          continue
        -- This is invalid for UMA which only has a single memory pool
        if UMA = true ∧ memoryPool = MemoryPools.L1 then
          continue
        -- Can't enable cached CPU pages for NUMA
        if UMA = false ∧ memoryPool = MemoryPools.L1 ∧
            cpuPageProperty = CPUPageProperties.WriteBack then
          continue
        let bufferType := BufferTypes.Raw
        for numThreadGroups in threadGroupCounts do
          for inputBufferSize in inputBufferSizes do
            -- Constant buffers have a max size that we need to respect
            if bufferType = BufferTypes.Constant ∧
                inputBufferSize > MaxCBufferSize sdk then
              continue
            for elemsPerThread in elemsPerThreadCounts do
              for threadElemStride in threadElemStrides do
                for groupElemOffset in groupElemOffsets do
                  for threadElemOffset in threadElemOffsets do
                    configs := ListAdd configs
                      { HeapType := heapType
                        CPUPageProperty := cpuPageProperty
                        MemoryPool := memoryPool
                        InputBufferType := bufferType
                        NumThreadGroups := numThreadGroups
                        InputBufferSize := inputBufferSize
                        ElemsPerThread := elemsPerThread
                        ThreadElemStride := threadElemStride
                        GroupElemOffset := groupElemOffset
                        ThreadElemOffset := threadElemOffset }
  return configs

/-- The method `MemPoolTest::InitBenchmark`. -/
def InitBenchmark {F : Type} [DoubleArith F] (sdk : D3D12) (s : State F) : State F :=
  let benchmarkConfigs :=
    enumerateConfigs sdk s.GPUUploadHeapAvailable s.UMA s.benchmarkConfigs
  let numBenchmarks := benchmarkConfigs.length % 2 ^ 32
  { s with
    benchmarkSamples := ArrayInit NumBenchmarkMeasureFrames (BenchmarkResults.init F)
    benchmarkConfigs := benchmarkConfigs
    numBenchmarks := numBenchmarks
    benchmarkResults := ArrayInit numBenchmarks (BenchmarkResults.init F) }

/-- The configuration `InitBenchmark` adds for a built-in heap type and an input size. -/
def sweepConfig (heapType : HeapTypes) (inputBufferSize : Nat) : BenchmarkConfig :=
  { HeapType := heapType
    CPUPageProperty := CPUPageProperties.NotAvailable
    MemoryPool := MemoryPools.L0
    InputBufferType := BufferTypes.Raw
    NumThreadGroups := 32768
    InputBufferSize := inputBufferSize
    ElemsPerThread := 1
    ThreadElemStride := 1
    GroupElemOffset := 1
    ThreadElemOffset := 1 }

/-- The four configurations of one heap type, by increasing input size. -/
def sweepBlock (heapType : HeapTypes) : List BenchmarkConfig :=
  [sweepConfig heapType (32 * 2 ^ 20), sweepConfig heapType (64 * 2 ^ 20),
   sweepConfig heapType (96 * 2 ^ 20), sweepConfig heapType (128 * 2 ^ 20)]

/-- The sweep the specification describes: Upload, Default, and GPUUpload when supported. -/
def expectedSweep (GPUUploadHeapAvailable : Bool) : List BenchmarkConfig :=
  sweepBlock HeapTypes.Upload ++ sweepBlock HeapTypes.Default ++
    (if GPUUploadHeapAvailable then sweepBlock HeapTypes.GPUUpload else [])

/-! ### MemPoolTest.cpp : CPU-writability predicates -/

/-- The overload `IsInputBufferCPUWritable()` of MemPoolTest.cpp, which reads the live
settings `AppSettings::HeapType` and `AppSettings::CPUPageProperty`. -/
def IsInputBufferCPUWritable (settings : Settings) : Bool :=
  if settings.HeapType = HeapTypes.Upload ∨ settings.HeapType = HeapTypes.GPUUpload then
    true
  else if settings.HeapType = HeapTypes.Custom ∧
      settings.CPUPageProperty ≠ CPUPageProperties.NotAvailable then
    true
  else
    false

/-- The overload `IsInputBufferCPUWritable(const BenchmarkConfig&)` of MemPoolTest.cpp. -/
def IsInputBufferCPUWritableConfig (config : BenchmarkConfig) : Bool :=
  if config.HeapType = HeapTypes.Upload ∨ config.HeapType = HeapTypes.GPUUpload then
    true
  else if config.HeapType = HeapTypes.Custom ∧
      config.CPUPageProperty ≠ CPUPageProperties.NotAvailable then
    true
  else
    false

/-! ### GraphicsTypes.h / GraphicsTypes.cpp : buffers -/

/-- The fields of `struct BufferInit` that determine sizes and flags. -/
structure BufferInit where
  Size : Nat := 0
  Alignment : Nat := 0
  Dynamic : Bool := false
  CPUAccessible : Bool := false
  AllowUAV : Bool := false
  HeapOffset : Nat := 2 ^ 64 - 1
  deriving DecidableEq, Repr

/-- The fields of `struct Buffer` that `Buffer::Initialize` computes; `Width` is the width
of the resource it creates (`resourceDesc.Width`). `UploadFrame`, which `Initialize` does
not assign, has the value `uint64(-1)` of a new object. -/
structure Buffer where
  CurrBuffer : Nat := 0
  Alignment : Nat := 0
  Size : Nat := 0
  Dynamic : Bool := false
  CPUAccessible : Bool := false
  HeapOffset : Nat := 0
  Width : Nat := 0
  UploadFrame : Nat := 2 ^ 64 - 1
  deriving DecidableEq, Repr

/-- The size computations and assertions of `Buffer::Initialize`; `placed` tells whether
`init.Heap` is set. The result is the buffer of a newly constructed object: `UploadFrame`,
which neither `Initialize` nor `Shutdown` assigns, has its initial value `uint64(-1)`,
whereas an object that is initialised again keeps the value its last `CycleBuffer` left. -/
def Buffer.Initialize (init : BufferInit) (placed : Bool) : Option Buffer :=
  if ¬ (init.Size > 0) then none
  else if ¬ (init.Alignment > 0) then none
  else
    match AlignTo64 init.Size init.Alignment with
    | none => none
    | some size =>
      if ¬ (init.AllowUAV = false ∨ init.Dynamic = false) then none
      else if ¬ (init.Dynamic = true ∨ init.CPUAccessible = false) then none
      else
        some
          { CurrBuffer := 0
            Alignment := init.Alignment
            Size := size
            Dynamic := init.Dynamic
            CPUAccessible := init.CPUAccessible
            HeapOffset := if placed then init.HeapOffset else 0
            Width := if init.Dynamic then (size * RenderLatency) % 2 ^ 64 else size }

/-- The fields of `struct RawBufferInit` that determine sizes and flags. -/
structure RawBufferInit where
  NumElements : Nat := 0
  CreateUAV : Bool := false
  Dynamic : Bool := false
  CPUAccessible : Bool := false
  HeapOffset : Nat := 0
  deriving DecidableEq, Repr

/-- The fields `InternalBuffer` and `NumElements` of `struct RawBuffer`. -/
structure RawBuffer where
  InternalBuffer : Buffer := {}
  NumElements : Nat := 0
  deriving DecidableEq, Repr

/-- The constant `RawBuffer::Stride`. -/
def RawBuffer.Stride : Nat := 4

/-- The size computations and assertions of `RawBuffer::Initialize`. -/
def RawBuffer.Initialize (init : RawBufferInit) (placed : Bool) : Option RawBuffer :=
  if ¬ (init.NumElements > 0) then none
  else
    match AlignTo64 ((RawBuffer.Stride * init.NumElements) % 2 ^ 64) 16 with
    | none => none
    | some size =>
      match Buffer.Initialize
          { Size := size
            Alignment := RawBuffer.Stride
            Dynamic := init.Dynamic
            CPUAccessible := init.CPUAccessible
            AllowUAV := init.CreateUAV
            HeapOffset := init.HeapOffset } placed with
      | none => none
      | some internal =>
        if init.CreateUAV = true ∧ ¬ (init.Dynamic = false) then none
        else some { InternalBuffer := internal, NumElements := init.NumElements }

/-! ### MemPoolTest.cpp : CreateBuffers -/

/-- The local `inputBufferAlignment` of `CreateBuffers`. -/
def inputBufferAlignment (settings : Settings) : Nat :=
  if settings.InputBufferType = BufferTypes.Constant then ConstantBufferAlignment % 2 ^ 32 else 1

/-- The local `maxInputBufferSize` of `CreateBuffers`. -/
def maxInputBufferSize (sdk : D3D12) (settings : Settings) : Nat :=
  if settings.InputBufferType = BufferTypes.Constant then MaxCBufferSize sdk
  else 1 * 1024 * 1024 * 1024

/-- The request `InputBufferSizeMB * (1024 * 1024) + InputBufferSizeKB * 1024 +
InputBufferSizeBytes` of `CreateBuffers`, an `int` expression converted to `uint32`. -/
def requestedInputBufferSize (settings : Settings) : Nat :=
  toUInt32 (settings.InputBufferSizeMB * (1024 * 1024) + settings.InputBufferSizeKB * 1024 +
    settings.InputBufferSizeBytes)

/-- The local `inputBufferSize` of `CreateBuffers`. -/
def inputBufferSize (sdk : D3D12) (settings : Settings) : Option Nat :=
  match Clamp (requestedInputBufferSize settings) 1 (maxInputBufferSize sdk settings) with
  | none => none
  | some clamped => AlignTo clamped (inputBufferAlignment settings)

/-- The local `numInputElems` of `CreateBuffers`. -/
def numInputElems (sdk : D3D12) (settings : Settings) : Option Nat :=
  (inputBufferSize sdk settings).map (fun size => size / 16)

/-- The local `totalInputBufferSize` of `CreateBuffers`, the size of the heap it creates. -/
def totalInputBufferSize (sdk : D3D12) (settings : Settings) : Option Nat :=
  match inputBufferSize sdk settings with
  | none => none
  | some size =>
    AlignTo ((size * (RenderLatency % 2 ^ 32)) % 2 ^ 32) sdk.DEFAULT_RESOURCE_PLACEMENT_ALIGNMENT

/-- The local `numTotalThreads` of `CreateBuffers`:
`AppSettings::ThreadGroupSize * AppSettings::NumThreadGroups` is a `uint64` product that is
stored in a `uint32`. -/
def numTotalThreads (settings : Settings) : Nat :=
  ((ThreadGroupSize * toUInt64 settings.NumThreadGroups) % 2 ^ 64) % 2 ^ 32

/-- The call `inputBuffer.Initialize` of `CreateBuffers`, placed in the heap at offset 0. -/
def createInputBuffer (sdk : D3D12) (settings : Settings) : Option RawBuffer :=
  match numInputElems sdk settings with
  | none => none
  | some elems =>
    RawBuffer.Initialize
      { NumElements := (elems * 4) % 2 ^ 32
        Dynamic := true
        CPUAccessible := IsInputBufferCPUWritable settings
        HeapOffset := 0 } true

/-- What `CreateBuffers` leaves in the members of `MemPoolTest`. -/
structure Buffers where
  inputBufferHeapSize : Nat
  inputBuffer : RawBuffer
  uploadBuffer : Option Buffer
  outputBuffer : RawBuffer
  inputBufferShadowMem : Nat
  readbackMem : Nat
  numComputeJobThreads : Nat
  deriving DecidableEq, Repr

/-- The method `MemPoolTest::CreateBuffers`: sizes, flags and assertions of the buffers it
creates. `inputBufferShadowMem` and `readbackMem` are given by their element counts. -/
def CreateBuffers (sdk : D3D12) (settings : Settings) : Option Buffers :=
  match numInputElems sdk settings, totalInputBufferSize sdk settings with
  | some elems, some heapSize =>
    match createInputBuffer sdk settings with
    | none => none
    | some inputBuffer =>
      let uploadBuffer : Option (Option Buffer) :=
        if IsInputBufferCPUWritable settings = false then
          (Buffer.Initialize
            { Size := inputBuffer.InternalBuffer.Size
              Alignment := 4
              Dynamic := true
              CPUAccessible := true } false).map some
        else some none
      match uploadBuffer with
      | none => none
      | some uploadBuffer =>
        match RawBuffer.Initialize
            { NumElements := numTotalThreads settings, CreateUAV := true } false with
        | none => none
        | some outputBuffer =>
          some
            { inputBufferHeapSize := heapSize
              inputBuffer := inputBuffer
              uploadBuffer := uploadBuffer
              outputBuffer := outputBuffer
              inputBufferShadowMem := elems
              readbackMem := elems
              numComputeJobThreads := numTotalThreads settings }
  | _, _ => none

/-! ### MemPoolTest.cpp : TickBenchmark -/

/-- Conversion of a `uint32` to `int32`. -/
def toInt32 (n : Nat) : Int :=
  if n % 2 ^ 32 < 2 ^ 31 then (n % 2 ^ 32 : Nat) else (n % 2 ^ 32 : Nat) - 2 ^ 32

/-- Modelled from the spec: `IntSetting::SetValue` of Settings.h, which is not among the
sources; a programmatic override clamps the value to the declared range of the setting. -/
def IntSettingSetValue (minValue maxValue value : Int) : Int :=
  if value < minValue then minValue else if value > maxValue then maxValue else value

/-- The template `Min<T>(a, b)` of SF12_Math.h. -/
def Min (a b : Nat) : Nat := if a < b then a else b

/-- The settings after `TickBenchmark` applied `config` (the block under
"Apply the settings for this benchmark run"); the ranges are those of
`AppSettings::Initialize`. -/
def applyConfig (config : BenchmarkConfig) (settings : Settings) : Settings :=
  let inputBufferBytes := (config.InputBufferSize % 1024) % 2 ^ 32
  let inputBufferKB := ((config.InputBufferSize % (1024 * 1024)) % 2 ^ 32) / 1024
  let inputBufferMB := (config.InputBufferSize / (1024 * 1024)) % 2 ^ 32
  { settings with
    HeapType := config.HeapType
    CPUPageProperty := config.CPUPageProperty
    MemoryPool := config.MemoryPool
    InputBufferType := config.InputBufferType
    NumThreadGroups := IntSettingSetValue 1 65535 (toInt32 config.NumThreadGroups)
    ElemsPerThread := IntSettingSetValue 1 64 (toInt32 config.ElemsPerThread)
    ThreadElemStride := IntSettingSetValue 1 64 (toInt32 config.ThreadElemStride)
    GroupElemOffset := IntSettingSetValue 0 16 (toInt32 config.GroupElemOffset)
    ThreadElemOffset := IntSettingSetValue 0 16 (toInt32 config.ThreadElemOffset)
    InputBufferSizeMB := IntSettingSetValue 0 256 (toInt32 inputBufferMB)
    InputBufferSizeKB := IntSettingSetValue 0 1024 (toInt32 inputBufferKB)
    InputBufferSizeBytes := IntSettingSetValue 0 1024 (toInt32 inputBufferBytes)
    EnableVSync := false }

/-- The timings `TickBenchmark` reads from the profiler during one tick:
`GPUProfileTiming("Compute Job")`, `CPUProfileTiming("Update Buffer")` and
`CPUProfileTiming("Read From Buffer")`. -/
structure ProfilerTimings (F : Type) where
  ComputeJob : F
  UpdateBuffer : F
  ReadFromBuffer : F

/-- The sample `TickBenchmark` records in a measurement frame. -/
def makeSample {F : Type} [DoubleArith F] (settings : Settings) (timings : ProfilerTimings F) :
    BenchmarkResults F :=
  { ComputeJobTime := timings.ComputeJob
    CPUTimeUpdatingBuffer := timings.UpdateBuffer
    CPUTimeReadingBuffer :=
      if IsInputBufferCPUWritable settings = true ∧ settings.ReadFromGPUMem = true then
        timings.ReadFromBuffer
      else DoubleArith.zero }

/-- The block `if(benchmarkFrameIdx >= NumBenchmarkWarmupFrames)` of `TickBenchmark`: the
samples after it and the slot written, if any. -/
def recordSample {F : Type} [DoubleArith F] (s : State F) (timings : ProfilerTimings F) :
    Option (List (BenchmarkResults F) × Option Nat) :=
  if s.benchmarkFrameIdx ≥ NumBenchmarkWarmupFrames then
    let sampleIdx := (s.benchmarkFrameIdx + 2 ^ 32 - NumBenchmarkWarmupFrames) % 2 ^ 32
    if sampleIdx < s.benchmarkSamples.length then
      some (s.benchmarkSamples.set sampleIdx (makeSample s.AppSettings timings), some sampleIdx)
    else none
  else some (s.benchmarkSamples, none)

/-- The summation loop of `TickBenchmark` over the sample slots `0 .. 63`. -/
def sumSamples {F : Type} [DoubleArith F] (samples : List (BenchmarkResults F)) :
    Option (BenchmarkResults F) :=
  (List.range NumBenchmarkMeasureFrames).foldlM
    (fun (results : BenchmarkResults F) sampleIdx =>
      match samples[sampleIdx]? with
      | none => none
      | some sample =>
        some
          { ComputeJobTime := DoubleArith.add results.ComputeJobTime sample.ComputeJobTime
            CPUTimeUpdatingBuffer :=
              DoubleArith.add results.CPUTimeUpdatingBuffer sample.CPUTimeUpdatingBuffer
            CPUTimeReadingBuffer :=
              DoubleArith.add results.CPUTimeReadingBuffer sample.CPUTimeReadingBuffer })
    (BenchmarkResults.init F)

/-- The result `TickBenchmark` stores for a configuration: the sum of the samples divided
by `NumBenchmarkMeasureFrames`. -/
def averageSamples {F : Type} [DoubleArith F] (samples : List (BenchmarkResults F)) :
    Option (BenchmarkResults F) :=
  match sumSamples samples with
  | none => none
  | some results =>
    some
      { ComputeJobTime :=
          DoubleArith.div results.ComputeJobTime (DoubleArith.ofNat NumBenchmarkMeasureFrames)
        CPUTimeUpdatingBuffer :=
          DoubleArith.div results.CPUTimeUpdatingBuffer
            (DoubleArith.ofNat NumBenchmarkMeasureFrames)
        CPUTimeReadingBuffer :=
          DoubleArith.div results.CPUTimeReadingBuffer
            (DoubleArith.ofNat NumBenchmarkMeasureFrames) }

/-- The conversions `%u` and `%llu` of `MakeString`. -/
def formatUnsigned (n : Nat) : String := Nat.repr n

/-- The first line of the report, as `TickBenchmark` assembles it. -/
def csvHeader : String :=
  "HeapType, CPUPageProperty, MemoryPool, InputBufferType, NumThreadGroups, InputBufferSize, ElemsPerThread, ThreadElemStride, GroupElemOffset, ThreadElemOffset, " ++
  "Total Num Threads, CPU-Writable Heap, Total Bytes Read, Unique Bytes Read, " ++
  "Compute Job Time (ms), CPU Time Updating Buffer (ms), CPU Time Reading Buffer (ms), Max Effective Bandwidth (MB) \n"

/-- The local `numTotalThreads` of the report loop
(`AppSettings::ThreadGroupSize * config.NumThreadGroups` stored in a `uint32`). -/
def csvNumTotalThreads (config : BenchmarkConfig) : Nat :=
  ((ThreadGroupSize * config.NumThreadGroups) % 2 ^ 64) % 2 ^ 32

/-- The local `bufferBytesRead` of the report loop (`uint64`). -/
def csvBufferBytesRead (config : BenchmarkConfig) : Nat :=
  (((config.ElemsPerThread * 16) % 2 ^ 64) * csvNumTotalThreads config) % 2 ^ 64

/-- The local `uniqueBytesPerGroup` of the report loop (`uint64`). -/
def csvUniqueBytesPerGroup (config : BenchmarkConfig) : Nat :=
  (((config.ElemsPerThread * 16) % 2 ^ 64) *
    (if config.ThreadElemOffset > 0 then ThreadGroupSize else 1)) % 2 ^ 64

/-- The local `uniqueBytesRead` of the report loop (`uint64`). -/
def csvUniqueBytesRead (config : BenchmarkConfig) : Nat :=
  Min ((csvUniqueBytesPerGroup config *
    (if config.GroupElemOffset > 0 then config.NumThreadGroups else 1)) % 2 ^ 64)
    config.InputBufferSize

/-- The local `maxEffectiveBandwidth` of the report loop:
`(bufferBytesRead / (1024.0 * 1024.0)) / (results.ComputeJobTime / 1000.0)`. -/
def csvMaxEffectiveBandwidth {F : Type} [DoubleArith F] (config : BenchmarkConfig)
    (results : BenchmarkResults F) : F :=
  DoubleArith.div
    (DoubleArith.div (DoubleArith.ofNat (csvBufferBytesRead config))
      (DoubleArith.ofNat (1024 * 1024)))
    (DoubleArith.div results.ComputeJobTime (DoubleArith.ofNat 1000))

/-- The fields of one data row of the report: everything the loop body appends before the
final line break. -/
def csvRowFields {F : Type} [DoubleArith F] (config : BenchmarkConfig)
    (results : BenchmarkResults F) : String :=
  (HeapTypesLabels config.HeapType ++ ", ") ++
  (CPUPagePropertiesLabels config.CPUPageProperty ++ ", ") ++
  (MemoryPoolsLabels config.MemoryPool ++ ", ") ++
  (BufferTypesLabels config.InputBufferType ++ ", ") ++
  (formatUnsigned config.NumThreadGroups ++ ", ") ++
  (formatUnsigned config.InputBufferSize ++ ", ") ++
  (formatUnsigned config.ElemsPerThread ++ ", ") ++
  (formatUnsigned config.ThreadElemStride ++ ", ") ++
  (formatUnsigned config.GroupElemOffset ++ ", ") ++
  (formatUnsigned config.ThreadElemOffset ++ ", ") ++
  (formatUnsigned (csvNumTotalThreads config) ++ ", ") ++
  (if IsInputBufferCPUWritableConfig config = true then "Yes, " else "No, ") ++
  (formatUnsigned (csvBufferBytesRead config) ++ ", ") ++
  (formatUnsigned (csvUniqueBytesRead config) ++ ", ") ++
  (DoubleArith.format results.ComputeJobTime ++ ", ") ++
  (DoubleArith.format results.CPUTimeUpdatingBuffer ++ ", ") ++
  (DoubleArith.format results.CPUTimeReadingBuffer ++ ", ") ++
  (DoubleArith.format (csvMaxEffectiveBandwidth config results) ++ ", ")

/-- One pass of the report loop of `TickBenchmark`: the fields of configuration
`benchmarkIdx` and a line break are appended to the text. -/
def csvAppendRow {F : Type} [DoubleArith F] (benchmarkConfigs : List BenchmarkConfig)
    (benchmarkResults : List (BenchmarkResults F)) (csv : String) (benchmarkIdx : Nat) :
    Option String :=
  match benchmarkConfigs[benchmarkIdx]?, benchmarkResults[benchmarkIdx]? with
  | some config, some results => some (csv ++ csvRowFields config results ++ "\n")
  | _, _ => none

/-- The report loop of `TickBenchmark`: starting from the header, one pass per index
`0 .. numBenchmarks - 1`. -/
def buildCSV {F : Type} [DoubleArith F] (s : State F) : Option String :=
  (List.range s.numBenchmarks).foldlM (csvAppendRow s.benchmarkConfigs s.benchmarkResults)
    csvHeader

/-- What one call of `TickBenchmark` did. -/
structure TickLog where
  /-- Index of the configuration whose settings were applied. -/
  applied : Option Nat := none
  /-- Slot of `benchmarkSamples` that was written. -/
  sampleIdx : Option Nat := none
  /-- Index of the entry of `benchmarkResults` that was written. -/
  aggregated : Option Nat := none
  /-- Text passed to `WriteStringAsFile`. -/
  csv : Option String := none
  deriving DecidableEq, Repr

/-- The method `MemPoolTest::TickBenchmark`. -/
def TickBenchmark {F : Type} [DoubleArith F] (s : State F) (timings : ProfilerTimings F) :
    Option (State F × TickLog) :=
  if s.benchmarkConfigIdx ≥ s.numBenchmarks then
    some (s, {})
  else if s.benchmarkFrameIdx ≥ NumBenchmarkTotalFrames then
    -- Apply the settings for this benchmark run
    match s.benchmarkConfigs[s.benchmarkConfigIdx]? with
    | none => none
    | some config =>
      some
        ({ s with AppSettings := applyConfig config s.AppSettings, benchmarkFrameIdx := 0 },
         { applied := some s.benchmarkConfigIdx })
  else
    match recordSample s timings with
    | none => none
    | some (samples, sampleIdx) =>
      let s1 : State F :=
        { s with benchmarkSamples := samples
                 benchmarkFrameIdx := (s.benchmarkFrameIdx + 1) % 2 ^ 32 }
      let aggregation : Option (State F × Option Nat) :=
        if s1.benchmarkFrameIdx = NumBenchmarkTotalFrames then
          if s1.benchmarkConfigIdx < s1.benchmarkResults.length then
            match averageSamples s1.benchmarkSamples with
            | none => none
            | some results =>
              some
                ({ s1 with
                   benchmarkResults := s1.benchmarkResults.set s1.benchmarkConfigIdx results
                   benchmarkConfigIdx := (s1.benchmarkConfigIdx + 1) % 2 ^ 32 },
                 some s1.benchmarkConfigIdx)
          else none
        else some (s1, none)
      match aggregation with
      | none => none
      | some (s2, aggregated) =>
        if s2.benchmarkConfigIdx = s2.numBenchmarks then
          match buildCSV s2 with
          | none => none
          | some csv =>
            some (s2, { sampleIdx := sampleIdx, aggregated := aggregated, csv := some csv })
        else
          some (s2, { sampleIdx := sampleIdx, aggregated := aggregated })

/-- The state the "Run Benchmark" button of `RenderHUD` leaves. -/
def RunBenchmark {F : Type} (s : State F) : State F :=
  { s with benchmarkConfigIdx := 0, benchmarkFrameIdx := NumBenchmarkTotalFrames }

/-- What happens around one call of `TickBenchmark`: the timings the profiler reports in
that tick, and the changes the rest of the application (user interface, `CreateBuffers`)
made to the settings since the previous tick. -/
structure Frame (F : Type) where
  timings : ProfilerTimings F
  editSettings : Settings → Settings

/-- The tick of frame number `n`, run on the state `s` left by the frames before it. -/
def tickFrame {F : Type} [DoubleArith F] (frames : Nat → Frame F) (n : Nat) (s : State F) :
    Option (State F × TickLog) :=
  TickBenchmark { s with AppSettings := (frames n).editSettings s.AppSettings }
    (frames n).timings

/-- The state after the ticks of the frames `0 .. n - 1`. -/
def runTicks {F : Type} [DoubleArith F] (frames : Nat → Frame F) :
    Nat → State F → Option (State F)
  | 0, s => some s
  | n + 1, s =>
    match runTicks frames n s with
    | none => none
    | some s' => (tickFrame frames n s').map Prod.fst

/-- The log of the tick of frame number `n` (the first frame has number 0). -/
def tickLog {F : Type} [DoubleArith F] (frames : Nat → Frame F) (n : Nat) (s : State F) :
    Option TickLog :=
  match runTicks frames n s with
  | none => none
  | some s' => (tickFrame frames n s').map Prod.snd

/-! ### An exact interpretation of the arithmetic -/

/-- Fixed-point text of a rational number with six decimals, truncated. -/
def formatFixed (q : Rat) : String :=
  let whole := (Rat.floor |q|).toNat
  let decimals := Nat.repr (Rat.floor ((|q| - whole) * 1000000)).toNat
  (if q < 0 then "-" else "") ++ Nat.repr whole ++ "." ++
    String.mk (List.replicate (6 - decimals.length) '0') ++ decimals

/-- The interpretation of the `double` operations by exact rational arithmetic, with which
the theorems are instantiated at concrete values. It agrees with `double` on the values
used there; it differs from `double` in the division by zero, which yields 0 here, and in
`formatFixed`, which truncates where `%f` rounds. -/
instance exactArith : DoubleArith Rat where
  zero := 0
  add := fun a b => a + b
  div := fun a b => a / b
  ofNat := fun n => n
  format := formatFixed

/-! ### MemPoolTest.cpp : Update -/

/-- The settings of namespace `AppSettings`. -/
inductive SettingName where
  | HeapType
  | CPUPageProperty
  | MemoryPool
  | InputBufferType
  | InputBufferSizeMB
  | InputBufferSizeKB
  | InputBufferSizeBytes
  | ElemsPerThread
  | ThreadElemStride
  | GroupElemOffset
  | ThreadElemOffset
  | NumThreadGroups
  | ReadFromGPUMem
  | BufferUploadPath
  | BackgroundUploadSize
  | BackgroundUploadWaitTime
  | NumInputBufferElems
  | InputBufferIdx
  | OutputBufferIdx
  | EnableVSync
  | StablePowerState
  | EnableDriverBackgroundThreads
  deriving DecidableEq, Repr

/-- The calls `MemPoolTest::Update` makes to other methods and to the device. -/
inductive Call where
  | SetVSYNCEnabled
  | TickBenchmark
  | SetStablePowerState
  | SetBackgroundProcessingMode
  | CreateBuffers
  | CompileComputeJob
  | DestroyPSOs
  | CreatePSOs
  | FlushGPU
  deriving DecidableEq, Repr

/-- The array `rebuildBufferSettings` of `Update`. -/
def rebuildBufferSettings : List SettingName :=
  [SettingName.InputBufferSizeMB, SettingName.InputBufferSizeKB,
   SettingName.InputBufferSizeBytes, SettingName.NumThreadGroups, SettingName.HeapType,
   SettingName.CPUPageProperty, SettingName.MemoryPool, SettingName.InputBufferType]

/-- The array `recompileSettings` of `Update`. -/
def recompileSettings : List SettingName :=
  [SettingName.InputBufferSizeMB, SettingName.InputBufferSizeKB,
   SettingName.InputBufferSizeBytes, SettingName.ElemsPerThread, SettingName.ThreadElemStride,
   SettingName.GroupElemOffset, SettingName.ThreadElemOffset, SettingName.InputBufferType]

/-- The loops `for(const Setting* setting : settings) if(setting->Changed()) { body; break; }`
of `Update`: the calls they make. `Changed` gives the result of `Setting::Changed()`, a
method of Settings.h, which is not among the sources. -/
def onFirstChanged (Changed : SettingName → Bool) (body : List Call) :
    List SettingName → List Call
  | [] => []
  | setting :: rest =>
    if Changed setting = true then body else onFirstChanged Changed body rest

/-- The method `MemPoolTest::Update`: the sequence of calls of one update cycle to the
swap chain, the device and the methods of `MemPoolTest`. `stablePowerStateDiffers` and
`driverThreadsDiffer` are the outcomes of the comparisons
`AppSettings::StablePowerState != stablePowerState` and
`AppSettings::EnableDriverBackgroundThreads != driverThreads`. The calls `SetVisible` and
`ClampNumValues` on the settings themselves are not part of the sequence. -/
def Update (Changed : SettingName → Bool) (stablePowerStateDiffers driverThreadsDiffer : Bool) :
    List Call :=
  [Call.SetVSYNCEnabled, Call.TickBenchmark] ++
  (if stablePowerStateDiffers = true then [Call.SetStablePowerState] else []) ++
  (if driverThreadsDiffer = true then [Call.SetBackgroundProcessingMode] else []) ++
  onFirstChanged Changed [Call.CreateBuffers] rebuildBufferSettings ++
  onFirstChanged Changed [Call.CompileComputeJob, Call.DestroyPSOs, Call.CreatePSOs]
    recompileSettings ++
  (if Changed SettingName.BufferUploadPath = true then [Call.FlushGPU] else [])

/-! ### The sweep as a whole -/

/-- The bookkeeping `InitBenchmark` establishes for a sweep of `N` configurations. -/
def Ready {F : Type} (N : Nat) (s : State F) : Prop :=
  s.numBenchmarks = N ∧ s.benchmarkConfigs.length = N ∧ s.benchmarkResults.length = N ∧
    s.benchmarkSamples.length = NumBenchmarkMeasureFrames ∧ N < 2 ^ 32

/-- The text made of the given lines, each followed by a line break. -/
def reportText (lines : List String) : String :=
  lines.foldl (fun text line => text ++ line ++ "\n") ""

/-- The header of the report without its line break. -/
def csvHeaderLine : String :=
  "HeapType, CPUPageProperty, MemoryPool, InputBufferType, NumThreadGroups, InputBufferSize, ElemsPerThread, ThreadElemStride, GroupElemOffset, ThreadElemOffset, Total Num Threads, CPU-Writable Heap, Total Bytes Read, Unique Bytes Read, Compute Job Time (ms), CPU Time Updating Buffer (ms), CPU Time Reading Buffer (ms), Max Effective Bandwidth (MB) "

/-- The value of `benchmarkConfigIdx` before tick number `t` of a sweep of `N`
configurations. -/
def sweepConfigIdx (N t : Nat) : Nat := if 73 * N ≤ t then N else t / 73

/-- The value of `benchmarkFrameIdx` before tick number `t` of a sweep of `N`
configurations. -/
def sweepFrameIdx (N t : Nat) : Nat :=
  if 73 * N ≤ t then 72 else if t % 73 = 0 then 72 else t % 73 - 1

/-- A run in which the profiler reports 1 ms for the compute job and for the buffer update,
and the settings are left alone between the ticks. -/
def steadyFrames : Nat → Frame Rat :=
  fun _ => { timings := { ComputeJob := 1, UpdateBuffer := 1, ReadFromBuffer := 0 }
             editSettings := id }

/-- The application state after `InitBenchmark` on hardware without GPU-upload heaps and a
click on "Run Benchmark". -/
def startedSweep : State Rat := RunBenchmark (InitBenchmark d3d12 {})

/-! ### MemPoolTest.cpp : RenderHUD -/

/-- The local `bufferBytesRead` of `RenderHUD`
(`uint64(AppSettings::ElemsPerThread) * 16ull * numComputeJobThreads`). -/
def hudBufferBytesRead (settings : Settings) (numComputeJobThreads : Nat) : Nat :=
  (((toUInt64 settings.ElemsPerThread * 16) % 2 ^ 64) * numComputeJobThreads) % 2 ^ 64

/-! ### The columns of the report -/

/-- The column names of the header `TickBenchmark` writes, in order. -/
def csvHeaderColumns : List String :=
  ["HeapType", "CPUPageProperty", "MemoryPool", "InputBufferType", "NumThreadGroups",
   "InputBufferSize", "ElemsPerThread", "ThreadElemStride", "GroupElemOffset",
   "ThreadElemOffset", "Total Num Threads", "CPU-Writable Heap", "Total Bytes Read",
   "Unique Bytes Read", "Compute Job Time (ms)", "CPU Time Updating Buffer (ms)",
   "CPU Time Reading Buffer (ms)", "Max Effective Bandwidth (MB)"]

/-- The column names the specification gives for the header, in order. -/
def specHeaderColumns : List String :=
  ["HeapType", "CPUPageProperty", "MemoryPool", "InputBufferType", "NumThreadGroups",
   "InputBufferSize", "ElemsPerThread", "ThreadElemStride", "GroupElemOffset",
   "ThreadElemOffset", "Total Num Threads", "CPU-Writable Heap", "Total Bytes Read",
   "Unique Bytes Read", "Compute Job Time (ms)", "CPU Time Updating Buffer (ms)",
   "CPU Time Reading Buffer (ms)", "Max Effective Bandwidth (MB/s)"]

/-- The values of one data row, in the order the loop body appends them. -/
def csvRowValues {F : Type} [DoubleArith F] (config : BenchmarkConfig)
    (results : BenchmarkResults F) : List String :=
  [HeapTypesLabels config.HeapType, CPUPagePropertiesLabels config.CPUPageProperty,
   MemoryPoolsLabels config.MemoryPool, BufferTypesLabels config.InputBufferType,
   formatUnsigned config.NumThreadGroups, formatUnsigned config.InputBufferSize,
   formatUnsigned config.ElemsPerThread, formatUnsigned config.ThreadElemStride,
   formatUnsigned config.GroupElemOffset, formatUnsigned config.ThreadElemOffset,
   formatUnsigned (csvNumTotalThreads config),
   if IsInputBufferCPUWritableConfig config = true then "Yes" else "No",
   formatUnsigned (csvBufferBytesRead config), formatUnsigned (csvUniqueBytesRead config),
   DoubleArith.format results.ComputeJobTime, DoubleArith.format results.CPUTimeUpdatingBuffer,
   DoubleArith.format results.CPUTimeReadingBuffer,
   DoubleArith.format (csvMaxEffectiveBandwidth config results)]

/-! ### The mean of the samples -/

/-- The sample-wise addition the summation loop of `TickBenchmark` performs. -/
def addSample {F : Type} [DoubleArith F] (results sample : BenchmarkResults F) :
    BenchmarkResults F :=
  { ComputeJobTime := DoubleArith.add results.ComputeJobTime sample.ComputeJobTime
    CPUTimeUpdatingBuffer :=
      DoubleArith.add results.CPUTimeUpdatingBuffer sample.CPUTimeUpdatingBuffer
    CPUTimeReadingBuffer :=
      DoubleArith.add results.CPUTimeReadingBuffer sample.CPUTimeReadingBuffer }

/-- The sum of a list of doubles, added one after the other to `0.0`. -/
def sumOf {F : Type} [DoubleArith F] (values : List F) : F :=
  values.foldl DoubleArith.add DoubleArith.zero

/-- The field-wise mean of the samples: for each field, the sum of the field over the
samples divided by `NumBenchmarkMeasureFrames`. -/
def meanOfSamples {F : Type} [DoubleArith F] (samples : List (BenchmarkResults F)) :
    BenchmarkResults F :=
  { ComputeJobTime :=
      DoubleArith.div (sumOf (samples.map (fun sample => sample.ComputeJobTime)))
        (DoubleArith.ofNat NumBenchmarkMeasureFrames)
    CPUTimeUpdatingBuffer :=
      DoubleArith.div (sumOf (samples.map (fun sample => sample.CPUTimeUpdatingBuffer)))
        (DoubleArith.ofNat NumBenchmarkMeasureFrames)
    CPUTimeReadingBuffer :=
      DoubleArith.div (sumOf (samples.map (fun sample => sample.CPUTimeReadingBuffer)))
        (DoubleArith.ofNat NumBenchmarkMeasureFrames) }

/-! ### GraphicsTypes.cpp : the persistent allocator of DescriptorHeap -/

/-- The constant `InvalidDescriptorIndex` of ShaderShared.h (`uint32_t(-1)`). -/
def InvalidDescriptorIndex : Nat := 2 ^ 32 - 1

/-- The members of `struct DescriptorHeap` (GraphicsTypes.h) that the persistent allocator
uses; `HeapsCreated` stands for `Heaps[0] != nullptr`. The counters are `uint32`. -/
structure DescriptorHeap where
  HeapsCreated : Bool := false
  NumPersistent : Nat := 0
  PersistentAllocated : Nat := 0
  DeadList : List Nat := []
  NumTemporary : Nat := 0
  deriving DecidableEq, Repr

/-- The method `DescriptorHeap::Init`, which starts with `Shutdown()` and its assertion
`PersistentAllocated == 0`; the loop `DeadList[i] = i` runs over the freshly sized array. -/
def DescriptorHeap.Init (heap : DescriptorHeap) (numPersistent numTemporary : Nat) :
    Option DescriptorHeap :=
  if ¬ (heap.PersistentAllocated = 0) then none
  else if ¬ ((numPersistent + numTemporary) % 2 ^ 32 > 0) then none
  else
    some
      { heap with
        HeapsCreated := true
        NumPersistent := numPersistent
        NumTemporary := numTemporary
        DeadList :=
          (List.range numPersistent).foldl (fun deadList i => deadList.set i i)
            (ArrayInit numPersistent 0) }

/-- The search loop of `DescriptorHeap::AllocatePersistent` for a requested index, from
position `i` with `remaining` positions left: the dead list after the loop, with the
requested index swapped to position `persistentAllocated` if it was found. -/
def searchDeadList (deadList : List Nat) (persistentAllocated index : Nat) :
    Nat → Nat → Option (List Nat)
  | 0, _ => some deadList
  | remaining + 1, i =>
    match deadList[i]? with
    | none => none
    | some entry =>
      if entry = index then
        match deadList[persistentAllocated]? with
        | none => none
        | some first => some ((deadList.set i first).set persistentAllocated entry)
      else searchDeadList deadList persistentAllocated index remaining (i + 1)

/-- The method `DescriptorHeap::AllocatePersistent(index)`; the source gives `index` the
default `InvalidDescriptorIndex`, which callers of the model pass explicitly. A failed
assertion or the thrown exception gives `Except.error` with the heap as it is at that point;
success gives the heap and the index of the allocation. -/
def DescriptorHeap.AllocatePersistent (heap : DescriptorHeap) (index : Nat) :
    Except DescriptorHeap (DescriptorHeap × Nat) :=
  if ¬ (heap.HeapsCreated = true) then Except.error heap
  else if ¬ (heap.PersistentAllocated < heap.NumPersistent) then Except.error heap
  else
    let searched : Except DescriptorHeap DescriptorHeap :=
      if index ≠ InvalidDescriptorIndex then
        -- Make sure the index is available, and swap it so it's next in the dead list
        match searchDeadList heap.DeadList heap.PersistentAllocated index
            (heap.NumPersistent - heap.PersistentAllocated) heap.PersistentAllocated with
        | none => Except.error heap
        | some deadList =>
          if deadList[heap.PersistentAllocated]? = some index then
            Except.ok { heap with DeadList := deadList }
          else Except.error { heap with DeadList := deadList }
      else Except.ok heap
    match searched with
    | Except.error failed => Except.error failed
    | Except.ok heap1 =>
      -- Use the next one from the dead list
      match heap1.DeadList[heap1.PersistentAllocated]? with
      | none => Except.error heap1
      | some next =>
        Except.ok
          ({ heap1 with PersistentAllocated := (heap1.PersistentAllocated + 1) % 2 ^ 32 }, next)

/-- The method `DescriptorHeap::FreePersistent(DescriptorIndex&)`. -/
def DescriptorHeap.FreePersistent (heap : DescriptorHeap) (idx : Nat) : Option DescriptorHeap :=
  if idx = InvalidDescriptorIndex then some heap
  else if ¬ (idx < heap.NumPersistent) then none
  else if ¬ (heap.HeapsCreated = true) then none
  else if ¬ (heap.PersistentAllocated > 0) then none
  else if ¬ (heap.PersistentAllocated - 1 < heap.DeadList.length) then none
  else
    some
      { heap with
        DeadList := heap.DeadList.set (heap.PersistentAllocated - 1) idx
        PersistentAllocated := heap.PersistentAllocated - 1 }

/-- A call of the persistent allocator. -/
inductive HeapCall where
  | AllocatePersistent (index : Nat)
  | FreePersistent (idx : Nat)
  deriving DecidableEq, Repr

/-- A descriptor heap together with the indices handed out and not freed since. -/
structure HeapRun where
  heap : DescriptorHeap
  allocated : List Nat
  deriving DecidableEq, Repr

/-- One call on a tracked heap. The run ends (`none`) when the call fails, and also when
`FreePersistent` is applied to an index that is not currently allocated. -/
def HeapRun.call (run : HeapRun) : HeapCall → Option HeapRun
  | HeapCall.AllocatePersistent index =>
    match run.heap.AllocatePersistent index with
    | Except.ok (heap, i) => some { heap := heap, allocated := i :: run.allocated }
    | Except.error _ => none
  | HeapCall.FreePersistent idx =>
    if idx ∈ run.allocated then
      match run.heap.FreePersistent idx with
      | some heap => some { heap := heap, allocated := run.allocated.erase idx }
      | none => none
    else none

/-- A sequence of calls on a tracked heap. -/
def HeapRun.calls (run : HeapRun) (calls : List HeapCall) : Option HeapRun :=
  calls.foldlM HeapRun.call run

/-- The entries of the dead list from position `PersistentAllocated` on: the free indices. -/
def DescriptorHeap.freeList (heap : DescriptorHeap) : List Nat :=
  heap.DeadList.drop heap.PersistentAllocated

/-- The invariant of the persistent allocator for a heap of `numPersistent` descriptors. -/
def HeapRun.Valid (numPersistent : Nat) (run : HeapRun) : Prop :=
  run.heap.HeapsCreated = true ∧
  run.heap.NumPersistent = numPersistent ∧
  numPersistent < 2 ^ 32 ∧
  run.heap.DeadList.length = numPersistent ∧
  run.heap.PersistentAllocated = run.allocated.length ∧
  run.heap.PersistentAllocated ≤ numPersistent ∧
  run.allocated.Nodup ∧
  run.heap.freeList.Nodup ∧
  (∀ a ∈ run.allocated, a < numPersistent) ∧
  (∀ x, x ∈ run.heap.freeList ↔ (x < numPersistent ∧ x ∉ run.allocated))

/-! ### GraphicsTypes.cpp : cycling and uploading dynamic buffers -/

/-- The method `Buffer::Initialized`. -/
def Buffer.Initialized (buffer : Buffer) : Bool := decide (buffer.Size > 0)

/-- The method `Buffer::CycleBuffer`: the buffer after the call and the offset it returns.
`CurrentCPUFrame` is the global `DX12::CurrentCPUFrame`. -/
def Buffer.CycleBuffer (buffer : Buffer) (CurrentCPUFrame : Nat) : Option (Buffer × Nat) :=
  if ¬ (buffer.Initialized = true) then none
  else if ¬ (buffer.Dynamic = true) then none
  -- Make sure that we do this at most once per-frame
  else if ¬ (buffer.UploadFrame ≠ CurrentCPUFrame) then none
  else
    -- Cycle to the next buffer
    let currBuffer := ((buffer.CurrBuffer + 1) % 2 ^ 64) % RenderLatency
    some ({ buffer with UploadFrame := CurrentCPUFrame, CurrBuffer := currBuffer },
          (currBuffer * buffer.Size) % 2 ^ 64)

/-- The method `Buffer::Map`: the buffer after the call and `ResourceOffset` of the result. -/
def Buffer.Map (buffer : Buffer) (CurrentCPUFrame : Nat) : Option (Buffer × Nat) :=
  if ¬ (buffer.Initialized = true) then none
  else if ¬ (buffer.Dynamic = true) then none
  else if ¬ (buffer.CPUAccessible = true) then none
  else buffer.CycleBuffer CurrentCPUFrame

/-- The method `Buffer::MapAndSetData(data, dataSize)`: the buffer after the call and
`ResourceOffset` of the result, the offset at which the data are written. -/
def Buffer.MapAndSetData (buffer : Buffer) (dataSize CurrentCPUFrame : Nat) :
    Option (Buffer × Nat) :=
  if ¬ (dataSize ≤ buffer.Size) then none else buffer.Map CurrentCPUFrame

/-- A range of bytes of a resource that is written: its offset and its size. -/
structure CopyRegion where
  dstOffset : Nat
  size : Nat
  deriving DecidableEq, Repr

/-- The method `Buffer::QueueUpload(srcResource, srcOffset, srcSize, dstOffset)`: the buffer
after the call and the destination it passes to `DX12::QueueFastUpload`. -/
def Buffer.QueueUpload (buffer : Buffer) (srcSize dstOffset CurrentCPUFrame : Nat) :
    Option (Buffer × CopyRegion) :=
  if ¬ (buffer.Dynamic = true) then none
  else if ¬ (buffer.CPUAccessible = false) then none
  else if ¬ ((dstOffset + srcSize) % 2 ^ 64 ≤ buffer.Size) then none
  else
    match buffer.CycleBuffer CurrentCPUFrame with
    | none => none
    | some (cycled, currOffset) =>
      some (cycled, { dstOffset := (currOffset + dstOffset) % 2 ^ 64, size := srcSize })

/-- The method `RawBuffer::MapAndSetData(data, numElements)`: the buffer after the call and
the bytes the `memcpy` writes. The assertion is that of `UpdateDynamicSRV`. -/
def RawBuffer.MapAndSetData (buffer : RawBuffer) (numElements CurrentCPUFrame : Nat) :
    Option (RawBuffer × CopyRegion) :=
  if ¬ (numElements ≤ buffer.NumElements) then none
  else
    match buffer.InternalBuffer.Map CurrentCPUFrame with
    | none => none
    | some (internal, currOffset) =>
      if ¬ (internal.Dynamic = true) then none
      else
        some ({ buffer with InternalBuffer := internal },
              { dstOffset := currOffset, size := (numElements * RawBuffer.Stride) % 2 ^ 64 })

/-- The method `RawBuffer::QueueUpload(srcResource, srcOffset, srcNumElements,
dstElemOffset)`. The assertion is that of `UpdateDynamicSRV`. -/
def RawBuffer.QueueUpload (buffer : RawBuffer)
    (srcNumElements dstElemOffset CurrentCPUFrame : Nat) : Option (RawBuffer × CopyRegion) :=
  match buffer.InternalBuffer.QueueUpload ((srcNumElements * RawBuffer.Stride) % 2 ^ 64)
      ((dstElemOffset * RawBuffer.Stride) % 2 ^ 64) CurrentCPUFrame with
  | none => none
  | some (internal, region) =>
    if ¬ (internal.Dynamic = true) then none
    else some ({ buffer with InternalBuffer := internal }, region)

/-- The method `RawBuffer::CycleBuffer`. The second assertion is that of
`UpdateDynamicSRV`. -/
def RawBuffer.CycleBuffer (buffer : RawBuffer) (CurrentCPUFrame : Nat) :
    Option (RawBuffer × Nat) :=
  match buffer.InternalBuffer.CycleBuffer CurrentCPUFrame with
  | none => none
  | some (internal, currOffset) =>
    if ¬ (internal.Dynamic = true) then none
    else some ({ buffer with InternalBuffer := internal }, currOffset)

/-! ### Containers.h : sizes of an array -/

/-- The method `Array<T>::Size` of an array of `size` elements: the number of elements. -/
def ArraySize (size : Nat) : Nat := size

/-- The method `Array<T>::MemorySize` of an array of `size` elements, `size * sizeof(T)`. -/
def ArrayMemorySize (size elementSize : Nat) : Nat := (size * elementSize) % 2 ^ 64

/-- The size of a `Float4` (four `float` members). -/
def sizeofFloat4 : Nat := 16

/-! ### MemPoolTest.cpp : UpdateBuffer and the views of the input buffer -/

/-- What one call of `UpdateBuffer` wrote. -/
structure UpdateBufferLog where
  /-- Bytes of the input buffer written through its mapping (CPU-writable buffer). -/
  mapped : Option CopyRegion := none
  /-- Bytes of the input buffer resource that the queued copy writes. -/
  upload : Option CopyRegion := none
  /-- Number of bytes the read-back `memcpy` copies into `readbackMem`. -/
  readback : Option Nat := none
  deriving DecidableEq, Repr

/-- The method `MemPoolTest::UpdateBuffer`: the buffers after the call and what it wrote.
An upload buffer that `CreateBuffers` did not initialise is a `Buffer` without size;
`DX12::ResourceUploadBegin` and `ResourceUploadEnd` are outside the model. -/
def UpdateBuffer (settings : Settings) (buffers : Buffers) (CurrentCPUFrame : Nat) :
    Option (Buffers × UpdateBufferLog) :=
  let uploadBuffer : Buffer := buffers.uploadBuffer.getD {}
  let updated : Option (Buffers × UpdateBufferLog) :=
    if IsInputBufferCPUWritable settings = true then
      match buffers.inputBuffer.MapAndSetData buffers.inputBuffer.NumElements
          CurrentCPUFrame with
      | none => none
      | some (inputBuffer, region) =>
        some ({ buffers with inputBuffer := inputBuffer }, { mapped := some region })
    else if settings.BufferUploadPath = BufferUploadPaths.FastUploadCopyQueue then
      -- Queue an async upload with the dedicated "fast" COPY queue
      match uploadBuffer.MapAndSetData uploadBuffer.Size CurrentCPUFrame with
      | none => none
      | some (uploadBuffer1, _) =>
        match buffers.inputBuffer.QueueUpload buffers.inputBuffer.NumElements 0
            CurrentCPUFrame with
        | none => none
        | some (inputBuffer, region) =>
          some ({ buffers with inputBuffer := inputBuffer, uploadBuffer := some uploadBuffer1 },
                { upload := some region })
    else if settings.BufferUploadPath = BufferUploadPaths.UploadCopyQueue then
      -- Use the standard resource uploader path
      let size := uploadBuffer.Size
      match buffers.inputBuffer.CycleBuffer CurrentCPUFrame with
      | none => none
      | some (inputBuffer, dstOffset) =>
        some ({ buffers with inputBuffer := inputBuffer },
              { upload := some { dstOffset := dstOffset, size := size } })
    else
      -- Synchronously upload using the main DIRECT quueue
      match uploadBuffer.MapAndSetData uploadBuffer.Size CurrentCPUFrame with
      | none => none
      | some (uploadBuffer1, _) =>
        match buffers.inputBuffer.CycleBuffer CurrentCPUFrame with
        | none => none
        | some (inputBuffer, dstOffset) =>
          some ({ buffers with inputBuffer := inputBuffer, uploadBuffer := some uploadBuffer1 },
                { upload := some { dstOffset := dstOffset, size := uploadBuffer1.Size } })
  match updated with
  | none => none
  | some (buffers1, log) =>
    if IsInputBufferCPUWritable settings = true ∧ settings.ReadFromGPUMem = true then
      some (buffers1, { log with readback := some (ArraySize buffers1.readbackMem) })
    else some (buffers1, log)

/-- A shader resource view of a buffer: `Buffer.FirstElement`, `Buffer.NumElements` and the
byte size of an element (4 for a raw view, `StructureByteStride` for a structured view, the
size of the format for a formatted view). -/
structure BufferSRV where
  FirstElement : Nat
  NumElements : Nat
  ElementSize : Nat
  deriving DecidableEq, Repr

/-- The first byte of the resource that a view covers. -/
def BufferSRV.firstByte (view : BufferSRV) : Nat := view.FirstElement * view.ElementSize

/-- The byte after the last one that a view covers. -/
def BufferSRV.endByte (view : BufferSRV) : Nat :=
  (view.FirstElement + view.NumElements) * view.ElementSize

/-- The views `CreateBuffers` creates at the handles of `inputBufferSRV`, one per handle
(`ArraySize_(srvAlloc.Handles)` is `RenderLatency`); none for a constant buffer. -/
def inputBufferViews (settings : Settings) (inputBuffer : RawBuffer) (numInputElems : Nat) :
    List BufferSRV :=
  let cpuWritable := IsInputBufferCPUWritable settings
  (List.range RenderLatency).filterMap fun i =>
    match settings.InputBufferType with
    | BufferTypes.Raw =>
      some
        { FirstElement := if cpuWritable then ((inputBuffer.NumElements % 2 ^ 32) * i) % 2 ^ 32
                          else 0
          NumElements := inputBuffer.NumElements % 2 ^ 32
          ElementSize := 4 }
    | BufferTypes.Structured =>
      some
        { FirstElement := if cpuWritable then (numInputElems * i) % 2 ^ 32 else 0
          NumElements := numInputElems
          ElementSize := 16 }
    | BufferTypes.Formatted =>
      some
        { FirstElement := if cpuWritable then (numInputElems * i) % 2 ^ 32 else 0
          NumElements := numInputElems
          ElementSize := 16 }
    | BufferTypes.Constant => none

/-! ### MemPoolTest.cpp : the descriptors of CreateBuffers -/

/-- The call `FreePersistent(idx)` with its reference parameter: the heap and the value of
`idx` after the call. -/
def DescriptorHeap.FreePersistentRef (heap : DescriptorHeap) (idx : Nat) :
    Option (DescriptorHeap × Nat) :=
  (heap.FreePersistent idx).map fun freed => (freed, InvalidDescriptorIndex)

/-- The descriptor indices `SRV` and `UAV` of a `RawBuffer`. -/
structure RawBufferDescriptors where
  SRV : Nat := InvalidDescriptorIndex
  UAV : Nat := InvalidDescriptorIndex
  deriving DecidableEq, Repr

/-- The descriptor part of `RawBuffer::Shutdown`. -/
def RawBufferDescriptors.Shutdown (heap : DescriptorHeap) (buffer : RawBufferDescriptors) :
    Option (DescriptorHeap × RawBufferDescriptors) :=
  match heap.FreePersistentRef buffer.SRV with
  | none => none
  | some (heap1, srv) =>
    match heap1.FreePersistentRef buffer.UAV with
    | none => none
    | some (heap2, uav) => some (heap2, { SRV := srv, UAV := uav })

/-- The descriptor part of `RawBuffer::Initialize`, for `init.CreateUAV = createUAV`. -/
def RawBufferDescriptors.Initialize (heap : DescriptorHeap) (buffer : RawBufferDescriptors)
    (createUAV : Bool) : Option (DescriptorHeap × RawBufferDescriptors) :=
  match buffer.Shutdown heap with
  | none => none
  | some (heap1, buffer1) =>
    match heap1.AllocatePersistent InvalidDescriptorIndex with
    | Except.error _ => none
    | Except.ok (heap2, srv) =>
      if createUAV = true then
        match heap2.AllocatePersistent InvalidDescriptorIndex with
        | Except.error _ => none
        | Except.ok (heap3, uav) => some (heap3, { buffer1 with SRV := srv, UAV := uav })
      else some (heap2, { buffer1 with SRV := srv })

/-- The descriptor heap `DX12::SRVDescriptorHeap`, the descriptor indices held by the
members of `MemPoolTest`, and the settings. -/
structure DescriptorState where
  SRVDescriptorHeap : DescriptorHeap
  inputBuffer : RawBufferDescriptors
  inputBufferSRV : Nat
  outputBuffer : RawBufferDescriptors
  AppSettings : Settings
  deriving DecidableEq, Repr

/-- The method `MemPoolTest::CreateBuffers`: the descriptors it frees and allocates and the
two index settings it writes, in the order of the source. The range of both settings is that
of `AppSettings::Initialize`, all of `int32`; the setting `NumInputBufferElems`, written
between them, does not depend on the descriptors and is left as it is. -/
def CreateBuffersDescriptors (state : DescriptorState) : Option DescriptorState :=
  -- inputBuffer.Shutdown(); uploadBuffer.Shutdown(); outputBuffer.Shutdown();
  match state.inputBuffer.Shutdown state.SRVDescriptorHeap with
  | none => none
  | some (heap1, inputBuffer1) =>
    match state.outputBuffer.Shutdown heap1 with
    | none => none
    | some (heap2, outputBuffer1) =>
      -- DX12::SRVDescriptorHeap.FreePersistent(inputBufferSRV);
      match heap2.FreePersistentRef state.inputBufferSRV with
      | none => none
      | some (heap3, _) =>
        -- inputBuffer.Initialize({ ... });
        match inputBuffer1.Initialize heap3 false with
        | none => none
        | some (heap4, inputBuffer2) =>
          -- PersistentDescriptorAlloc srvAlloc = DX12::SRVDescriptorHeap.AllocatePersistent();
          match heap4.AllocatePersistent InvalidDescriptorIndex with
          | Except.error _ => none
          | Except.ok (heap5, inputBufferSRV) =>
            let settings1 : Settings :=
              { state.AppSettings with
                InputBufferIdx :=
                  IntSettingSetValue (-2147483648) 2147483647 (toInt32 inputBufferSRV)
                OutputBufferIdx :=
                  IntSettingSetValue (-2147483648) 2147483647 (toInt32 outputBuffer1.UAV) }
            -- outputBuffer.Initialize({ .NumElements = numTotalThreads, .CreateUAV = true, ... });
            match outputBuffer1.Initialize heap5 true with
            | none => none
            | some (heap6, outputBuffer2) =>
              some
                { SRVDescriptorHeap := heap6
                  inputBuffer := inputBuffer2
                  inputBufferSRV := inputBufferSRV
                  outputBuffer := outputBuffer2
                  AppSettings := settings1 }

/-- The entries of the dead list of an initialised heap are indices of the heap. -/
def DescriptorHeap.InRange (heap : DescriptorHeap) : Prop :=
  heap.HeapsCreated = true ∧ heap.DeadList.length = heap.NumPersistent ∧
    heap.NumPersistent < 2 ^ 32 ∧ ∀ index ∈ heap.DeadList, index < heap.NumPersistent

/-! ## Theorems -/

/-- C6: the per-configuration predicate is true exactly for Upload and GPUUpload heaps and
for Custom heaps whose CPU page property is not NotAvailable; Default-heap configurations
are never reported CPU-writable. -/
theorem IsInputBufferCPUWritableConfig_iff (config : BenchmarkConfig) :
    (IsInputBufferCPUWritableConfig config = true ↔
      (config.HeapType = HeapTypes.Upload ∨ config.HeapType = HeapTypes.GPUUpload ∨
        (config.HeapType = HeapTypes.Custom ∧
          config.CPUPageProperty ≠ CPUPageProperties.NotAvailable))) ∧
    (config.HeapType = HeapTypes.Default → IsInputBufferCPUWritableConfig config = false) := by
  obtain ⟨ht, cpp, mp, bt, g, sz, e, st, gOff, tOff⟩ := config
  cases ht <;> cases cpp <;> simp [IsInputBufferCPUWritableConfig]

/-- Witness for C6: a Default-heap configuration is not CPU-writable. -/
theorem IsInputBufferCPUWritableConfig_iff_witness :
    IsInputBufferCPUWritableConfig { HeapType := HeapTypes.Default } = false :=
  (IsInputBufferCPUWritableConfig_iff { HeapType := HeapTypes.Default }).2 rfl

/-- C7: for every pair (HeapType, CPUPageProperty) the live-settings predicate and the
per-configuration predicate return the same value. -/
theorem IsInputBufferCPUWritable_agree (settings : Settings) (config : BenchmarkConfig)
    (hHeap : settings.HeapType = config.HeapType)
    (hPage : settings.CPUPageProperty = config.CPUPageProperty) :
    IsInputBufferCPUWritable settings = IsInputBufferCPUWritableConfig config := by
  simp [IsInputBufferCPUWritable, IsInputBufferCPUWritableConfig, hHeap, hPage]

/-- Witness for C7: the pair (Custom, WriteCombine). -/
theorem IsInputBufferCPUWritable_agree_witness :
    IsInputBufferCPUWritable
        { HeapType := HeapTypes.Custom, CPUPageProperty := CPUPageProperties.WriteCombine } =
      IsInputBufferCPUWritableConfig
        { HeapType := HeapTypes.Custom, CPUPageProperty := CPUPageProperties.WriteCombine } :=
  IsInputBufferCPUWritable_agree
    { HeapType := HeapTypes.Custom, CPUPageProperty := CPUPageProperties.WriteCombine }
    { HeapType := HeapTypes.Custom, CPUPageProperty := CPUPageProperties.WriteCombine }
    rfl rfl

/-- The enumeration loops append the sweep to the list they are given. -/
theorem enumerateConfigs_append (sdk : D3D12) (gpu uma : Bool) (l : List BenchmarkConfig) :
    enumerateConfigs sdk gpu uma l = l ++ expectedSweep gpu := by
  cases gpu <;> cases uma <;>
    simp [enumerateConfigs, expectedSweep, sweepBlock, sweepConfig, ListAdd, HeapTypesValues,
      CPUPagePropertiesValues, MemoryPoolsValues, threadGroupCounts, inputBufferSizes,
      elemsPerThreadCounts, threadElemStrides, groupElemOffsets, threadElemOffsets, Id.run]

/-- Every configuration of the sweep is a built-in heap in pool L0. -/
theorem mem_expectedSweep (gpu : Bool) :
    ∀ c ∈ expectedSweep gpu, c.HeapType ≠ HeapTypes.Custom ∧ c.MemoryPool = MemoryPools.L0 := by
  cases gpu <;> decide

/-- C4: whatever the hardware flags, no configuration that `InitBenchmark` adds has heap
type Custom, none has pool L1 on unified-memory hardware, and none has both pool L1 and
page property WriteBack on other hardware. -/
theorem InitBenchmark_filtering {F : Type} [DoubleArith F] (sdk : D3D12) (s : State F) :
    ∃ added : List BenchmarkConfig,
      (InitBenchmark sdk s).benchmarkConfigs = s.benchmarkConfigs ++ added ∧
      ∀ c ∈ added,
        c.HeapType ≠ HeapTypes.Custom ∧
        (s.UMA = true → c.MemoryPool ≠ MemoryPools.L1) ∧
        (s.UMA = false → ¬ (c.MemoryPool = MemoryPools.L1 ∧
          c.CPUPageProperty = CPUPageProperties.WriteBack)) := by
  refine ⟨expectedSweep s.GPUUploadHeapAvailable, ?_, ?_⟩
  · simp [InitBenchmark, enumerateConfigs_append]
  · intro c hc
    obtain ⟨h1, h2⟩ := mem_expectedSweep _ c hc
    simp [h1, h2]

/-- C5: on an empty configuration list `InitBenchmark` produces, for Upload, Default and
(when supported) GPUUpload in this order, the four sizes 32, 64, 96 and 128 MiB with the
fixed remaining fields; `numBenchmarks` is 8 without GPU-upload support and 12 with it,
independently of UMA. -/
theorem InitBenchmark_sweep {F : Type} [DoubleArith F] (sdk : D3D12) (s : State F)
    (hEmpty : s.benchmarkConfigs = []) :
    (InitBenchmark sdk s).benchmarkConfigs =
      [ sweepConfig HeapTypes.Upload (32 * 2 ^ 20), sweepConfig HeapTypes.Upload (64 * 2 ^ 20),
        sweepConfig HeapTypes.Upload (96 * 2 ^ 20), sweepConfig HeapTypes.Upload (128 * 2 ^ 20),
        sweepConfig HeapTypes.Default (32 * 2 ^ 20), sweepConfig HeapTypes.Default (64 * 2 ^ 20),
        sweepConfig HeapTypes.Default (96 * 2 ^ 20), sweepConfig HeapTypes.Default (128 * 2 ^ 20) ]
      ++ (if s.GPUUploadHeapAvailable = true then
        [ sweepConfig HeapTypes.GPUUpload (32 * 2 ^ 20), sweepConfig HeapTypes.GPUUpload (64 * 2 ^ 20),
          sweepConfig HeapTypes.GPUUpload (96 * 2 ^ 20),
          sweepConfig HeapTypes.GPUUpload (128 * 2 ^ 20) ] else []) ∧
    (InitBenchmark sdk s).numBenchmarks =
      (if s.GPUUploadHeapAvailable = true then 12 else 8) := by
  have h : (InitBenchmark sdk s).benchmarkConfigs =
      expectedSweep s.GPUUploadHeapAvailable := by
    simp [InitBenchmark, enumerateConfigs_append, hEmpty]
  have hn : (InitBenchmark sdk s).numBenchmarks =
      (expectedSweep s.GPUUploadHeapAvailable).length % 2 ^ 32 := by
    simp [InitBenchmark, enumerateConfigs_append, hEmpty]
  rw [h, hn]
  cases s.GPUUploadHeapAvailable <;> simp [expectedSweep, sweepBlock]

/-- Witness for C5: the freshly constructed application state, without GPU-upload support. -/
theorem InitBenchmark_sweep_witness :
    (InitBenchmark d3d12 ({} : State Rat)).benchmarkConfigs =
      [ sweepConfig HeapTypes.Upload (32 * 2 ^ 20), sweepConfig HeapTypes.Upload (64 * 2 ^ 20),
        sweepConfig HeapTypes.Upload (96 * 2 ^ 20), sweepConfig HeapTypes.Upload (128 * 2 ^ 20),
        sweepConfig HeapTypes.Default (32 * 2 ^ 20), sweepConfig HeapTypes.Default (64 * 2 ^ 20),
        sweepConfig HeapTypes.Default (96 * 2 ^ 20), sweepConfig HeapTypes.Default (128 * 2 ^ 20) ]
      ++ (if ({} : State Rat).GPUUploadHeapAvailable = true then
        [ sweepConfig HeapTypes.GPUUpload (32 * 2 ^ 20), sweepConfig HeapTypes.GPUUpload (64 * 2 ^ 20),
          sweepConfig HeapTypes.GPUUpload (96 * 2 ^ 20),
          sweepConfig HeapTypes.GPUUpload (128 * 2 ^ 20) ] else []) ∧
    (InitBenchmark d3d12 ({} : State Rat)).numBenchmarks =
      (if ({} : State Rat).GPUUploadHeapAvailable = true then 12 else 8) :=
  InitBenchmark_sweep d3d12 {} rfl

/-- The calls of a `for ... if(Changed()) { body; break; }` loop: the body once if any
setting of the array changed, nothing otherwise. -/
theorem onFirstChanged_eq (Changed : SettingName → Bool) (body : List Call)
    (settings : List SettingName) :
    onFirstChanged Changed body settings =
      if settings.any Changed = true then body else [] := by
  induction settings with
  | nil => simp [onFirstChanged]
  | cons setting rest ih =>
    by_cases h : Changed setting = true
    · simp [onFirstChanged, h]
    · simp [onFirstChanged, h, ih]

/-- C9: in an update cycle in which HeapType is the only setting that changed,
`CreateBuffers` is called exactly once and none of `CompileComputeJob`, `DestroyPSOs`,
`CreatePSOs` is called. -/
theorem Update_heapType_only (Changed : SettingName → Bool) (stable driver : Bool)
    (hOnly : ∀ setting, Changed setting = true ↔ setting = SettingName.HeapType) :
    (Update Changed stable driver).count Call.CreateBuffers = 1 ∧
    Call.CompileComputeJob ∉ Update Changed stable driver ∧
    Call.DestroyPSOs ∉ Update Changed stable driver ∧
    Call.CreatePSOs ∉ Update Changed stable driver := by
  have h : ∀ setting, Changed setting = decide (setting = SettingName.HeapType) := by
    intro setting
    by_cases hs : setting = SettingName.HeapType
    · simp [hs, (hOnly SettingName.HeapType).2 rfl]
    · have : ¬ (Changed setting = true) := fun hc => hs ((hOnly setting).1 hc)
      simpa [hs] using this
  cases stable <;> cases driver <;>
    simp [Update, onFirstChanged, rebuildBufferSettings, recompileSettings, h]

/-- Witness for C9: the cycle in which exactly HeapType changed. -/
theorem Update_heapType_only_witness :
    (Update (fun setting => decide (setting = SettingName.HeapType)) false false).count
        Call.CreateBuffers = 1 ∧
    Call.CompileComputeJob ∉
      Update (fun setting => decide (setting = SettingName.HeapType)) false false ∧
    Call.DestroyPSOs ∉
      Update (fun setting => decide (setting = SettingName.HeapType)) false false ∧
    Call.CreatePSOs ∉
      Update (fun setting => decide (setting = SettingName.HeapType)) false false :=
  Update_heapType_only (fun setting => decide (setting = SettingName.HeapType)) false false
    (by intro setting; simp)

/-- C10: `CreateBuffers` is not called in a cycle in which none of the eight watched
settings changed, and it is called exactly once in a cycle in which at least one of them
changed, however many did. -/
theorem Update_CreateBuffers_count (Changed : SettingName → Bool) (stable driver : Bool) :
    ((Changed SettingName.InputBufferSizeMB = false ∧
      Changed SettingName.InputBufferSizeKB = false ∧
      Changed SettingName.InputBufferSizeBytes = false ∧
      Changed SettingName.NumThreadGroups = false ∧
      Changed SettingName.HeapType = false ∧
      Changed SettingName.CPUPageProperty = false ∧
      Changed SettingName.MemoryPool = false ∧
      Changed SettingName.InputBufferType = false) →
        (Update Changed stable driver).count Call.CreateBuffers = 0) ∧
    ((Changed SettingName.InputBufferSizeMB = true ∨
      Changed SettingName.InputBufferSizeKB = true ∨
      Changed SettingName.InputBufferSizeBytes = true ∨
      Changed SettingName.NumThreadGroups = true ∨
      Changed SettingName.HeapType = true ∨
      Changed SettingName.CPUPageProperty = true ∨
      Changed SettingName.MemoryPool = true ∨
      Changed SettingName.InputBufferType = true) →
        (Update Changed stable driver).count Call.CreateBuffers = 1) := by
  have hrest : ∀ l : List Call, Call.CreateBuffers ∉ l → l.count Call.CreateBuffers = 0 :=
    fun l hl => List.count_eq_zero.2 hl
  have hcount : (Update Changed stable driver).count Call.CreateBuffers =
      if rebuildBufferSettings.any Changed = true then 1 else 0 := by
    cases stable <;> cases driver <;>
      by_cases hb : rebuildBufferSettings.any Changed = true <;>
      by_cases hc : recompileSettings.any Changed = true <;>
      by_cases hu : Changed SettingName.BufferUploadPath = true <;>
      simp [Update, onFirstChanged_eq, hb, hc, hu]
  rw [hcount]
  constructor
  · rintro ⟨h1, h2, h3, h4, h5, h6, h7, h8⟩
    simp [rebuildBufferSettings, h1, h2, h3, h4, h5, h6, h7, h8]
  · intro h
    have : rebuildBufferSettings.any Changed = true := by
      simp only [rebuildBufferSettings, List.any_cons, List.any_nil, Bool.or_false,
        Bool.or_eq_true]
      tauto
    simp [this]

/-- Witness for C10: a cycle without any change and a cycle in which every setting changed. -/
theorem Update_CreateBuffers_count_witness :
    (Update (fun _ => false) false false).count Call.CreateBuffers = 0 ∧
    (Update (fun _ => true) false false).count Call.CreateBuffers = 1 :=
  ⟨(Update_CreateBuffers_count (fun _ => false) false false).1
      ⟨rfl, rfl, rfl, rfl, rfl, rfl, rfl, rfl⟩,
   (Update_CreateBuffers_count (fun _ => true) false false).2 (Or.inl rfl)⟩

/-- Without wrap-around the 32-bit `AlignTo` rounds up to a multiple of the alignment. -/
theorem AlignTo_eq (num alignment : Nat) (ha : 0 < alignment) (hn : num + alignment ≤ 2 ^ 32) :
    AlignTo num alignment = some ((num + alignment - 1) / alignment * alignment) := by
  have h1 : (num + alignment - 1) / alignment * alignment ≤ num + alignment - 1 :=
    Nat.div_mul_le_self _ _
  have h2 : (num + alignment - 1) % 2 ^ 32 = num + alignment - 1 := Nat.mod_eq_of_lt (by omega)
  simp only [AlignTo, gt_iff_lt, ha, if_true, h2]
  rw [Nat.mod_eq_of_lt (by omega)]

/-- The 64-bit `AlignTo` leaves a multiple of the alignment unchanged. -/
theorem AlignTo64_of_dvd (num alignment : Nat) (ha : 0 < alignment) (hd : alignment ∣ num)
    (hn : num + alignment ≤ 2 ^ 64) : AlignTo64 num alignment = some num := by
  obtain ⟨k, rfl⟩ := hd
  have h2 : (alignment * k + alignment - 1) % 2 ^ 64 = alignment * k + alignment - 1 :=
    Nat.mod_eq_of_lt (by omega)
  have h3 : (alignment * k + alignment - 1) / alignment = k := by
    have : alignment * k + alignment - 1 = (alignment - 1) + alignment * k := by omega
    rw [this, Nat.add_mul_div_left _ _ ha, Nat.div_eq_of_lt (by omega)]
    simp
  simp only [AlignTo64, gt_iff_lt, ha, if_true, h2, h3]
  rw [Nat.mul_comm k alignment, Nat.mod_eq_of_lt (by omega)]

/-- The buffer `RawBuffer::Initialize` creates for a dynamic request of `n` elements, `n` a
positive multiple of four. -/
theorem RawBuffer_Initialize_dynamic (n : Nat) (w : Bool) (hpos : 0 < n) (h4 : 4 ∣ n)
    (hlt : n < 2 ^ 32) :
    RawBuffer.Initialize { NumElements := n, Dynamic := true, CPUAccessible := w, HeapOffset := 0 }
        true =
      some
        { InternalBuffer :=
            { CurrBuffer := 0, Alignment := 4, Size := 4 * n, Dynamic := true, CPUAccessible := w,
              HeapOffset := 0, Width := 4 * n * 2 }
          NumElements := n } := by
  have e1 : (4 * n) % 2 ^ 64 = 4 * n := by omega
  have e2 : AlignTo64 (4 * n) 16 = some (4 * n) :=
    AlignTo64_of_dvd _ _ (by norm_num) (by omega) (by omega)
  have e3 : AlignTo64 (4 * n) 4 = some (4 * n) :=
    AlignTo64_of_dvd _ _ (by norm_num) (by omega) (by omega)
  have e4 : (4 * n * 2) % 2 ^ 64 = 4 * n * 2 := by omega
  have hn0 : 4 * n ≠ 0 := by omega
  have hn1 : n ≠ 0 := by omega
  simp only [RawBuffer.Initialize, RawBuffer.Stride, Buffer.Initialize, RenderLatency, e1, e2,
    e3, e4]
  simp [hpos, hn0, hn1]

/-- For in-range size settings the request of `CreateBuffers` is
`MB * 2^20 + KB * 1024 + Bytes`, without wrap-around. -/
theorem requestedInputBufferSize_eq (settings : Settings)
    (hMB : 0 ≤ settings.InputBufferSizeMB ∧ settings.InputBufferSizeMB ≤ 256)
    (hKB : 0 ≤ settings.InputBufferSizeKB ∧ settings.InputBufferSizeKB ≤ 1024)
    (hBytes : 0 ≤ settings.InputBufferSizeBytes ∧ settings.InputBufferSizeBytes ≤ 1024) :
    (requestedInputBufferSize settings : Int) =
      settings.InputBufferSizeMB * 2 ^ 20 + settings.InputBufferSizeKB * 1024 +
        settings.InputBufferSizeBytes := by
  simp only [requestedInputBufferSize, toUInt32]
  omega

/-- When `inputBufferSize` is at least 16 the input buffer is created and holds as many
whole 16-byte elements as fit in that size. -/
theorem createInputBuffer_of_size (sdk : D3D12) (settings : Settings) (size : Nat)
    (hsize : inputBufferSize sdk settings = some size) (h16 : 16 ≤ size) (hlt : size < 2 ^ 32) :
    ∃ buffer, createInputBuffer sdk settings = some buffer ∧
      buffer.NumElements = size / 16 * 4 ∧ buffer.InternalBuffer.Size = 16 * (size / 16) := by
  have hn : (size / 16 * 4) % 2 ^ 32 = size / 16 * 4 := by omega
  have hinit := RawBuffer_Initialize_dynamic (size / 16 * 4) (IsInputBufferCPUWritable settings)
    (by omega) (by omega) (by omega)
  have hb : createInputBuffer sdk settings =
      RawBuffer.Initialize
        { NumElements := size / 16 * 4, Dynamic := true,
          CPUAccessible := IsInputBufferCPUWritable settings, HeapOffset := 0 } true := by
    simp only [createInputBuffer, numInputElems, hsize, Option.map_some', hn]
  rw [hinit] at hb
  exact ⟨_, hb, rfl, by show 4 * (size / 16 * 4) = 16 * (size / 16); omega⟩

/-- C8 (amended): for in-range size settings, and a request of at least 16 bytes unless
the representation is Constant, `CreateBuffers` creates the input buffer, and its
single-copy byte size `4 * NumElements = InternalBuffer.Size` is `16 * (aligned / 16)`,
where `aligned` is the local `inputBufferSize`: the request clamped to [1, max] and rounded
up to the least multiple of the alignment (256 for Constant, 1 otherwise). So the size is
the clamped, aligned request rounded down to a whole number of 16-byte elements: it is at
most `aligned` and less than 16 bytes below it, is at most the clamped request when the
representation is not Constant, falls short of the clamped request by less than 16 bytes,
reaches it when the representation is Constant or the clamped request is a multiple of 16,
is a multiple of the alignment and is at most the maximum (`MaxCBufferSize` for Constant,
1 GiB otherwise). -/
theorem createInputBuffer_size (sdk : D3D12) (settings : Settings)
    (hCount : 0 < sdk.REQ_CONSTANT_BUFFER_ELEMENT_COUNT)
    (hDvd : 16 ∣ sdk.REQ_CONSTANT_BUFFER_ELEMENT_COUNT)
    (hSmall : sdk.REQ_CONSTANT_BUFFER_ELEMENT_COUNT ≤ 2 ^ 26)
    (hMB : 0 ≤ settings.InputBufferSizeMB ∧ settings.InputBufferSizeMB ≤ 256)
    (hKB : 0 ≤ settings.InputBufferSizeKB ∧ settings.InputBufferSizeKB ≤ 1024)
    (hBytes : 0 ≤ settings.InputBufferSizeBytes ∧ settings.InputBufferSizeBytes ≤ 1024)
    (hWhole : settings.InputBufferType = BufferTypes.Constant ∨
      16 ≤ settings.InputBufferSizeMB * 2 ^ 20 + settings.InputBufferSizeKB * 1024 +
        settings.InputBufferSizeBytes) :
    ∃ request aligned buffer,
      Clamp (requestedInputBufferSize settings) 1 (maxInputBufferSize sdk settings) =
        some request ∧
      (request : Int) =
        max (1 : Int) (min (settings.InputBufferSizeMB * 2 ^ 20 +
          settings.InputBufferSizeKB * 1024 + settings.InputBufferSizeBytes)
          ((maxInputBufferSize sdk settings : Nat) : Int)) ∧
      inputBufferSize sdk settings = some aligned ∧
      (if settings.InputBufferType = BufferTypes.Constant then 256 else 1) ∣ aligned ∧
      request ≤ aligned ∧
      aligned < request + (if settings.InputBufferType = BufferTypes.Constant then 256 else 1) ∧
      createInputBuffer sdk settings = some buffer ∧
      4 * buffer.NumElements = buffer.InternalBuffer.Size ∧
      buffer.InternalBuffer.Size = 16 * (aligned / 16) ∧
      buffer.InternalBuffer.Size ≤ aligned ∧
      aligned < buffer.InternalBuffer.Size + 16 ∧
      (settings.InputBufferType ≠ BufferTypes.Constant → buffer.InternalBuffer.Size ≤ request) ∧
      request < buffer.InternalBuffer.Size + 16 ∧
      ((settings.InputBufferType = BufferTypes.Constant ∨ 16 ∣ request) →
        request ≤ buffer.InternalBuffer.Size) ∧
      (if settings.InputBufferType = BufferTypes.Constant then 256 else 1) ∣
        buffer.InternalBuffer.Size ∧
      buffer.InternalBuffer.Size ≤
        (if settings.InputBufferType = BufferTypes.Constant then MaxCBufferSize sdk
         else 2 ^ 30) := by
  have hreq := requestedInputBufferSize_eq settings hMB hKB hBytes
  generalize hreqdef : requestedInputBufferSize settings = req at hreq ⊢
  obtain ⟨k, hk⟩ := hDvd
  have hmaxC : MaxCBufferSize sdk = 256 * k := by
    simp only [MaxCBufferSize]; omega
  by_cases hT : settings.InputBufferType = BufferTypes.Constant
  · -- constant buffers: the size is the clamped request rounded up to 256 bytes
    have hmax : maxInputBufferSize sdk settings = 256 * k := by
      simp [maxInputBufferSize, hT, hmaxC]
    have hclamp : Clamp req 1 (256 * k) =
        some (if req < 1 then 1 else if req > 256 * k then 256 * k else req) := by
      simp only [Clamp]; rw [if_pos (by omega)]
    set c := (if req < 1 then 1 else if req > 256 * k then 256 * k else req) with hc
    have hc1 : 1 ≤ c ∧ c ≤ 256 * k := by
      rw [hc]; split_ifs <;> omega
    have hsize : inputBufferSize sdk settings = some ((c + 256 - 1) / 256 * 256) := by
      have h256 : ConstantBufferAlignment % 2 ^ 32 = 256 := by
        simp [ConstantBufferAlignment]
      have hal := AlignTo_eq c 256 (by norm_num) (by omega)
      simp only [inputBufferSize, hreqdef, hmax, hclamp, inputBufferAlignment, hT, if_true, h256]
      rw [hal]
    obtain ⟨buffer, hb, hn, hs⟩ := createInputBuffer_of_size sdk settings _ hsize (by omega) (by omega)
    refine ⟨c, (c + 256 - 1) / 256 * 256, buffer, by rw [hmax, hclamp], ?_, hsize, ?_, by omega,
      ?_, hb, by omega, hs, by omega, by omega, fun h => absurd hT h, by omega, fun _ => by omega,
      ?_, ?_⟩
    · rw [hmax, hc]; split_ifs <;> omega
    · rw [if_pos hT]; omega
    · rw [if_pos hT]; omega
    · rw [if_pos hT, hs]; omega
    · rw [if_pos hT, hs, hmaxC]; omega
  · -- other representations: the size is the clamped request rounded down to 16 bytes
    have h16 : (16 : Int) ≤ req := by
      rcases hWhole with h | h
      · exact absurd h hT
      · omega
    have hmax : maxInputBufferSize sdk settings = 2 ^ 30 := by
      simp [maxInputBufferSize, hT]
    have hclamp : Clamp req 1 (2 ^ 30) =
        some (if req < 1 then 1 else if req > 2 ^ 30 then 2 ^ 30 else req) := by
      simp only [Clamp]; rw [if_pos (by omega)]
    set c := (if req < 1 then 1 else if req > 2 ^ 30 then 2 ^ 30 else req) with hc
    have hc1 : 16 ≤ c ∧ c ≤ 2 ^ 30 := by
      rw [hc]; split_ifs <;> omega
    have hsize : inputBufferSize sdk settings = some c := by
      simp only [inputBufferSize, hreqdef, hmax, hclamp, inputBufferAlignment, hT, if_false]
      rw [AlignTo_eq c 1 (by norm_num) (by omega)]
      simp
    obtain ⟨buffer, hb, hn, hs⟩ := createInputBuffer_of_size sdk settings _ hsize (by omega) (by omega)
    refine ⟨c, c, buffer, by rw [hmax, hclamp], ?_, hsize, ?_, le_refl _, ?_, hb, by omega, hs,
      by omega, by omega, fun _ => by omega, by omega, fun h => ?_, ?_, ?_⟩
    · rw [hmax, hc]; split_ifs <;> omega
    · rw [if_neg hT]; exact one_dvd _
    · rw [if_neg hT]; omega
    · rcases h with h | h
      · exact absurd h hT
      · omega
    · rw [if_neg hT]; exact one_dvd _
    · rw [if_neg hT, hs]; omega

/-- Witness for C8 (amended): a raw buffer with a request of 17 bytes, which is rounded down
to one element of 16 bytes. -/
theorem createInputBuffer_size_witness :
    ∃ request aligned buffer,
      Clamp
          (requestedInputBufferSize
            { InputBufferType := BufferTypes.Raw, InputBufferSizeMB := 0, InputBufferSizeKB := 0,
              InputBufferSizeBytes := 17 }) 1
          (maxInputBufferSize d3d12
            { InputBufferType := BufferTypes.Raw, InputBufferSizeMB := 0, InputBufferSizeKB := 0,
              InputBufferSizeBytes := 17 }) = some request ∧
      inputBufferSize d3d12
          { InputBufferType := BufferTypes.Raw, InputBufferSizeMB := 0, InputBufferSizeKB := 0,
            InputBufferSizeBytes := 17 } = some aligned ∧
      request ≤ aligned ∧
      createInputBuffer d3d12
          { InputBufferType := BufferTypes.Raw, InputBufferSizeMB := 0, InputBufferSizeKB := 0,
            InputBufferSizeBytes := 17 } = some buffer ∧
      4 * buffer.NumElements = buffer.InternalBuffer.Size ∧
      buffer.InternalBuffer.Size = 16 * (aligned / 16) ∧
      buffer.InternalBuffer.Size ≤ aligned ∧
      aligned < buffer.InternalBuffer.Size + 16 :=
  have ⟨request, aligned, buffer, h1, _, h3, _, h5, _, h7, h8, h9, h10, h11, _⟩ :=
    createInputBuffer_size d3d12
      { InputBufferType := BufferTypes.Raw, InputBufferSizeMB := 0, InputBufferSizeKB := 0,
        InputBufferSizeBytes := 17 }
      (by decide) (by decide) (by decide) (by decide) (by decide) (by decide) (by decide)
  ⟨request, aligned, buffer, h1, h3, h5, h7, h8, h9, h10, h11⟩

/-- C8 (counterexample): for a raw buffer and a request of 17 bytes (MB = 0, KB = 0,
Bytes = 17) the clamped request is 17, the created input buffer has 4 elements and a
single-copy size of 16 bytes, which is less than the request. -/
theorem createInputBuffer_size_counterexample :
    ∃ request buffer,
      Clamp
          (requestedInputBufferSize
            { InputBufferType := BufferTypes.Raw, InputBufferSizeMB := 0, InputBufferSizeKB := 0,
              InputBufferSizeBytes := 17 }) 1
          (maxInputBufferSize d3d12
            { InputBufferType := BufferTypes.Raw, InputBufferSizeMB := 0, InputBufferSizeKB := 0,
              InputBufferSizeBytes := 17 }) = some request ∧
      createInputBuffer d3d12
          { InputBufferType := BufferTypes.Raw, InputBufferSizeMB := 0, InputBufferSizeKB := 0,
            InputBufferSizeBytes := 17 } = some buffer ∧
      request = 17 ∧ buffer.NumElements = 4 ∧ buffer.InternalBuffer.Size = 16 ∧
      ¬ (request ≤ buffer.InternalBuffer.Size) :=
  ⟨17, _, by decide, rfl, rfl, rfl, rfl, by decide⟩

/-! ### The benchmark state machine and its report -/

/-- A fold in `Option` over indices below `n` succeeds when every step on such an index does. -/
theorem foldlM_isSome {β : Type} (f : β → Nat → Option β) (n : Nat)
    (hf : ∀ b i, i < n → ∃ b', f b i = some b') :
    ∀ (l : List Nat) (init : β), (∀ i ∈ l, i < n) → ∃ r, l.foldlM f init = some r := by
  intro l
  induction l with
  | nil => intro init _; exact ⟨init, rfl⟩
  | cons i rest ih =>
    intro init hl
    obtain ⟨b', hb⟩ := hf init i (hl i (List.mem_cons_self _ _))
    obtain ⟨r, hr⟩ := ih b' (fun j hj => hl j (List.mem_cons_of_mem _ hj))
    exact ⟨r, by simp [List.foldlM_cons, hb, hr]⟩

/-- With all 64 sample slots present the aggregation reads no slot out of bounds. -/
theorem averageSamples_isSome {F : Type} [DoubleArith F] (samples : List (BenchmarkResults F))
    (hlen : samples.length = NumBenchmarkMeasureFrames) :
    ∃ results, averageSamples samples = some results := by
  have hsum : ∃ r, sumSamples samples = some r := by
    unfold sumSamples
    apply foldlM_isSome _ NumBenchmarkMeasureFrames
    · intro b i hi
      have hi' : i < samples.length := by omega
      simp [List.getElem?_eq_getElem hi']
    · intro i hi
      exact List.mem_range.1 hi
  obtain ⟨r, hr⟩ := hsum
  simp only [averageSamples, hr]
  exact ⟨_, rfl⟩

/-- An access below the length of a list succeeds. -/
theorem getElem?_of_lt {α : Type} (l : List α) (i : Nat) (h : i < l.length) :
    ∃ x, l[i]? = some x := ⟨l[i], List.getElem?_eq_getElem h⟩

/-- An idle machine ignores the tick. -/
theorem TickBenchmark_idle {F : Type} [DoubleArith F] (s : State F) (p : ProfilerTimings F)
    (hc : s.numBenchmarks ≤ s.benchmarkConfigIdx) : TickBenchmark s p = some (s, {}) := by
  simp [TickBenchmark, hc]

/-- The tick that applies a configuration. -/
theorem TickBenchmark_apply {F : Type} [DoubleArith F]
    (N : Nat) (s : State F) (p : ProfilerTimings F) (h : Ready N s)
    (hc : s.benchmarkConfigIdx < N) (hf : NumBenchmarkTotalFrames ≤ s.benchmarkFrameIdx) :
    ∃ s', TickBenchmark s p = some (s', { applied := some s.benchmarkConfigIdx }) ∧
      Ready N s' ∧ s'.benchmarkConfigIdx = s.benchmarkConfigIdx ∧ s'.benchmarkFrameIdx = 0 := by
  obtain ⟨h1, h2, h3, h4, h5⟩ := h
  obtain ⟨config, hcfg⟩ := getElem?_of_lt s.benchmarkConfigs s.benchmarkConfigIdx (by omega)
  have hc' : ¬ (s.benchmarkConfigIdx ≥ s.numBenchmarks) := by omega
  refine ⟨{ s with AppSettings := applyConfig config s.AppSettings, benchmarkFrameIdx := 0 },
    ?_, ⟨h1, h2, h3, h4, h5⟩, rfl, rfl⟩
  simp only [TickBenchmark, if_neg hc', hcfg]
  rw [if_pos (by simpa using hf)]

/-- A warm-up or measurement tick that is not the last one of its configuration. -/
theorem TickBenchmark_frame {F : Type} [DoubleArith F]
    (N : Nat) (s : State F) (p : ProfilerTimings F) (h : Ready N s)
    (hc : s.benchmarkConfigIdx < N) (hf : s.benchmarkFrameIdx + 1 < NumBenchmarkTotalFrames) :
    ∃ s', TickBenchmark s p =
        some (s', { sampleIdx := (if NumBenchmarkWarmupFrames ≤ s.benchmarkFrameIdx then
          some (s.benchmarkFrameIdx - NumBenchmarkWarmupFrames) else none) }) ∧
      Ready N s' ∧ s'.benchmarkConfigIdx = s.benchmarkConfigIdx ∧
      s'.benchmarkFrameIdx = s.benchmarkFrameIdx + 1 := by
  obtain ⟨h1, h2, h3, h4, h5⟩ := h
  simp only [NumBenchmarkTotalFrames, NumBenchmarkWarmupFrames, NumBenchmarkMeasureFrames] at *
  have hc' : ¬ (s.benchmarkConfigIdx ≥ s.numBenchmarks) := by omega
  have hf' : ¬ (s.benchmarkFrameIdx ≥ 8 + 64) := by omega
  have hf1 : (s.benchmarkFrameIdx + 1) % 2 ^ 32 = s.benchmarkFrameIdx + 1 := by omega
  have hf2 : ¬ (s.benchmarkFrameIdx + 1 = 8 + 64) := by omega
  have hc2 : ¬ (s.benchmarkConfigIdx = s.numBenchmarks) := by omega
  by_cases hw : 8 ≤ s.benchmarkFrameIdx
  · have hidx : (s.benchmarkFrameIdx + 2 ^ 32 - 8) % 2 ^ 32 = s.benchmarkFrameIdx - 8 := by omega
    have hlt : s.benchmarkFrameIdx - 8 < s.benchmarkSamples.length := by omega
    simp only [TickBenchmark, NumBenchmarkTotalFrames, NumBenchmarkWarmupFrames,
      NumBenchmarkMeasureFrames, recordSample, if_neg hc', if_neg hf', hidx, hf1,
      if_neg hf2, if_neg hc2, ge_iff_le, if_pos hw, if_pos hlt]
    exact ⟨_, rfl, ⟨h1, h2, h3, by simpa using h4, h5⟩, rfl, rfl⟩
  · simp only [TickBenchmark, NumBenchmarkTotalFrames, NumBenchmarkWarmupFrames,
      NumBenchmarkMeasureFrames, recordSample, if_neg hc', if_neg hf', hf1,
      if_neg hf2, if_neg hc2, ge_iff_le, if_neg hw]
    exact ⟨_, rfl, ⟨h1, h2, h3, h4, h5⟩, rfl, rfl⟩

set_option maxRecDepth 100000 in
/-- The header the code assembles is the header line followed by a line break. -/
theorem csvHeader_eq : csvHeader = "" ++ csvHeaderLine ++ "\n" := by decide

/-- The first `n` passes of the report loop append the first `n` rows, in order. -/
theorem csvLoop_eq {F : Type} [DoubleArith F]
    (configs : List BenchmarkConfig) (results : List (BenchmarkResults F))
    (init : String) (n : Nat) (hC : n ≤ configs.length) (hR : n ≤ results.length) :
    (List.range n).foldlM
      (csvAppendRow configs results) init =
    some (((List.zipWith csvRowFields configs results).take n).foldl
      (fun text line => text ++ line ++ "\n") init) := by
  induction n with
  | zero => simp
  | succ n ih =>
    have hc : n < configs.length := by omega
    have hr : n < results.length := by omega
    have hz : n < (List.zipWith csvRowFields configs results).length := by
      simp [List.length_zipWith]; omega
    rw [List.range_succ, List.foldlM_append, ih (by omega) (by omega)]
    simp [csvAppendRow, List.getElem?_eq_getElem hc, List.getElem?_eq_getElem hr,
      List.take_succ, List.getElem?_eq_getElem hz, List.foldl_append]

/-- The report is the header line followed by one row per configuration, in order. -/
theorem buildCSV_eq {F : Type} [DoubleArith F]
    (s : State F) (hC : s.benchmarkConfigs.length = s.numBenchmarks)
    (hR : s.benchmarkResults.length = s.numBenchmarks) :
    buildCSV s =
      some (reportText
        (csvHeaderLine :: List.zipWith csvRowFields s.benchmarkConfigs s.benchmarkResults)) := by
  unfold buildCSV
  rw [csvLoop_eq _ _ _ _ (by omega) (by omega)]
  have hlen : (List.zipWith csvRowFields s.benchmarkConfigs s.benchmarkResults).length
      ≤ s.numBenchmarks := by
    simp [List.length_zipWith]; omega
  rw [List.take_of_length_le hlen, reportText, List.foldl_cons, csvHeader_eq]

/-- The last measurement tick of a configuration: slot 63 is written, the result is
aggregated, and the report is written exactly if this was the last configuration. -/
theorem TickBenchmark_last {F : Type} [DoubleArith F]
    (N : Nat) (s : State F) (p : ProfilerTimings F) (h : Ready N s)
    (hc : s.benchmarkConfigIdx < N) (hf : s.benchmarkFrameIdx + 1 = NumBenchmarkTotalFrames) :
    ∃ s', TickBenchmark s p =
        some (s', { sampleIdx := some (NumBenchmarkMeasureFrames - 1)
                    aggregated := some s.benchmarkConfigIdx
                    csv := (if s.benchmarkConfigIdx + 1 = N then
                      some (reportText (csvHeaderLine ::
                        List.zipWith csvRowFields s'.benchmarkConfigs s'.benchmarkResults))
                      else none) }) ∧
      Ready N s' ∧ s'.benchmarkConfigIdx = s.benchmarkConfigIdx + 1 ∧
      s'.benchmarkFrameIdx = NumBenchmarkTotalFrames := by
  obtain ⟨h1, h2, h3, h4, h5⟩ := h
  simp only [NumBenchmarkTotalFrames, NumBenchmarkWarmupFrames, NumBenchmarkMeasureFrames] at *
  have hc' : ¬ (s.benchmarkConfigIdx ≥ s.numBenchmarks) := by omega
  have hf' : ¬ (s.benchmarkFrameIdx ≥ 8 + 64) := by omega
  have hw : s.benchmarkFrameIdx ≥ 8 := by omega
  have hf1 : (s.benchmarkFrameIdx + 1) % 2 ^ 32 = 8 + 64 := by omega
  have hc1 : (s.benchmarkConfigIdx + 1) % 2 ^ 32 = s.benchmarkConfigIdx + 1 := by omega
  have hidx : (s.benchmarkFrameIdx + 2 ^ 32 - 8) % 2 ^ 32 = 63 := by omega
  have hlt : 63 < s.benchmarkSamples.length := by omega
  have hcr : s.benchmarkConfigIdx < s.benchmarkResults.length := by omega
  obtain ⟨r, hr⟩ := averageSamples_isSome
    (s.benchmarkSamples.set 63 (makeSample s.AppSettings p)) (by simpa using h4)
  simp only [TickBenchmark, NumBenchmarkTotalFrames, NumBenchmarkWarmupFrames,
    NumBenchmarkMeasureFrames, recordSample, if_neg hc', if_neg hf', hidx, hf1, hc1, hr,
    if_pos hw, if_pos hlt, if_pos hcr, if_true]
  by_cases hN : s.benchmarkConfigIdx + 1 = N
  · have hN' : s.benchmarkConfigIdx + 1 = s.numBenchmarks := by omega
    simp only [if_pos hN', if_pos hN]
    rw [buildCSV_eq _ (by simpa using h2.trans h1.symm) (by simpa using h3.trans h1.symm)]
    exact ⟨_, rfl, ⟨h1, h2, by simpa using h3, by simpa using h4, h5⟩, rfl, rfl⟩
  · have hN' : ¬ (s.benchmarkConfigIdx + 1 = s.numBenchmarks) := by omega
    simp only [if_neg hN', if_neg hN]
    exact ⟨_, rfl, ⟨h1, h2, by simpa using h3, by simpa using h4, h5⟩, rfl, rfl⟩

/-- No decimal digit is a line break. -/
theorem digitChar_ne_newline : ∀ d < 10, Nat.digitChar d ≠ '\n' := by decide

/-- The digits of a number contain no line break. -/
theorem toDigitsCore_no_newline (fuel : Nat) :
    ∀ (n : Nat) (ds : List Char), (∀ c ∈ ds, c ≠ '\n') →
      ∀ c ∈ Nat.toDigitsCore 10 fuel n ds, c ≠ '\n' := by
  induction fuel with
  | zero => intro n ds hds; simpa [Nat.toDigitsCore] using hds
  | succ fuel ih =>
    intro n ds hds
    have hcons : ∀ c ∈ Nat.digitChar (n % 10) :: ds, c ≠ '\n' := by
      intro c hc
      rcases List.mem_cons.1 hc with h | h
      · rw [h]; exact digitChar_ne_newline _ (Nat.mod_lt _ (by norm_num))
      · exact hds c h
    simp only [Nat.toDigitsCore]
    split
    · exact hcons
    · exact ih _ _ hcons

/-- The text of an unsigned integer contains no line break. -/
theorem formatUnsigned_no_newline (n : Nat) : '\n' ∉ (formatUnsigned n).data := by
  intro h
  have := toDigitsCore_no_newline (n + 1) n [] (by simp) '\n'
    (by simpa [formatUnsigned, Nat.repr, Nat.toDigits, List.asString] using h)
  exact this rfl

/-- The fields of a data row contain no line break when the texts of the doubles do not. -/
theorem csvRowFields_no_newline {F : Type} [DoubleArith F]
    (hfmt : ∀ x : F, '\n' ∉ (DoubleArith.format x).data)
    (config : BenchmarkConfig) (results : BenchmarkResults F) :
    '\n' ∉ (csvRowFields config results).data := by
  have hH : '\n' ∉ (HeapTypesLabels config.HeapType).data := by
    cases config.HeapType <;> decide
  have hP : '\n' ∉ (CPUPagePropertiesLabels config.CPUPageProperty).data := by
    cases config.CPUPageProperty <;> decide
  have hM : '\n' ∉ (MemoryPoolsLabels config.MemoryPool).data := by
    cases config.MemoryPool <;> decide
  have hB : '\n' ∉ (BufferTypesLabels config.InputBufferType).data := by
    cases config.InputBufferType <;> decide
  have hW : '\n' ∉ (if IsInputBufferCPUWritableConfig config = true then "Yes, " else "No, ").data := by
    split <;> decide
  have hsep : '\n' ∉ (", " : String).data := by decide
  simp only [csvRowFields, String.data_append, List.mem_append, not_or]
  refine ⟨⟨⟨⟨⟨⟨⟨⟨⟨⟨⟨⟨⟨⟨⟨⟨⟨⟨hH, hsep⟩, hP, hsep⟩, hM, hsep⟩, hB, hsep⟩, ?_, hsep⟩, ?_, hsep⟩, ?_, hsep⟩,
    ?_, hsep⟩, ?_, hsep⟩, ?_, hsep⟩, ?_, hsep⟩, hW⟩, ?_, hsep⟩, ?_, hsep⟩, hfmt _, hsep⟩,
    hfmt _, hsep⟩, hfmt _, hsep⟩, hfmt _, hsep⟩ <;> exact formatUnsigned_no_newline _

set_option maxRecDepth 100000 in
/-- The header line contains no line break. -/
theorem csvHeaderLine_no_newline : '\n' ∉ csvHeaderLine.data := by decide

/-- Appending lines without line breaks adds one line break per line. -/
theorem count_newline_foldl (lines : List String) (hl : ∀ line ∈ lines, '\n' ∉ line.data) :
    ∀ init : String,
      (lines.foldl (fun text line => text ++ line ++ "\n") init).data.count '\n' =
        init.data.count '\n' + lines.length := by
  induction lines with
  | nil => intro init; simp
  | cons line rest ih =>
    intro init
    have h0 : line.data.count '\n' = 0 :=
      List.count_eq_zero.2 (hl line (List.mem_cons_self _ _))
    have h1 : ("\n" : String).data.count '\n' = 1 := by decide
    rw [List.foldl_cons, ih (fun l hlr => hl l (List.mem_cons_of_mem _ hlr))]
    simp only [String.data_append, List.count_append, h0, h1, List.length_cons]
    omega

/-- A text of lines without line breaks has as many line breaks as lines. -/
theorem reportText_count (lines : List String) (hl : ∀ line ∈ lines, '\n' ∉ line.data) :
    (reportText lines).data.count '\n' = lines.length := by
  rw [reportText, count_newline_foldl lines hl]
  simp

/-- Editing the settings does not touch the bookkeeping of the sweep. -/
theorem Ready_edit {F : Type} {N : Nat} {s : State F} (h : Ready N s) (settings : Settings) :
    Ready N { s with AppSettings := settings } := h

/-- The counters of the sweep after `t` ticks. -/
theorem runTicks_counters {F : Type} [DoubleArith F]
    (frames : Nat → Frame F) (N : Nat) (s : State F) (h : Ready N s)
    (hc : s.benchmarkConfigIdx = 0) (hf : s.benchmarkFrameIdx = NumBenchmarkTotalFrames) :
    ∀ t, ∃ s', runTicks frames t s = some s' ∧ Ready N s' ∧
      s'.benchmarkConfigIdx = sweepConfigIdx N t ∧ s'.benchmarkFrameIdx = sweepFrameIdx N t := by
  intro t
  induction t with
  | zero =>
    refine ⟨s, rfl, h, ?_, ?_⟩
    · simp only [sweepConfigIdx]; split_ifs <;> omega
    · simp only [sweepFrameIdx, NumBenchmarkTotalFrames, NumBenchmarkWarmupFrames,
        NumBenchmarkMeasureFrames] at *
      split_ifs <;> omega
  | succ t ih =>
    obtain ⟨s1, hrun, hR, hc1, hf1⟩ := ih
    simp only [runTicks, hrun, tickFrame]
    obtain ⟨s2, hs2, hR2, hc2, hf2⟩ : ∃ s2 : State F,
        s2 = { s1 with AppSettings := (frames t).editSettings s1.AppSettings } ∧ Ready N s2 ∧
        s2.benchmarkConfigIdx = sweepConfigIdx N t ∧ s2.benchmarkFrameIdx = sweepFrameIdx N t :=
      ⟨_, rfl, Ready_edit hR _, hc1, hf1⟩
    rw [← hs2]
    simp only [sweepConfigIdx, sweepFrameIdx] at hc2 hf2 ⊢
    by_cases hdone : 73 * N ≤ t
    · rw [if_pos hdone] at hc2 hf2
      have hidle := TickBenchmark_idle s2 (frames t).timings (by rw [hR2.1, hc2])
      rw [hidle]
      refine ⟨s2, rfl, hR2, ?_, ?_⟩
      · rw [hc2, if_pos (by omega)]
      · rw [hf2, if_pos (by omega)]
    · rw [if_neg hdone] at hc2 hf2
      have hlt : s2.benchmarkConfigIdx < N := by omega
      by_cases h0 : t % 73 = 0
      · rw [if_pos h0] at hf2
        obtain ⟨s3, hstep, hR3, hc3, hf3⟩ := TickBenchmark_apply N s2 (frames t).timings hR2 hlt
          (by simp [NumBenchmarkTotalFrames, NumBenchmarkWarmupFrames,
            NumBenchmarkMeasureFrames, hf2])
        rw [hstep]
        refine ⟨s3, rfl, hR3, ?_, ?_⟩
        · rw [hc3, hc2, if_neg (by omega)]; omega
        · rw [hf3, if_neg (by omega), if_neg (by omega)]; omega
      · rw [if_neg h0] at hf2
        by_cases h72 : t % 73 = 72
        · obtain ⟨s3, hstep, hR3, hc3, hf3⟩ := TickBenchmark_last N s2 (frames t).timings hR2 hlt
            (by simp only [NumBenchmarkTotalFrames, NumBenchmarkWarmupFrames,
              NumBenchmarkMeasureFrames]; omega)
          rw [hstep]
          refine ⟨s3, rfl, hR3, ?_, ?_⟩
          · rw [hc3, hc2]; split_ifs <;> omega
          · rw [hf3]
            simp only [NumBenchmarkTotalFrames, NumBenchmarkWarmupFrames,
              NumBenchmarkMeasureFrames]
            split_ifs <;> omega
        · obtain ⟨s3, hstep, hR3, hc3, hf3⟩ := TickBenchmark_frame N s2 (frames t).timings hR2 hlt
            (by simp only [NumBenchmarkTotalFrames, NumBenchmarkWarmupFrames,
              NumBenchmarkMeasureFrames]; omega)
          rw [hstep]
          refine ⟨s3, rfl, hR3, ?_, ?_⟩
          · rw [hc3, hc2, if_neg (by omega)]; omega
          · rw [hf3, hf2, if_neg (by omega), if_neg (by omega)]; omega

/-- What tick number `t` of a sweep of `N` configurations does. -/
theorem tickLog_sweep {F : Type} [DoubleArith F]
    (frames : Nat → Frame F) (N : Nat) (s : State F) (h : Ready N s)
    (hc : s.benchmarkConfigIdx = 0) (hf : s.benchmarkFrameIdx = NumBenchmarkTotalFrames)
    (t : Nat) :
    ∃ log, tickLog frames t s = some log ∧
      log.applied = (if t < 73 * N ∧ t % 73 = 0 then some (t / 73) else none) ∧
      log.sampleIdx = (if t < 73 * N ∧ 9 ≤ t % 73 then some (t % 73 - 9) else none) ∧
      log.aggregated = (if t < 73 * N ∧ t % 73 = 72 then some (t / 73) else none) ∧
      (log.csv.isSome = true ↔ t + 1 = 73 * N) ∧
      (∀ text, log.csv = some text →
        ∃ s', runTicks frames (t + 1) s = some s' ∧ buildCSV s' = some text) := by
  obtain ⟨s1, hrun, hR, hc1, hf1⟩ := runTicks_counters frames N s h hc hf t
  simp only [tickLog, runTicks, hrun, tickFrame]
  obtain ⟨s2, hs2, hR2, hc2, hf2⟩ : ∃ s2 : State F,
      s2 = { s1 with AppSettings := (frames t).editSettings s1.AppSettings } ∧ Ready N s2 ∧
      s2.benchmarkConfigIdx = sweepConfigIdx N t ∧ s2.benchmarkFrameIdx = sweepFrameIdx N t :=
    ⟨_, rfl, Ready_edit hR _, hc1, hf1⟩
  rw [← hs2]
  simp only [sweepConfigIdx, sweepFrameIdx] at hc2 hf2
  by_cases hdone : 73 * N ≤ t
  · rw [if_pos hdone] at hc2 hf2
    rw [TickBenchmark_idle s2 (frames t).timings (by rw [hR2.1, hc2])]
    refine ⟨{}, rfl, ?_, ?_, ?_, ?_, ?_⟩
    · rw [if_neg (by omega)]
    · rw [if_neg (by omega)]
    · rw [if_neg (by omega)]
    · simp; omega
    · intro text ht; simp at ht
  · rw [if_neg hdone] at hc2 hf2
    have hlt : s2.benchmarkConfigIdx < N := by omega
    by_cases h0 : t % 73 = 0
    · rw [if_pos h0] at hf2
      obtain ⟨s3, hstep, hR3, hc3, hf3⟩ := TickBenchmark_apply N s2 (frames t).timings hR2 hlt
        (by simp [NumBenchmarkTotalFrames, NumBenchmarkWarmupFrames,
          NumBenchmarkMeasureFrames, hf2])
      rw [hstep]
      refine ⟨_, rfl, ?_, ?_, ?_, ?_, ?_⟩
      · rw [if_pos ⟨by omega, h0⟩, hc2]
      · rw [if_neg (by omega)]
      · rw [if_neg (by omega)]
      · simp; omega
      · intro text ht; simp at ht
    · rw [if_neg h0] at hf2
      by_cases h72 : t % 73 = 72
      · obtain ⟨s3, hstep, hR3, hc3, hf3⟩ := TickBenchmark_last N s2 (frames t).timings hR2 hlt
          (by simp only [NumBenchmarkTotalFrames, NumBenchmarkWarmupFrames,
            NumBenchmarkMeasureFrames]; omega)
        rw [hstep]
        refine ⟨_, rfl, ?_, ?_, ?_, ?_, ?_⟩
        · show (none : Option Nat) = _
          rw [if_neg (by omega)]
        · show some (NumBenchmarkMeasureFrames - 1) = _
          rw [if_pos ⟨by omega, by omega⟩]
          simp only [NumBenchmarkMeasureFrames]
          congr 1; omega
        · show some s2.benchmarkConfigIdx = _
          rw [if_pos ⟨by omega, h72⟩, hc2]
        · show Option.isSome (if s2.benchmarkConfigIdx + 1 = N then _ else none) = true ↔ _
          split_ifs with hN
          · simp; omega
          · simp; omega
        · intro text ht
          refine ⟨s3, rfl, ?_⟩
          rw [buildCSV_eq s3 (hR3.2.1.trans hR3.1.symm) (hR3.2.2.1.trans hR3.1.symm)]
          have ht' : (if s2.benchmarkConfigIdx + 1 = N then
              some (reportText (csvHeaderLine ::
                List.zipWith csvRowFields s3.benchmarkConfigs s3.benchmarkResults))
              else none) = some text := ht
          split_ifs at ht' with hN
          exact ht'
      · obtain ⟨s3, hstep, hR3, hc3, hf3⟩ := TickBenchmark_frame N s2 (frames t).timings hR2 hlt
          (by simp only [NumBenchmarkTotalFrames, NumBenchmarkWarmupFrames,
            NumBenchmarkMeasureFrames]; omega)
        rw [hstep]
        refine ⟨_, rfl, ?_, ?_, ?_, ?_, ?_⟩
        · show (none : Option Nat) = _
          rw [if_neg (by omega)]
        · show (if NumBenchmarkWarmupFrames ≤ s2.benchmarkFrameIdx then
            some (s2.benchmarkFrameIdx - NumBenchmarkWarmupFrames) else none) = _
          simp only [NumBenchmarkWarmupFrames]
          by_cases h9 : 9 ≤ t % 73
          · rw [if_pos (by omega), if_pos ⟨by omega, h9⟩]
            congr 1; omega
          · rw [if_neg (by omega), if_neg (by omega)]
        · show (none : Option Nat) = _
          rw [if_neg (by omega)]
        · show Option.isSome (none : Option String) = true ↔ _
          simp; omega
        · intro text ht; simp at ht

/-- Every row of the report comes from a configuration and a result. -/
theorem mem_zipWith_csvRowFields {F : Type} [DoubleArith F] (configs : List BenchmarkConfig)
    (results : List (BenchmarkResults F)) (line : String)
    (h : line ∈ List.zipWith csvRowFields configs results) :
    ∃ (config : BenchmarkConfig) (result : BenchmarkResults F),
      line = csvRowFields config result := by
  induction configs generalizing results with
  | nil => simp at h
  | cons c cs ih =>
    cases results with
    | nil => simp at h
    | cons r rs =>
      rw [List.zipWith_cons_cons] at h
      rcases List.mem_cons.1 h with h | h
      · exact ⟨c, r, h⟩
      · exact ih rs h

/-- C3: for `N` configurations and `N` results the report text consists of `N + 1` lines,
each followed by a line break and none containing one (the text has exactly `N + 1` line
breaks): the header line, then for every `i < N` the fields of `benchmarkConfigs[i]` and
`benchmarkResults[i]` as line `i + 1`. The texts `printf` produces for the doubles are
assumed to contain no line break. -/
theorem TickBenchmark_report_lines {F : Type} [DoubleArith F]
    (s : State F) (N : Nat) (hN : s.numBenchmarks = N)
    (hC : s.benchmarkConfigs.length = N) (hR : s.benchmarkResults.length = N)
    (hfmt : ∀ x : F, '\n' ∉ (DoubleArith.format x).data) :
    ∃ lines : List String,
      buildCSV s = some (reportText lines) ∧
      lines.length = N + 1 ∧
      (∀ line ∈ lines, '\n' ∉ line.data) ∧
      (reportText lines).data.count '\n' = N + 1 ∧
      lines[0]? = some csvHeaderLine ∧
      ∀ i, i < N → ∃ config results,
        s.benchmarkConfigs[i]? = some config ∧ s.benchmarkResults[i]? = some results ∧
        lines[i + 1]? = some (csvRowFields config results) := by
  have hlen : (csvHeaderLine ::
      List.zipWith csvRowFields s.benchmarkConfigs s.benchmarkResults).length = N + 1 := by
    simp [List.length_zipWith, hC, hR]
  have hno : ∀ line ∈ csvHeaderLine ::
      List.zipWith csvRowFields s.benchmarkConfigs s.benchmarkResults, '\n' ∉ line.data := by
    intro line hl
    rcases List.mem_cons.1 hl with h | h
    · rw [h]; exact csvHeaderLine_no_newline
    · obtain ⟨c, r, hcr⟩ := mem_zipWith_csvRowFields _ _ _ h
      rw [hcr]; exact csvRowFields_no_newline hfmt c r
  refine ⟨_, buildCSV_eq s (hC.trans hN.symm) (hR.trans hN.symm), hlen, hno, ?_, ?_, ?_⟩
  · rw [reportText_count _ hno, hlen]
  · simp
  · intro i hi
    have hc : i < s.benchmarkConfigs.length := by omega
    have hr : i < s.benchmarkResults.length := by omega
    refine ⟨s.benchmarkConfigs[i], s.benchmarkResults[i], List.getElem?_eq_getElem hc,
      List.getElem?_eq_getElem hr, ?_⟩
    simp [List.getElem?_cons_succ, List.getElem?_zipWith, List.getElem?_eq_getElem hc,
      List.getElem?_eq_getElem hr]

/-- C1: in a sweep started from the "Run Benchmark" state, with 73 ticks per configuration
(one that applies it, 8 warm-up ticks, 64 measurement ticks), configuration `i` is applied
exactly by tick `73 * i`, its result is aggregated exactly by tick `73 * i + 72`, and a
tick between the two records a sample into slot `j` exactly if `j < 64` and it is tick
`73 * i + 9 + j`: 64 samples, one per slot `0 .. 63`, and no more. -/
theorem TickBenchmark_samples_per_config {F : Type} [DoubleArith F]
    (frames : Nat → Frame F) (N : Nat) (s : State F) (hReady : Ready N s)
    (hStart : s.benchmarkConfigIdx = 0 ∧ s.benchmarkFrameIdx = NumBenchmarkTotalFrames)
    (i : Nat) (hi : i < N) (t : Nat) :
    ∃ log, tickLog frames t s = some log ∧
      (log.applied = some i ↔ t = 73 * i) ∧
      (log.aggregated = some i ↔ t = 73 * i + 72) ∧
      (∀ j, (73 * i ≤ t ∧ t ≤ 73 * i + 72 ∧ log.sampleIdx = some j) ↔
        (j < NumBenchmarkMeasureFrames ∧ t = 73 * i + 9 + j)) := by
  obtain ⟨log, hlog, ha, hs, hg, -, -⟩ := tickLog_sweep frames N s hReady hStart.1 hStart.2 t
  refine ⟨log, hlog, ?_, ?_, ?_⟩
  · rw [ha]
    split_ifs with h
    · simp only [Option.some.injEq]; omega
    · simp only [false_iff]
      intro ht; exact h ⟨by omega, by omega⟩
  · rw [hg]
    split_ifs with h
    · simp only [Option.some.injEq]; omega
    · simp only [false_iff]
      intro ht; exact h ⟨by omega, by omega⟩
  · intro j
    rw [hs]
    simp only [NumBenchmarkMeasureFrames]
    split_ifs with h
    · simp only [Option.some.injEq]; omega
    · simp only [and_false, false_iff]
      intro ht; exact h ⟨by omega, by omega⟩

/-- C2: in a sweep of `N >= 1` configurations started from the "Run Benchmark" state no tick
fails, a tick writes the report exactly if it aggregates the result of configuration
`N - 1`, this is tick `73 * N - 1` and no other, and the text written is the report built
from the state that tick leaves. -/
theorem TickBenchmark_report_once {F : Type} [DoubleArith F]
    (frames : Nat → Frame F) (N : Nat) (s : State F)
    (hReady : Ready N s)
    (hStart : s.benchmarkConfigIdx = 0 ∧ s.benchmarkFrameIdx = NumBenchmarkTotalFrames)
    (hN : 1 ≤ N) (t : Nat) :
    ∃ log, tickLog frames t s = some log ∧
      (log.csv.isSome = true ↔ log.aggregated = some (N - 1)) ∧
      (log.csv.isSome = true ↔ t = 73 * N - 1) ∧
      (∀ text, log.csv = some text →
        ∃ s', runTicks frames (t + 1) s = some s' ∧ buildCSV s' = some text) := by
  obtain ⟨log, hlog, -, -, hg, hcsv, htext⟩ :=
    tickLog_sweep frames N s hReady hStart.1 hStart.2 t
  refine ⟨log, hlog, ?_, ?_, htext⟩
  · rw [hcsv, hg]
    split_ifs with h
    · simp only [Option.some.injEq]; omega
    · simp only [iff_false]
      intro ht; exact h ⟨by omega, by omega⟩
  · rw [hcsv]; omega

/-- After `InitBenchmark` on an empty configuration list and "Run Benchmark" the machine is
ready for a sweep of 8 or 12 configurations. -/
theorem Ready_RunBenchmark_InitBenchmark {F : Type} [DoubleArith F] (sdk : D3D12) (s : State F)
    (hEmpty : s.benchmarkConfigs = []) :
    Ready (if s.GPUUploadHeapAvailable = true then 12 else 8) (RunBenchmark (InitBenchmark sdk s)) ∧
    (RunBenchmark (InitBenchmark sdk s)).benchmarkConfigIdx = 0 ∧
    (RunBenchmark (InitBenchmark sdk s)).benchmarkFrameIdx = NumBenchmarkTotalFrames := by
  refine ⟨⟨?_, ?_, ?_, ?_, ?_⟩, rfl, rfl⟩
  · simp only [RunBenchmark, InitBenchmark, enumerateConfigs_append, hEmpty]
    cases s.GPUUploadHeapAvailable <;> simp [expectedSweep, sweepBlock]
  · simp only [RunBenchmark, InitBenchmark, enumerateConfigs_append, hEmpty]
    cases s.GPUUploadHeapAvailable <;> simp [expectedSweep, sweepBlock]
  · simp only [RunBenchmark, InitBenchmark, enumerateConfigs_append, hEmpty, ArrayInit]
    cases s.GPUUploadHeapAvailable <;> simp [expectedSweep, sweepBlock]
  · simp [RunBenchmark, InitBenchmark, ArrayInit]
  · split <;> norm_num

/-- The started sweep is ready for 8 configurations. -/
theorem startedSweep_ready : Ready 8 startedSweep :=
  (Ready_RunBenchmark_InitBenchmark d3d12 ({} : State Rat) rfl).1

/-- The exact interpretation prints no line break. -/
theorem formatFixed_no_newline (q : Rat) : '\n' ∉ (formatFixed q).data := by
  have hsign : '\n' ∉ (if q < 0 then "-" else "").data := by
    split <;> decide
  have hdot : '\n' ∉ (".": String).data := by decide
  simp only [formatFixed, String.data_append, List.mem_append, not_or]
  refine ⟨⟨⟨⟨hsign, formatUnsigned_no_newline _⟩, hdot⟩, ?_⟩, formatUnsigned_no_newline _⟩
  intro h
  have := List.eq_of_mem_replicate h
  exact absurd this (by decide)

/-- Witness for C1: the first measurement tick (tick 9) of configuration 0 of the sweep
of 8 configurations. -/
theorem TickBenchmark_samples_per_config_witness :
    ∃ log, tickLog steadyFrames 9 startedSweep = some log ∧
      (log.applied = some 0 ↔ 9 = 73 * 0) ∧
      (log.aggregated = some 0 ↔ 9 = 73 * 0 + 72) ∧
      (∀ j, (73 * 0 ≤ 9 ∧ 9 ≤ 73 * 0 + 72 ∧ log.sampleIdx = some j) ↔
        (j < NumBenchmarkMeasureFrames ∧ 9 = 73 * 0 + 9 + j)) :=
  TickBenchmark_samples_per_config steadyFrames 8 startedSweep startedSweep_ready ⟨rfl, rfl⟩
    0 (by decide) 9

/-- Witness for C2: the last tick (tick 583) of the sweep of 8 configurations. -/
theorem TickBenchmark_report_once_witness :
    ∃ log, tickLog steadyFrames 583 startedSweep = some log ∧
      (log.csv.isSome = true ↔ log.aggregated = some (8 - 1)) ∧
      (log.csv.isSome = true ↔ 583 = 73 * 8 - 1) ∧
      (∀ text, log.csv = some text →
        ∃ s', runTicks steadyFrames (583 + 1) startedSweep = some s' ∧
          buildCSV s' = some text) :=
  TickBenchmark_report_once steadyFrames 8 startedSweep startedSweep_ready ⟨rfl, rfl⟩
    (by decide) 583

/-- Witness for C3: the report of the started sweep of 8 configurations. -/
theorem TickBenchmark_report_lines_witness :
    ∃ lines : List String,
      buildCSV startedSweep = some (reportText lines) ∧
      lines.length = 8 + 1 ∧
      (∀ line ∈ lines, '\n' ∉ line.data) ∧
      (reportText lines).data.count '\n' = 8 + 1 ∧
      lines[0]? = some csvHeaderLine ∧
      ∀ i, i < 8 → ∃ config results,
        startedSweep.benchmarkConfigs[i]? = some config ∧
        startedSweep.benchmarkResults[i]? = some results ∧
        lines[i + 1]? = some (csvRowFields config results) :=
  TickBenchmark_report_lines startedSweep 8 startedSweep_ready.1 startedSweep_ready.2.1
    startedSweep_ready.2.2.1 formatFixed_no_newline

/-! ### The figures of the report -/

/-- C11 (counterexample): in the scenario of the claim (16 MB input buffer, one element per
thread, 4096 thread groups of 256 threads) the program computes 16,777,216 bytes read, on the
HUD and in the report alike, not 67,108,864. -/
theorem bufferBytesRead_scenario_counterexample :
    numTotalThreads
        { InputBufferSizeMB := 16, InputBufferSizeKB := 0, InputBufferSizeBytes := 0,
          ElemsPerThread := 1, NumThreadGroups := 4096 } = 1048576 ∧
    hudBufferBytesRead
        { InputBufferSizeMB := 16, InputBufferSizeKB := 0, InputBufferSizeBytes := 0,
          ElemsPerThread := 1, NumThreadGroups := 4096 }
        (numTotalThreads
          { InputBufferSizeMB := 16, InputBufferSizeKB := 0, InputBufferSizeBytes := 0,
            ElemsPerThread := 1, NumThreadGroups := 4096 }) = 16777216 ∧
    csvBufferBytesRead
        { ElemsPerThread := 1, NumThreadGroups := 4096, InputBufferSize := 16 * 2 ^ 20 } =
      16777216 ∧
    (16777216 : Nat) ≠ 67108864 := by
  decide

/-- C11 (amended): with ElemsPerThread = 1 and NumThreadGroups = 4096 (and ThreadGroupSize =
256) the number of threads is 4096 x 256 and the Total Bytes Read value the program computes,
on the HUD from the settings and in the report from the configuration, is 16,777,216 bytes,
whatever the input buffer size is. -/
theorem bufferBytesRead_scenario (settings : Settings) (config : BenchmarkConfig)
    (hElems : settings.ElemsPerThread = 1) (hGroups : settings.NumThreadGroups = 4096)
    (hcElems : config.ElemsPerThread = 1) (hcGroups : config.NumThreadGroups = 4096) :
    ThreadGroupSize = 256 ∧
    numTotalThreads settings = ThreadGroupSize * 4096 ∧
    hudBufferBytesRead settings (numTotalThreads settings) = 16777216 ∧
    csvNumTotalThreads config = ThreadGroupSize * 4096 ∧
    csvBufferBytesRead config = 16777216 := by
  simp [hudBufferBytesRead, numTotalThreads, csvBufferBytesRead, csvNumTotalThreads, toUInt64,
    ThreadGroupSize, hElems, hGroups, hcElems, hcGroups]

/-- Witness for C11: the settings and the configuration of the scenario. -/
theorem bufferBytesRead_scenario_witness :
    hudBufferBytesRead
        { InputBufferSizeMB := 16, InputBufferSizeKB := 0, InputBufferSizeBytes := 0,
          ElemsPerThread := 1, NumThreadGroups := 4096 }
        (numTotalThreads
          { InputBufferSizeMB := 16, InputBufferSizeKB := 0, InputBufferSizeBytes := 0,
            ElemsPerThread := 1, NumThreadGroups := 4096 }) = 16777216 ∧
    csvBufferBytesRead
        { ElemsPerThread := 1, NumThreadGroups := 4096, InputBufferSize := 16 * 2 ^ 20 } =
      16777216 :=
  have h := bufferBytesRead_scenario
    { InputBufferSizeMB := 16, InputBufferSizeKB := 0, InputBufferSizeBytes := 0,
      ElemsPerThread := 1, NumThreadGroups := 4096 }
    { ElemsPerThread := 1, NumThreadGroups := 4096, InputBufferSize := 16 * 2 ^ 20 }
    rfl rfl rfl rfl
  ⟨h.2.2.1, h.2.2.2.2⟩

set_option maxRecDepth 100000 in
/-- The header `TickBenchmark` writes is its 18 column names separated by ", " and followed
by a blank and a line break; the names differ from those of the specification in the last
one only. -/
theorem csvHeader_intercalate :
    csvHeader = String.intercalate ", " csvHeaderColumns ++ " \n" ∧
    csvHeaderColumns.length = 18 ∧
    specHeaderColumns.length = 18 ∧
    csvHeaderColumns.take 17 = specHeaderColumns.take 17 ∧
    csvHeaderColumns[17]? = some "Max Effective Bandwidth (MB)" ∧
    specHeaderColumns[17]? = some "Max Effective Bandwidth (MB/s)" ∧
    csvHeaderColumns ≠ specHeaderColumns ∧
    csvHeader ≠ String.intercalate ", " specHeaderColumns ++ " \n" := by
  decide

/-- A data row is its 18 values in order, each followed by ", ". -/
theorem csvRowFields_values {F : Type} [DoubleArith F] (config : BenchmarkConfig)
    (results : BenchmarkResults F) :
    (csvRowValues config results).length = 18 ∧
    csvRowFields config results =
      (csvRowValues config results).foldl (fun row value => row ++ (value ++ ", ")) "" := by
  refine ⟨rfl, ?_⟩
  simp only [csvRowValues, List.foldl_cons, List.foldl_nil, csvRowFields]
  split <;> simp [String.append_assoc]

/-- C13: the header of the report consists of 18 column names, of which the first 17 are
those of the specification in the same order, but the 18th is "Max Effective Bandwidth (MB)"
where the specification has "Max Effective Bandwidth (MB/s)"; every data row supplies 18
values in the order of the columns. -/
theorem csvHeader_columns {F : Type} [DoubleArith F] (config : BenchmarkConfig)
    (results : BenchmarkResults F) :
    (csvHeader = String.intercalate ", " csvHeaderColumns ++ " \n" ∧
      csvHeaderColumns.length = 18 ∧
      specHeaderColumns.length = 18 ∧
      csvHeaderColumns.take 17 = specHeaderColumns.take 17 ∧
      csvHeaderColumns[17]? = some "Max Effective Bandwidth (MB)" ∧
      specHeaderColumns[17]? = some "Max Effective Bandwidth (MB/s)" ∧
      csvHeaderColumns ≠ specHeaderColumns ∧
      csvHeader ≠ String.intercalate ", " specHeaderColumns ++ " \n") ∧
    (csvRowValues config results).length = csvHeaderColumns.length ∧
    csvRowFields config results =
      (csvRowValues config results).foldl (fun row value => row ++ (value ++ ", ")) "" ∧
    (csvRowValues config results)[12]? = some (formatUnsigned (csvBufferBytesRead config)) ∧
    (csvRowValues config results)[17]? =
      some (DoubleArith.format (csvMaxEffectiveBandwidth config results)) :=
  ⟨csvHeader_intercalate, (csvRowFields_values config results).1,
    (csvRowFields_values config results).2, rfl, rfl⟩

/-! ### The enumeration and the sizes it writes -/

/-- C14: two runs of `InitBenchmark` at start-up, where `Initialize` makes its only call on
the empty list `benchmarkConfigs`, with the same values of GPUUploadHeapAvailable and
architectureData.UMA yield identical ordered configuration lists and counts, whatever the
settings, the frame counters, the samples and the results of the two runs are: the list is
what the enumeration loops produce from the two flags alone. -/
theorem InitBenchmark_deterministic {F : Type} [DoubleArith F] (sdk : D3D12)
    (s1 s2 : State F) (hGPU : s1.GPUUploadHeapAvailable = s2.GPUUploadHeapAvailable)
    (hUMA : s1.UMA = s2.UMA)
    (hEmpty1 : s1.benchmarkConfigs = []) (hEmpty2 : s2.benchmarkConfigs = []) :
    (InitBenchmark sdk s1).benchmarkConfigs = (InitBenchmark sdk s2).benchmarkConfigs ∧
    (InitBenchmark sdk s1).numBenchmarks = (InitBenchmark sdk s2).numBenchmarks ∧
    (InitBenchmark sdk s1).benchmarkConfigs =
      enumerateConfigs sdk s1.GPUUploadHeapAvailable s1.UMA [] ∧
    (InitBenchmark sdk s1).numBenchmarks =
      (enumerateConfigs sdk s1.GPUUploadHeapAvailable s1.UMA []).length % 2 ^ 32 := by
  have h1 : (InitBenchmark sdk s1).benchmarkConfigs =
      enumerateConfigs sdk s1.GPUUploadHeapAvailable s1.UMA [] := by
    simp only [InitBenchmark, hEmpty1]
  have h2 : (InitBenchmark sdk s2).benchmarkConfigs =
      enumerateConfigs sdk s1.GPUUploadHeapAvailable s1.UMA [] := by
    simp only [InitBenchmark, hEmpty2, hGPU, hUMA]
  have n1 : (InitBenchmark sdk s1).numBenchmarks =
      (InitBenchmark sdk s1).benchmarkConfigs.length % 2 ^ 32 := rfl
  have n2 : (InitBenchmark sdk s2).numBenchmarks =
      (InitBenchmark sdk s2).benchmarkConfigs.length % 2 ^ 32 := rfl
  refine ⟨h1.trans h2.symm, ?_, h1, ?_⟩
  · rw [n1, n2, h1, h2]
  · rw [n1, h1]

/-- Witness for C14: the start-up state and a state that differs from it in a setting, in
the frame counters and in the results. -/
theorem InitBenchmark_deterministic_witness :
    (InitBenchmark d3d12 ({} : State Rat)).benchmarkConfigs =
      (InitBenchmark d3d12
        ({ AppSettings := { ElemsPerThread := 7 }, benchmarkConfigIdx := 3,
           benchmarkFrameIdx := 5,
           benchmarkResults := [BenchmarkResults.init Rat] } : State Rat)).benchmarkConfigs ∧
    (InitBenchmark d3d12 ({} : State Rat)).benchmarkConfigs.length = 8 :=
  ⟨(InitBenchmark_deterministic d3d12 ({} : State Rat)
      ({ AppSettings := { ElemsPerThread := 7 }, benchmarkConfigIdx := 3,
         benchmarkFrameIdx := 5,
         benchmarkResults := [BenchmarkResults.init Rat] } : State Rat) rfl rfl rfl rfl).1, rfl⟩

/-- C20: for a configuration whose InputBufferSize s is at most 256 MiB + 1023 KiB + 1023 B,
the three size settings the tick writes are s / 2^20, (s mod 2^20) / 1024 and s mod 1024,
inside the declared ranges [0, 256], [0, 1024] and [0, 1024], they recompose to s, and the
request `CreateBuffers` recomputes from the settings is s (which its clamp to [1, max] keeps
when s lies in that interval). -/
theorem applyConfig_size_roundtrip (config : BenchmarkConfig) (settings : Settings)
    (hSize : config.InputBufferSize ≤ 256 * 2 ^ 20 + 1023 * 1024 + 1023) :
    (applyConfig config settings).InputBufferSizeMB = (config.InputBufferSize / 2 ^ 20 : Nat) ∧
    (applyConfig config settings).InputBufferSizeKB =
      (config.InputBufferSize % 2 ^ 20 / 1024 : Nat) ∧
    (applyConfig config settings).InputBufferSizeBytes = (config.InputBufferSize % 1024 : Nat) ∧
    (0 ≤ (applyConfig config settings).InputBufferSizeMB ∧
      (applyConfig config settings).InputBufferSizeMB ≤ 256) ∧
    (0 ≤ (applyConfig config settings).InputBufferSizeKB ∧
      (applyConfig config settings).InputBufferSizeKB ≤ 1024) ∧
    (0 ≤ (applyConfig config settings).InputBufferSizeBytes ∧
      (applyConfig config settings).InputBufferSizeBytes ≤ 1024) ∧
    (applyConfig config settings).InputBufferSizeMB * 2 ^ 20 +
        (applyConfig config settings).InputBufferSizeKB * 1024 +
        (applyConfig config settings).InputBufferSizeBytes = (config.InputBufferSize : Nat) ∧
    requestedInputBufferSize (applyConfig config settings) = config.InputBufferSize ∧
    ∀ sdk : D3D12, 1 ≤ config.InputBufferSize →
      config.InputBufferSize ≤ maxInputBufferSize sdk (applyConfig config settings) →
      Clamp (requestedInputBufferSize (applyConfig config settings)) 1
        (maxInputBufferSize sdk (applyConfig config settings)) = some config.InputBufferSize := by
  have hMB : (applyConfig config settings).InputBufferSizeMB =
      (config.InputBufferSize / 2 ^ 20 : Nat) := by
    simp only [applyConfig, IntSettingSetValue, toInt32]
    split_ifs <;> omega
  have hKB : (applyConfig config settings).InputBufferSizeKB =
      (config.InputBufferSize % 2 ^ 20 / 1024 : Nat) := by
    simp only [applyConfig, IntSettingSetValue, toInt32]
    split_ifs <;> omega
  have hB : (applyConfig config settings).InputBufferSizeBytes =
      (config.InputBufferSize % 1024 : Nat) := by
    simp only [applyConfig, IntSettingSetValue, toInt32]
    split_ifs <;> omega
  have hreq : requestedInputBufferSize (applyConfig config settings) =
      config.InputBufferSize := by
    simp only [requestedInputBufferSize, toUInt32, hMB, hKB, hB]
    omega
  refine ⟨hMB, hKB, hB, ?_, ?_, ?_, ?_, hreq, ?_⟩
  · rw [hMB]; omega
  · rw [hKB]; omega
  · rw [hB]; omega
  · rw [hMB, hKB, hB]; omega
  · intro sdk hlo hhi
    rw [hreq]
    simp only [Clamp]
    rw [if_pos (by omega), if_neg (by omega), if_neg (by omega)]

/-- Witness for C20: the 96 MiB configuration of the Default heap written over the default
settings. -/
theorem applyConfig_size_roundtrip_witness :
    (applyConfig (sweepConfig HeapTypes.Default (96 * 2 ^ 20)) {}).InputBufferSizeMB = 96 ∧
    (applyConfig (sweepConfig HeapTypes.Default (96 * 2 ^ 20)) {}).InputBufferSizeKB = 0 ∧
    (applyConfig (sweepConfig HeapTypes.Default (96 * 2 ^ 20)) {}).InputBufferSizeBytes = 0 ∧
    requestedInputBufferSize (applyConfig (sweepConfig HeapTypes.Default (96 * 2 ^ 20)) {}) =
      96 * 2 ^ 20 :=
  have h := applyConfig_size_roundtrip (sweepConfig HeapTypes.Default (96 * 2 ^ 20)) {}
    (by decide)
  ⟨h.1.trans (by decide), h.2.1.trans (by decide), h.2.2.1.trans (by decide),
    h.2.2.2.2.2.2.2.1.trans (by decide)⟩

/-! ### Single ticks of the benchmark -/

/-- A value inside the range of an `IntSetting` is stored unchanged. -/
theorem IntSettingSetValue_of_mem (lo hi : Int) (n : Nat) (hlo : lo ≤ n) (hhi : (n : Int) ≤ hi)
    (h31 : n < 2 ^ 31) : IntSettingSetValue lo hi (toInt32 n) = n := by
  simp only [IntSettingSetValue, toInt32]
  split_ifs <;> omega

/-- C18: a tick with benchmarkConfigIdx < numBenchmarks and benchmarkFrameIdx >=
NumBenchmarkTotalFrames succeeds, writes the fields of benchmarkConfigs[benchmarkConfigIdx]
into the settings through `SetValue` (values inside the declared ranges are stored
unchanged; the size is split into its MB, KB and byte parts), sets EnableVSync to false and
benchmarkFrameIdx to 0 and changes nothing else: benchmarkConfigIdx, the configurations, the
samples and the results are those of the state before, no sample is recorded, nothing is
aggregated and no report is written. -/
theorem TickBenchmark_apply_effect {F : Type} [DoubleArith F] (s : State F)
    (timings : ProfilerTimings F) (config : BenchmarkConfig)
    (hIdx : s.benchmarkConfigIdx < s.numBenchmarks)
    (hFrame : NumBenchmarkTotalFrames ≤ s.benchmarkFrameIdx)
    (hConfig : s.benchmarkConfigs[s.benchmarkConfigIdx]? = some config) :
    TickBenchmark s timings =
      some ({ s with AppSettings := applyConfig config s.AppSettings, benchmarkFrameIdx := 0 },
            { applied := some s.benchmarkConfigIdx, sampleIdx := none, aggregated := none,
              csv := none }) ∧
    applyConfig config s.AppSettings =
      { s.AppSettings with
        HeapType := config.HeapType
        CPUPageProperty := config.CPUPageProperty
        MemoryPool := config.MemoryPool
        InputBufferType := config.InputBufferType
        NumThreadGroups := IntSettingSetValue 1 65535 (toInt32 config.NumThreadGroups)
        ElemsPerThread := IntSettingSetValue 1 64 (toInt32 config.ElemsPerThread)
        ThreadElemStride := IntSettingSetValue 1 64 (toInt32 config.ThreadElemStride)
        GroupElemOffset := IntSettingSetValue 0 16 (toInt32 config.GroupElemOffset)
        ThreadElemOffset := IntSettingSetValue 0 16 (toInt32 config.ThreadElemOffset)
        InputBufferSizeMB :=
          IntSettingSetValue 0 256 (toInt32 ((config.InputBufferSize / 2 ^ 20) % 2 ^ 32))
        InputBufferSizeKB :=
          IntSettingSetValue 0 1024 (toInt32 ((config.InputBufferSize % 2 ^ 20) % 2 ^ 32 / 1024))
        InputBufferSizeBytes :=
          IntSettingSetValue 0 1024 (toInt32 ((config.InputBufferSize % 1024) % 2 ^ 32))
        EnableVSync := false } ∧
    ((1 ≤ config.NumThreadGroups ∧ config.NumThreadGroups ≤ 65535) →
      (applyConfig config s.AppSettings).NumThreadGroups = config.NumThreadGroups) ∧
    ((1 ≤ config.ElemsPerThread ∧ config.ElemsPerThread ≤ 64) →
      (applyConfig config s.AppSettings).ElemsPerThread = config.ElemsPerThread) ∧
    ((1 ≤ config.ThreadElemStride ∧ config.ThreadElemStride ≤ 64) →
      (applyConfig config s.AppSettings).ThreadElemStride = config.ThreadElemStride) ∧
    (config.GroupElemOffset ≤ 16 →
      (applyConfig config s.AppSettings).GroupElemOffset = config.GroupElemOffset) ∧
    (config.ThreadElemOffset ≤ 16 →
      (applyConfig config s.AppSettings).ThreadElemOffset = config.ThreadElemOffset) := by
  have hc : ¬ (s.benchmarkConfigIdx ≥ s.numBenchmarks) := by omega
  refine ⟨?_, rfl, ?_, ?_, ?_, ?_, ?_⟩
  · simp only [TickBenchmark, if_neg hc, hConfig]
    rw [if_pos (by simpa using hFrame)]
  · intro h
    exact IntSettingSetValue_of_mem 1 65535 _ (by omega) (by omega) (by omega)
  · intro h
    exact IntSettingSetValue_of_mem 1 64 _ (by omega) (by omega) (by omega)
  · intro h
    exact IntSettingSetValue_of_mem 1 64 _ (by omega) (by omega) (by omega)
  · intro h
    exact IntSettingSetValue_of_mem 0 16 _ (by omega) (by omega) (by omega)
  · intro h
    exact IntSettingSetValue_of_mem 0 16 _ (by omega) (by omega) (by omega)

/-- Witness for C18: the first tick after "Run Benchmark", which applies configuration 0. -/
theorem TickBenchmark_apply_effect_witness :
    TickBenchmark startedSweep (steadyFrames 0).timings =
      some ({ startedSweep with
              AppSettings :=
                applyConfig (sweepConfig HeapTypes.Upload (32 * 2 ^ 20)) startedSweep.AppSettings
              benchmarkFrameIdx := 0 },
            { applied := some startedSweep.benchmarkConfigIdx, sampleIdx := none,
              aggregated := none, csv := none }) ∧
    (applyConfig (sweepConfig HeapTypes.Upload (32 * 2 ^ 20))
      startedSweep.AppSettings).NumThreadGroups = 32768 ∧
    (applyConfig (sweepConfig HeapTypes.Upload (32 * 2 ^ 20))
      startedSweep.AppSettings).EnableVSync = false :=
  have h := TickBenchmark_apply_effect startedSweep (steadyFrames 0).timings
    (sweepConfig HeapTypes.Upload (32 * 2 ^ 20)) (by decide) (by decide) (by decide)
  ⟨h.1, h.2.2.1 (by decide), rfl⟩

/-- A loop over the indices of a list whose body succeeds is a fold over the list. -/
theorem foldlM_range_eq_foldl {α β : Type} (f : β → Nat → Option β) (g : β → α → β)
    (xs : List α) (hf : ∀ b i (h : i < xs.length), f b i = some (g b xs[i])) :
    ∀ n, n ≤ xs.length → ∀ init,
      (List.range n).foldlM f init = some ((xs.take n).foldl g init) := by
  intro n
  induction n with
  | zero => intro _ init; simp
  | succ n ih =>
    intro hn init
    have hlt : n < xs.length := by omega
    rw [List.range_succ, List.foldlM_append, ih (by omega) init]
    have hstep := hf ((xs.take n).foldl g init) n hlt
    simp only [Option.bind_eq_bind, Option.some_bind, List.foldlM_cons, List.foldlM_nil, hstep,
      List.take_succ, List.getElem?_eq_getElem hlt, Option.toList_some, List.foldl_append,
      List.foldl_cons, List.foldl_nil]
    rfl

/-- The sample-wise sum is the sum of each field. -/
theorem foldl_addSample {F : Type} [DoubleArith F] (samples : List (BenchmarkResults F)) :
    ∀ init : BenchmarkResults F,
      samples.foldl addSample init =
        { ComputeJobTime :=
            (samples.map (fun sample => sample.ComputeJobTime)).foldl DoubleArith.add
              init.ComputeJobTime
          CPUTimeUpdatingBuffer :=
            (samples.map (fun sample => sample.CPUTimeUpdatingBuffer)).foldl DoubleArith.add
              init.CPUTimeUpdatingBuffer
          CPUTimeReadingBuffer :=
            (samples.map (fun sample => sample.CPUTimeReadingBuffer)).foldl DoubleArith.add
              init.CPUTimeReadingBuffer } := by
  induction samples with
  | nil => intro init; rfl
  | cons sample rest ih => intro init; simp only [List.foldl_cons, List.map_cons, ih]; rfl

/-- The averaging loop of `TickBenchmark` on 64 samples yields their field-wise mean. -/
theorem averageSamples_eq_mean {F : Type} [DoubleArith F] (samples : List (BenchmarkResults F))
    (hlen : samples.length = NumBenchmarkMeasureFrames) :
    averageSamples samples = some (meanOfSamples samples) := by
  have hsum : sumSamples samples = some (samples.foldl addSample (BenchmarkResults.init F)) := by
    unfold sumSamples
    rw [foldlM_range_eq_foldl _ addSample samples ?_ NumBenchmarkMeasureFrames (by omega)]
    · rw [← hlen, List.take_length]
    · intro b i h
      simp [List.getElem?_eq_getElem h, addSample]
  simp only [averageSamples, hsum, foldl_addSample]
  rfl

/-- C17: a tick with benchmarkConfigIdx < numBenchmarks and benchmarkFrameIdx <
NumBenchmarkTotalFrames succeeds and aggregates if and only if the incremented
benchmarkFrameIdx equals NumBenchmarkTotalFrames; when it does, benchmarkResults at
benchmarkConfigIdx becomes the field-wise mean (sum divided by 64) of the 64 entries of
benchmarkSamples, benchmarkConfigIdx increases by exactly 1 and the results of all other
configurations are unchanged; when it does not, the results and benchmarkConfigIdx are
unchanged. -/
theorem TickBenchmark_aggregation {F : Type} [DoubleArith F] (N : Nat) (s : State F)
    (timings : ProfilerTimings F) (hReady : Ready N s) (hIdx : s.benchmarkConfigIdx < N)
    (hFrame : s.benchmarkFrameIdx < NumBenchmarkTotalFrames) :
    ∃ s' log, TickBenchmark s timings = some (s', log) ∧
      (log.aggregated.isSome = true ↔ s.benchmarkFrameIdx + 1 = NumBenchmarkTotalFrames) ∧
      (s.benchmarkFrameIdx + 1 = NumBenchmarkTotalFrames →
        log.aggregated = some s.benchmarkConfigIdx ∧
        s'.benchmarkSamples.length = NumBenchmarkMeasureFrames ∧
        s'.benchmarkResults[s.benchmarkConfigIdx]? = some (meanOfSamples s'.benchmarkSamples) ∧
        s'.benchmarkConfigIdx = s.benchmarkConfigIdx + 1 ∧
        s'.benchmarkResults.length = s.benchmarkResults.length ∧
        ∀ i, i ≠ s.benchmarkConfigIdx → s'.benchmarkResults[i]? = s.benchmarkResults[i]?) ∧
      (s.benchmarkFrameIdx + 1 ≠ NumBenchmarkTotalFrames →
        log.aggregated = none ∧ s'.benchmarkResults = s.benchmarkResults ∧
        s'.benchmarkConfigIdx = s.benchmarkConfigIdx) := by
  obtain ⟨h1, h2, h3, h4, h5⟩ := hReady
  simp only [NumBenchmarkTotalFrames, NumBenchmarkWarmupFrames, NumBenchmarkMeasureFrames] at *
  have hc' : ¬ (s.benchmarkConfigIdx ≥ s.numBenchmarks) := by omega
  have hf' : ¬ (s.benchmarkFrameIdx ≥ 8 + 64) := by omega
  by_cases hlast : s.benchmarkFrameIdx + 1 = 8 + 64
  · have hw : s.benchmarkFrameIdx ≥ 8 := by omega
    have hf1 : (s.benchmarkFrameIdx + 1) % 2 ^ 32 = 8 + 64 := by omega
    have hc1 : (s.benchmarkConfigIdx + 1) % 2 ^ 32 = s.benchmarkConfigIdx + 1 := by omega
    have hidx : (s.benchmarkFrameIdx + 2 ^ 32 - 8) % 2 ^ 32 = 63 := by omega
    have hlt : 63 < s.benchmarkSamples.length := by omega
    have hcr : s.benchmarkConfigIdx < s.benchmarkResults.length := by omega
    have hr := averageSamples_eq_mean
      (s.benchmarkSamples.set 63 (makeSample s.AppSettings timings)) (by simpa using h4)
    simp only [TickBenchmark, NumBenchmarkTotalFrames, NumBenchmarkWarmupFrames,
      NumBenchmarkMeasureFrames, recordSample, if_neg hc', if_neg hf', hidx, hf1, hc1, hr,
      if_pos hw, if_pos hlt, if_pos hcr, if_true]
    have hrest : (s.benchmarkResults.set s.benchmarkConfigIdx
          (meanOfSamples (s.benchmarkSamples.set 63 (makeSample s.AppSettings timings))))[
            s.benchmarkConfigIdx]? =
        some (meanOfSamples (s.benchmarkSamples.set 63 (makeSample s.AppSettings timings))) ∧
        ∀ i, i ≠ s.benchmarkConfigIdx →
          (s.benchmarkResults.set s.benchmarkConfigIdx
            (meanOfSamples (s.benchmarkSamples.set 63 (makeSample s.AppSettings timings))))[i]? =
          s.benchmarkResults[i]? := by
      refine ⟨by simp [hcr], fun i hi => ?_⟩
      rw [List.getElem?_set_ne (Ne.symm hi)]
    by_cases hN : s.benchmarkConfigIdx + 1 = s.numBenchmarks
    · simp only [if_pos hN]
      rw [buildCSV_eq _ (by simpa using h2.trans h1.symm) (by simpa using h3.trans h1.symm)]
      exact ⟨_, _, rfl, by simp [hlast], fun _ => ⟨rfl, by simpa using h4, hrest.1, rfl,
        by simp, hrest.2⟩, fun h => absurd hlast h⟩
    · simp only [if_neg hN]
      exact ⟨_, _, rfl, by simp [hlast], fun _ => ⟨rfl, by simpa using h4, hrest.1, rfl,
        by simp, hrest.2⟩, fun h => absurd hlast h⟩
  · have hf1 : (s.benchmarkFrameIdx + 1) % 2 ^ 32 = s.benchmarkFrameIdx + 1 := by omega
    have hc2 : ¬ (s.benchmarkConfigIdx = s.numBenchmarks) := by omega
    by_cases hw : 8 ≤ s.benchmarkFrameIdx
    · have hidx : (s.benchmarkFrameIdx + 2 ^ 32 - 8) % 2 ^ 32 = s.benchmarkFrameIdx - 8 := by
        omega
      have hlt : s.benchmarkFrameIdx - 8 < s.benchmarkSamples.length := by omega
      simp only [TickBenchmark, NumBenchmarkTotalFrames, NumBenchmarkWarmupFrames,
        NumBenchmarkMeasureFrames, recordSample, if_neg hc', if_neg hf', hidx, hf1,
        if_neg hlast, if_neg hc2, ge_iff_le, if_pos hw, if_pos hlt]
      exact ⟨_, _, rfl, by simp [hlast], fun h => absurd h hlast, fun _ => ⟨rfl, rfl, rfl⟩⟩
    · simp only [TickBenchmark, NumBenchmarkTotalFrames, NumBenchmarkWarmupFrames,
        NumBenchmarkMeasureFrames, recordSample, if_neg hc', if_neg hf', hf1,
        if_neg hlast, if_neg hc2, ge_iff_le, if_neg hw]
      exact ⟨_, _, rfl, by simp [hlast], fun h => absurd h hlast, fun _ => ⟨rfl, rfl, rfl⟩⟩

/-- Witness for C17: the last measurement frame (benchmarkFrameIdx = 71) of configuration 0
of the started sweep. -/
theorem TickBenchmark_aggregation_witness :
    Ready 8 { startedSweep with benchmarkFrameIdx := 71 } ∧
    ∃ s' log,
      TickBenchmark { startedSweep with benchmarkFrameIdx := 71 } (steadyFrames 0).timings =
        some (s', log) ∧
      log.aggregated = some 0 ∧ s'.benchmarkConfigIdx = 1 ∧
      s'.benchmarkResults[0]? = some (meanOfSamples s'.benchmarkSamples) :=
  have hReady : Ready 8 { startedSweep with benchmarkFrameIdx := 71 } :=
    ⟨rfl, rfl, rfl, rfl, by decide⟩
  have h := TickBenchmark_aggregation 8 { startedSweep with benchmarkFrameIdx := 71 }
    (steadyFrames 0).timings hReady (by decide) (by decide)
  ⟨hReady, h.elim fun s' h1 => h1.elim fun log h2 =>
    ⟨s', log, h2.1, (h2.2.2.1 rfl).1, (h2.2.2.1 rfl).2.2.2.1, (h2.2.2.1 rfl).2.2.1⟩⟩

/-! ### Array accesses of the ticks -/

/-- A machine that is not running stays as it is, tick after tick. -/
theorem runTicks_idle {F : Type} [DoubleArith F] (frames : Nat → Frame F) (N : Nat)
    (s : State F) (h : Ready N s) (hc : N ≤ s.benchmarkConfigIdx) :
    ∀ t, ∃ s', runTicks frames t s = some s' ∧ Ready N s' ∧
      s'.benchmarkConfigIdx = s.benchmarkConfigIdx := by
  intro t
  induction t with
  | zero => exact ⟨s, rfl, h, rfl⟩
  | succ t ih =>
    obtain ⟨s1, hrun, hR, hc1⟩ := ih
    simp only [runTicks, hrun, tickFrame]
    rw [TickBenchmark_idle _ _ (by show s1.numBenchmarks ≤ s1.benchmarkConfigIdx
                                   rw [hR.1, hc1]; exact hc)]
    exact ⟨_, rfl, Ready_edit hR _, hc1⟩

/-- The log of tick `t` is the log of the tick made on the state after `t` ticks. -/
theorem tickFrame_of_tickLog {F : Type} [DoubleArith F] (frames : Nat → Frame F) (t : Nat)
    (s before : State F) (log : TickLog) (hrun : runTicks frames t s = some before)
    (hlog : tickLog frames t s = some log) :
    ∃ after, tickFrame frames t before = some (after, log) := by
  simp only [tickLog, hrun] at hlog
  cases hstep : tickFrame frames t before with
  | none => simp [hstep] at hlog
  | some r =>
    obtain ⟨after, log'⟩ := r
    simp [hstep] at hlog
    exact ⟨after, by rw [hlog]⟩

/-- C19: from the initial state (benchmarkConfigIdx = 2^32-1, benchmarkFrameIdx = 0) and
from the "Run Benchmark" state, with the bookkeeping of `InitBenchmark`, every tick succeeds
(no index assertion fails) whatever the profiler reports and however the settings are edited
between the ticks, and in the state `before` it is made on: a sample is only recorded with
benchmarkFrameIdx >= NumBenchmarkWarmupFrames, in slot benchmarkFrameIdx -
NumBenchmarkWarmupFrames, which is below 64 and below the size of benchmarkSamples, and
benchmarkConfigs and benchmarkResults are only indexed with benchmarkConfigIdx <
numBenchmarks, inside these arrays. -/
theorem TickBenchmark_in_bounds {F : Type} [DoubleArith F] (frames : Nat → Frame F) (N : Nat)
    (s : State F) (hReady : Ready N s)
    (hStart : (s.benchmarkConfigIdx = 2 ^ 32 - 1 ∧ s.benchmarkFrameIdx = 0) ∨
      (s.benchmarkConfigIdx = 0 ∧ s.benchmarkFrameIdx = NumBenchmarkTotalFrames))
    (t : Nat) :
    ∃ before after log,
      runTicks frames t s = some before ∧ tickFrame frames t before = some (after, log) ∧
      (∀ j, log.sampleIdx = some j →
        NumBenchmarkWarmupFrames ≤ before.benchmarkFrameIdx ∧
        j = before.benchmarkFrameIdx - NumBenchmarkWarmupFrames ∧
        j < NumBenchmarkMeasureFrames ∧ j < before.benchmarkSamples.length) ∧
      (∀ i, log.applied = some i →
        i = before.benchmarkConfigIdx ∧ i < before.numBenchmarks ∧
        i < before.benchmarkConfigs.length) ∧
      (∀ i, log.aggregated = some i →
        i = before.benchmarkConfigIdx ∧ i < before.numBenchmarks ∧
        i < before.benchmarkResults.length) := by
  rcases hStart with ⟨hc, -⟩ | ⟨hc, hf⟩
  · -- the machine has never been started: every tick returns at once
    have hN : N ≤ s.benchmarkConfigIdx := by have := hReady.2.2.2.2; omega
    obtain ⟨before, hrun, hR, hc1⟩ := runTicks_idle frames N s hReady hN t
    have hstep : tickFrame frames t before =
        some ({ before with AppSettings := (frames t).editSettings before.AppSettings }, {}) := by
      simp only [tickFrame]
      exact TickBenchmark_idle _ _ (by show before.numBenchmarks ≤ before.benchmarkConfigIdx
                                       rw [hR.1, hc1]; exact hN)
    refine ⟨before, _, {}, hrun, hstep, ?_, ?_, ?_⟩
    · intro j hj; simp at hj
    · intro i hi; simp at hi
    · intro i hi; simp at hi
  · obtain ⟨before, hrun, hR, hc1, hf1⟩ := runTicks_counters frames N s hReady hc hf t
    obtain ⟨log, hlog, ha, hs, hg, -, -⟩ := tickLog_sweep frames N s hReady hc hf t
    obtain ⟨after, hstep⟩ := tickFrame_of_tickLog frames t s before log hrun hlog
    obtain ⟨h1, h2, h3, h4, h5⟩ := hR
    simp only [sweepConfigIdx, sweepFrameIdx] at hc1 hf1
    simp only [NumBenchmarkWarmupFrames, NumBenchmarkMeasureFrames] at *
    refine ⟨before, after, log, hrun, hstep, ?_, ?_, ?_⟩
    · intro j hj
      rw [hs] at hj
      split_ifs at hj with h
      · simp only [Option.some.injEq] at hj
        rw [if_neg (by omega), if_neg (by omega)] at hf1
        omega
    · intro i hi
      rw [ha] at hi
      split_ifs at hi with h
      · simp only [Option.some.injEq] at hi
        rw [if_neg (by omega)] at hc1
        omega
    · intro i hi
      rw [hg] at hi
      split_ifs at hi with h
      · simp only [Option.some.injEq] at hi
        rw [if_neg (by omega)] at hc1
        omega

/-- Witness for C19: tick 9 of the started sweep of 8 configurations, which records the
first sample of configuration 0. -/
theorem TickBenchmark_in_bounds_witness :
    ∃ before after log,
      runTicks steadyFrames 9 startedSweep = some before ∧
      tickFrame steadyFrames 9 before = some (after, log) ∧
      (∀ j, log.sampleIdx = some j →
        NumBenchmarkWarmupFrames ≤ before.benchmarkFrameIdx ∧
        j = before.benchmarkFrameIdx - NumBenchmarkWarmupFrames ∧
        j < NumBenchmarkMeasureFrames ∧ j < before.benchmarkSamples.length) ∧
      (∀ i, log.applied = some i →
        i = before.benchmarkConfigIdx ∧ i < before.numBenchmarks ∧
        i < before.benchmarkConfigs.length) ∧
      (∀ i, log.aggregated = some i →
        i = before.benchmarkConfigIdx ∧ i < before.numBenchmarks ∧
        i < before.benchmarkResults.length) :=
  TickBenchmark_in_bounds steadyFrames 8 startedSweep startedSweep_ready
    (Or.inr ⟨rfl, rfl⟩) 9

/-! ### The persistent allocator of DescriptorHeap -/

/-- The loop `DeadList[i] = i` over the first `k` entries of a fresh array. -/
theorem fill_deadList (n : Nat) :
    ∀ k, k ≤ n →
      (List.range k).foldl (fun (deadList : List Nat) i => deadList.set i i) (ArrayInit n 0) =
        List.range k ++ List.replicate (n - k) 0 := by
  intro k
  induction k with
  | zero => intro _; simp [ArrayInit]
  | succ k ih =>
    intro hk
    rw [List.range_succ, List.foldl_append, ih (by omega)]
    simp only [List.foldl_cons, List.foldl_nil]
    have hrep : List.replicate (n - k) 0 = 0 :: List.replicate (n - (k + 1)) 0 := by
      have : n - k = (n - (k + 1)) + 1 := by omega
      rw [this, List.replicate_succ]
    rw [hrep, List.set_append_right _ _ (by simp)]
    simp

/-- After `Init` the heaps exist, nothing is allocated and the dead list is 0, 1, ...,
numPersistent - 1. -/
theorem Init_deadList (heap heap0 : DescriptorHeap) (numPersistent numTemporary : Nat)
    (h : heap.Init numPersistent numTemporary = some heap0) :
    heap0.HeapsCreated = true ∧ heap0.NumPersistent = numPersistent ∧
    heap0.PersistentAllocated = 0 ∧ heap0.DeadList = List.range numPersistent := by
  simp only [DescriptorHeap.Init] at h
  split_ifs at h with h1 h2
  simp only [Option.some.injEq] at h
  subst h
  have hfill := fill_deadList numPersistent numPersistent (Nat.le_refl _)
  simp only [Nat.sub_self, List.replicate_zero, List.append_nil] at hfill
  refine ⟨rfl, rfl, ?_, hfill⟩
  simpa using h1

/-- Replacing entry `k` by `x` and putting the old entry in front permutes `x :: rest`. -/
theorem swap_head_perm (x : Nat) :
    ∀ (rest : List Nat) (k : Nat) (hk : k < rest.length),
      (rest[k] :: rest.set k x).Perm (x :: rest) := by
  intro rest
  induction rest with
  | nil => intro k hk; simp at hk
  | cons r rest ih =>
    intro k hk
    cases k with
    | zero => simpa using List.Perm.swap x r rest
    | succ k =>
      have hk' : k < rest.length := by simpa using hk
      have h1 : (rest[k] :: r :: rest.set k x).Perm (r :: rest[k] :: rest.set k x) :=
        List.Perm.swap _ _ _
      have h2 : (r :: rest[k] :: rest.set k x).Perm (r :: x :: rest) :=
        List.Perm.cons r (ih k hk')
      have h3 : (r :: x :: rest).Perm (x :: r :: rest) := List.Perm.swap _ _ _
      simpa using h1.trans (h2.trans h3)

/-- The swap of entry `k` with the first entry permutes the list. -/
theorem swap_perm (first : Nat) (rest : List Nat) (k : Nat) (entry : Nat)
    (hk : (first :: rest)[k]? = some entry) :
    (((first :: rest).set k first).set 0 entry).Perm (first :: rest) := by
  cases k with
  | zero =>
    simp only [List.getElem?_cons_zero, Option.some.injEq] at hk
    subst hk
    simp
  | succ k =>
    simp only [List.getElem?_cons_succ] at hk
    obtain ⟨hk', he⟩ := List.getElem?_eq_some.1 hk
    subst he
    simpa using swap_head_perm first rest k hk'

/-- The swap of the entries at `pa` and `i >= pa` permutes the list from `pa` on. -/
theorem drop_swap_perm (l : List Nat) (pa i : Nat) (first entry : Nat) (hle : pa ≤ i)
    (hfirst : l[pa]? = some first) (hentry : l[i]? = some entry) :
    (((l.set i first).set pa entry).drop pa).Perm (l.drop pa) := by
  obtain ⟨hpa, hf⟩ := List.getElem?_eq_some.1 hfirst
  have hdrop : l.drop pa = first :: l.drop (pa + 1) := by
    rw [← hf]; exact List.drop_eq_getElem_cons hpa
  have hk : (first :: l.drop (pa + 1))[i - pa]? = some entry := by
    rw [← hdrop, List.getElem?_drop, ← hentry]
    congr 1; omega
  have h1 : ((l.set i first).set pa entry).drop pa =
      (((l.drop pa).set (i - pa) first)).set 0 entry := by
    rw [List.drop_set, if_neg (by omega), List.drop_set, if_neg (by omega), Nat.sub_self]
  rw [h1, hdrop]
  exact swap_perm first _ _ entry hk

/-- The search loop of `AllocatePersistent` succeeds, permutes the free part of the dead
list, brings the requested index to position `pa` if it is free, and changes nothing
otherwise. -/
theorem searchDeadList_spec (l : List Nat) (pa index : Nat) (hpa : pa < l.length) :
    ∀ remaining i, pa ≤ i → i + remaining = l.length →
      ∃ l', searchDeadList l pa index remaining i = some l' ∧ l'.length = l.length ∧
        (l'.drop pa).Perm (l.drop pa) ∧
        (index ∈ l.drop i → l'[pa]? = some index) ∧ (index ∉ l.drop i → l' = l) := by
  intro remaining
  induction remaining with
  | zero =>
    intro i _ hi
    refine ⟨l, rfl, rfl, List.Perm.refl _, ?_, fun _ => rfl⟩
    intro hmem
    rw [List.drop_of_length_le (by omega)] at hmem
    simp at hmem
  | succ remaining ih =>
    intro i hle hi
    have hlt : i < l.length := by omega
    have hdrop : l.drop i = l[i] :: l.drop (i + 1) := List.drop_eq_getElem_cons hlt
    simp only [searchDeadList, List.getElem?_eq_getElem hlt, List.getElem?_eq_getElem hpa]
    by_cases hfound : l[i] = index
    · rw [if_pos hfound]
      refine ⟨_, rfl, by simp, ?_, ?_, ?_⟩
      · exact drop_swap_perm l pa i l[pa] l[i] hle (List.getElem?_eq_getElem hpa)
          (List.getElem?_eq_getElem hlt)
      · intro _
        rw [List.getElem?_set_self (by simpa using hpa), hfound]
      · intro hnot
        exact absurd (by rw [hdrop, hfound]; exact List.mem_cons_self _ _) hnot
    · rw [if_neg hfound]
      obtain ⟨l', hs, hlen, hperm, hin, hout⟩ := ih (i + 1) (by omega) (by omega)
      refine ⟨l', hs, hlen, hperm, ?_, ?_⟩
      · intro hmem
        rw [hdrop] at hmem
        rcases List.mem_cons.1 hmem with h | h
        · exact absurd h.symm hfound
        · exact hin h
      · intro hnot
        exact hout (fun h => hnot (by rw [hdrop]; exact List.mem_cons_of_mem _ h))

/-- On an initialised heap that is not full, `AllocatePersistent` fails without changing
the heap when an explicit index is requested that is not free, and otherwise hands out the
entry it brings to position `PersistentAllocated`. -/
theorem AllocatePersistent_spec (heap : DescriptorHeap) (index : Nat)
    (hCreated : heap.HeapsCreated = true) (hLen : heap.DeadList.length = heap.NumPersistent)
    (hNP : heap.NumPersistent < 2 ^ 32)
    (hPA : heap.PersistentAllocated < heap.NumPersistent) :
    (index ≠ InvalidDescriptorIndex ∧ index ∉ heap.freeList ∧
      heap.AllocatePersistent index = Except.error heap) ∨
    ((index = InvalidDescriptorIndex ∨ index ∈ heap.freeList) ∧
      ∃ deadList next,
        heap.AllocatePersistent index =
          Except.ok ({ heap with DeadList := deadList
                                 PersistentAllocated := heap.PersistentAllocated + 1 }, next) ∧
        deadList.length = heap.DeadList.length ∧
        (deadList.drop heap.PersistentAllocated).Perm heap.freeList ∧
        deadList.drop heap.PersistentAllocated =
          next :: deadList.drop (heap.PersistentAllocated + 1) ∧
        (index ≠ InvalidDescriptorIndex → next = index) ∧
        (index = InvalidDescriptorIndex → deadList = heap.DeadList)) := by
  have hpa : heap.PersistentAllocated < heap.DeadList.length := by omega
  have hmod : (heap.PersistentAllocated + 1) % 2 ^ 32 = heap.PersistentAllocated + 1 := by omega
  by_cases hidx : index = InvalidDescriptorIndex
  · right
    refine ⟨Or.inl hidx, heap.DeadList, heap.DeadList[heap.PersistentAllocated], ?_, rfl,
      List.Perm.refl _, List.drop_eq_getElem_cons hpa, fun h => absurd hidx h, fun _ => rfl⟩
    simp [DescriptorHeap.AllocatePersistent, hCreated, hPA, hidx,
      List.getElem?_eq_getElem hpa]
    omega
  · obtain ⟨l', hs, hlen, hperm, hin, hout⟩ :=
      searchDeadList_spec heap.DeadList heap.PersistentAllocated index hpa
        (heap.NumPersistent - heap.PersistentAllocated) heap.PersistentAllocated
        (Nat.le_refl _) (by omega)
    have hpa' : heap.PersistentAllocated < l'.length := by omega
    by_cases hmem : index ∈ heap.freeList
    · right
      have hget := hin hmem
      have hnext : l'[heap.PersistentAllocated] = index := by
        have := List.getElem?_eq_getElem hpa'
        rw [hget] at this
        exact (Option.some.inj this).symm
      refine ⟨Or.inr hmem, l', index, ?_, hlen, hperm, ?_, fun _ => rfl,
        fun h => absurd h hidx⟩
      · simp [DescriptorHeap.AllocatePersistent, hCreated, hPA, hidx, hs, hget]
        omega
      · rw [← hnext]; exact List.drop_eq_getElem_cons hpa'
    · left
      have hl' : l' = heap.DeadList := hout hmem
      have hne : ¬ (heap.DeadList[heap.PersistentAllocated]? = some index) := by
        intro h
        apply hmem
        have hd : heap.freeList =
            heap.DeadList[heap.PersistentAllocated] ::
              heap.DeadList.drop (heap.PersistentAllocated + 1) :=
          List.drop_eq_getElem_cons hpa
        rw [hd]
        rw [List.getElem?_eq_getElem hpa] at h
        rw [Option.some.inj h]
        exact List.mem_cons_self _ _
      refine ⟨hidx, hmem, ?_⟩
      simp [DescriptorHeap.AllocatePersistent, hCreated, hPA, hidx, hs, hl', hne]
      rw [← hCreated]

/-- On a full heap `AllocatePersistent` fails without changing the heap. -/
theorem AllocatePersistent_full (heap : DescriptorHeap) (index : Nat)
    (hFull : heap.NumPersistent ≤ heap.PersistentAllocated) :
    heap.AllocatePersistent index = Except.error heap := by
  have hnot : ¬ (heap.PersistentAllocated < heap.NumPersistent) := by omega
  simp only [DescriptorHeap.AllocatePersistent]
  split_ifs <;> rfl

/-- A successful `AllocatePersistent` keeps the invariant and returns a free index. -/
theorem AllocatePersistent_valid (numPersistent : Nat) (run : HeapRun) (index : Nat)
    (heap1 : DescriptorHeap) (i : Nat) (hValid : HeapRun.Valid numPersistent run)
    (hAlloc : run.heap.AllocatePersistent index = Except.ok (heap1, i)) :
    HeapRun.Valid numPersistent { heap := heap1, allocated := i :: run.allocated } ∧
    i < numPersistent ∧ i ∉ run.allocated := by
  obtain ⟨hCreated, hNum, hNP, hLen, hPAlen, hPAle, hAllocNodup, hFreeNodup, hAllocLt, hFree⟩ :=
    hValid
  have hPA : run.heap.PersistentAllocated < run.heap.NumPersistent := by
    by_contra hnot
    rw [AllocatePersistent_full run.heap index (by omega)] at hAlloc
    exact Except.noConfusion hAlloc
  rcases AllocatePersistent_spec run.heap index hCreated (by omega) (by omega) hPA with
    ⟨_, _, herr⟩ | ⟨_, deadList, next, hok, hlen, hperm, hdrop, _, _⟩
  · rw [herr] at hAlloc
    exact Except.noConfusion hAlloc
  · rw [hok] at hAlloc
    have hpair := Except.ok.inj hAlloc
    have hheap : heap1 =
        { run.heap with
          DeadList := deadList, PersistentAllocated := run.heap.PersistentAllocated + 1 } :=
      (congrArg Prod.fst hpair).symm
    have hi : i = next := (congrArg Prod.snd hpair).symm
    subst hi
    have hmemfree : i ∈ run.heap.freeList := by
      apply hperm.subset
      rw [hdrop]
      exact List.mem_cons_self _ _
    have hinfo := (hFree i).mp hmemfree
    have hnodup : (i :: deadList.drop (run.heap.PersistentAllocated + 1)).Nodup := by
      rw [← hdrop]
      exact hperm.nodup_iff.mpr hFreeNodup
    refine ⟨?_, hinfo.1, hinfo.2⟩
    subst hheap
    refine ⟨hCreated, hNum, hNP, by simpa [hlen] using hLen, by simp [hPAlen], ?_, ?_, ?_, ?_, ?_⟩
    · show run.heap.PersistentAllocated + 1 ≤ numPersistent
      omega
    · exact List.nodup_cons.mpr ⟨hinfo.2, hAllocNodup⟩
    · exact (List.nodup_cons.mp hnodup).2
    · intro a ha
      rcases List.mem_cons.mp ha with h | h
      · rw [h]; exact hinfo.1
      · exact hAllocLt a h
    · intro x
      show x ∈ deadList.drop (run.heap.PersistentAllocated + 1) ↔ _
      have hx : x ∈ run.heap.freeList ↔
          x ∈ i :: deadList.drop (run.heap.PersistentAllocated + 1) := by
        rw [← hdrop]
        exact (hperm.mem_iff).symm
      constructor
      · intro hmem
        have hxfree : x ∈ run.heap.freeList := hx.mpr (List.mem_cons_of_mem _ hmem)
        have hxi : x ≠ i := by
          intro h
          rw [h] at hmem
          exact (List.nodup_cons.mp hnodup).1 hmem
        have := (hFree x).mp hxfree
        exact ⟨this.1, by simp [hxi, this.2]⟩
      · rintro ⟨hlt, hnot⟩
        have hxi : x ≠ i := fun h => hnot (by simp [h])
        have hxa : x ∉ run.allocated := fun h => hnot (List.mem_cons_of_mem _ h)
        have hxfree := (hFree x).mpr ⟨hlt, hxa⟩
        rcases List.mem_cons.mp (hx.mp hxfree) with h | h
        · exact absurd h hxi
        · exact h

/-- The call `FreePersistent` on an allocated index succeeds and keeps the invariant. -/
theorem FreePersistent_valid (numPersistent : Nat) (run : HeapRun) (idx : Nat)
    (hValid : HeapRun.Valid numPersistent run) (hMem : idx ∈ run.allocated) :
    ∃ heap1, run.heap.FreePersistent idx = some heap1 ∧
      HeapRun.Valid numPersistent { heap := heap1, allocated := run.allocated.erase idx } := by
  obtain ⟨hCreated, hNum, hNP, hLen, hPAlen, hPAle, hAllocNodup, hFreeNodup, hAllocLt, hFree⟩ :=
    hValid
  have hlt : idx < numPersistent := hAllocLt idx hMem
  have hne : idx ≠ InvalidDescriptorIndex := by
    simp only [InvalidDescriptorIndex]; omega
  have hpos : 0 < run.allocated.length := List.length_pos_of_mem hMem
  have hPApos : 0 < run.heap.PersistentAllocated := by omega
  have hbound : run.heap.PersistentAllocated - 1 < run.heap.DeadList.length := by omega
  have hdrop : (run.heap.DeadList.set (run.heap.PersistentAllocated - 1) idx).drop
      (run.heap.PersistentAllocated - 1) = idx :: run.heap.freeList := by
    have hb : run.heap.PersistentAllocated - 1 <
        (run.heap.DeadList.set (run.heap.PersistentAllocated - 1) idx).length := by
      simpa using hbound
    rw [List.drop_eq_getElem_cons hb]
    have hs : run.heap.PersistentAllocated - 1 + 1 = run.heap.PersistentAllocated := by omega
    simp only [hs, DescriptorHeap.freeList, List.getElem_set_self]
    rw [List.drop_set_of_lt idx run.heap.DeadList (by omega)]
  have hnotfree : idx ∉ run.heap.freeList := fun h => ((hFree idx).mp h).2 hMem
  refine ⟨{ run.heap with
            DeadList := run.heap.DeadList.set (run.heap.PersistentAllocated - 1) idx
            PersistentAllocated := run.heap.PersistentAllocated - 1 }, ?_, ?_⟩
  · simp [DescriptorHeap.FreePersistent, hne, hNum, hlt, hCreated, hPApos, hbound]
  · refine ⟨hCreated, hNum, hNP, by simpa using hLen, ?_, ?_, hAllocNodup.erase idx, ?_, ?_, ?_⟩
    · show run.heap.PersistentAllocated - 1 = (run.allocated.erase idx).length
      rw [List.length_erase_of_mem hMem]
      omega
    · show run.heap.PersistentAllocated - 1 ≤ numPersistent
      omega
    · show ((run.heap.DeadList.set (run.heap.PersistentAllocated - 1) idx).drop
        (run.heap.PersistentAllocated - 1)).Nodup
      rw [hdrop]
      exact List.nodup_cons.mpr ⟨hnotfree, hFreeNodup⟩
    · intro a ha
      exact hAllocLt a (List.mem_of_mem_erase ha)
    · intro x
      show x ∈ (run.heap.DeadList.set (run.heap.PersistentAllocated - 1) idx).drop
        (run.heap.PersistentAllocated - 1) ↔ _
      rw [hdrop, List.mem_cons, hFree x, hAllocNodup.mem_erase_iff]
      constructor
      · rintro (h | ⟨h1, h2⟩)
        · rw [h]; exact ⟨hlt, fun h3 => h3.1 rfl⟩
        · exact ⟨h1, fun h3 => h2 h3.2⟩
      · rintro ⟨h1, h2⟩
        by_cases hx : x = idx
        · exact Or.inl hx
        · exact Or.inr ⟨h1, fun h3 => h2 ⟨hx, h3⟩⟩

/-- The invariant holds after `Init`. -/
theorem Init_valid (previous heap0 : DescriptorHeap) (numPersistent numTemporary : Nat)
    (hNP : numPersistent < 2 ^ 32)
    (hInit : previous.Init numPersistent numTemporary = some heap0) :
    HeapRun.Valid numPersistent { heap := heap0, allocated := [] } := by
  obtain ⟨h1, h2, h3, h4⟩ := Init_deadList previous heap0 numPersistent numTemporary hInit
  refine ⟨h1, h2, hNP, by simp [h4], by simp [h3], by simp [h3], List.nodup_nil, ?_, ?_, ?_⟩
  · simp [DescriptorHeap.freeList, h3, h4, List.nodup_range]
  · intro a ha; simp at ha
  · intro x; simp [DescriptorHeap.freeList, h3, h4]

/-- Every sequence of calls keeps the invariant. -/
theorem calls_valid (numPersistent : Nat) (calls : List HeapCall) :
    ∀ (run run1 : HeapRun), HeapRun.Valid numPersistent run →
      HeapRun.calls run calls = some run1 → HeapRun.Valid numPersistent run1 := by
  induction calls with
  | nil =>
    intro run run1 hValid hRun
    simp only [HeapRun.calls, List.foldlM_nil] at hRun
    rw [← Option.some.inj hRun]
    exact hValid
  | cons c rest ih =>
    intro run run1 hValid hRun
    simp only [HeapRun.calls, List.foldlM_cons] at hRun
    cases hstep : HeapRun.call run c with
    | none => rw [hstep] at hRun; simp at hRun
    | some mid =>
      rw [hstep] at hRun
      refine ih mid run1 ?_ hRun
      cases c with
      | AllocatePersistent index =>
        simp only [HeapRun.call] at hstep
        cases hAlloc : run.heap.AllocatePersistent index with
        | error failed => rw [hAlloc] at hstep; simp at hstep
        | ok result =>
          obtain ⟨heap1, i⟩ := result
          rw [hAlloc] at hstep
          simp only [Option.some.injEq] at hstep
          rw [← hstep]
          exact (AllocatePersistent_valid numPersistent run index heap1 i hValid hAlloc).1
      | FreePersistent idx =>
        simp only [HeapRun.call] at hstep
        by_cases hMem : idx ∈ run.allocated
        · obtain ⟨heap1, hfree, hv⟩ := FreePersistent_valid numPersistent run idx hValid hMem
          rw [if_pos hMem, hfree] at hstep
          simp only [Option.some.injEq] at hstep
          rw [← hstep]
          exact hv
        · rw [if_neg hMem] at hstep
          simp at hstep

/-- C15: after `Init(numPersistent, ...)` and any sequence of calls in which every
`FreePersistent` is applied to a currently allocated index, an index returned by
`AllocatePersistent` is less than `NumPersistent` and differs from every index that is
allocated and not freed; the entries of `DeadList` from position `PersistentAllocated` on are
exactly the free indices, without duplicates, before and after the allocation. -/
theorem AllocatePersistent_fresh (previous heap0 : DescriptorHeap)
    (numPersistent numTemporary : Nat) (calls : List HeapCall) (run : HeapRun) (index : Nat)
    (heap1 : DescriptorHeap) (i : Nat) (hNP : numPersistent < 2 ^ 32)
    (hInit : previous.Init numPersistent numTemporary = some heap0)
    (hRun : HeapRun.calls { heap := heap0, allocated := [] } calls = some run)
    (hAlloc : run.heap.AllocatePersistent index = Except.ok (heap1, i)) :
    run.heap.NumPersistent = numPersistent ∧
    i < run.heap.NumPersistent ∧ i ∉ run.allocated ∧
    run.heap.PersistentAllocated = run.allocated.length ∧
    run.heap.freeList.Nodup ∧
    (∀ x, x ∈ run.heap.freeList ↔ (x < run.heap.NumPersistent ∧ x ∉ run.allocated)) ∧
    heap1.freeList.Nodup ∧
    (∀ x, x ∈ heap1.freeList ↔ (x < run.heap.NumPersistent ∧ x ∉ i :: run.allocated)) := by
  have hValid : HeapRun.Valid numPersistent run :=
    calls_valid numPersistent calls _ run
      (Init_valid previous heap0 numPersistent numTemporary hNP hInit) hRun
  obtain ⟨hValid1, hlt, hnot⟩ :=
    AllocatePersistent_valid numPersistent run index heap1 i hValid hAlloc
  obtain ⟨_, hNum, _, _, hPAlen, _, _, hFreeNodup, _, hFree⟩ := hValid
  obtain ⟨_, _, _, _, _, _, _, hFreeNodup1, _, hFree1⟩ := hValid1
  rw [hNum]
  exact ⟨rfl, hlt, hnot, hPAlen, hFreeNodup, hFree, hFreeNodup1, hFree1⟩

/-- Witness for C15: a heap of 4 persistent descriptors after three allocations (one of them
of the explicit index 3) and the release of index 0; the explicit index 1 is then handed
out, while 2 and 3 are allocated. -/
theorem AllocatePersistent_fresh_witness :
    (4 : Nat) < 2 ^ 32 ∧
    DescriptorHeap.Init {} 4 2 =
      some { HeapsCreated := true, NumPersistent := 4, DeadList := [0, 1, 2, 3],
             NumTemporary := 2 } ∧
    HeapRun.calls
        { heap := { HeapsCreated := true, NumPersistent := 4, DeadList := [0, 1, 2, 3],
                    NumTemporary := 2 },
          allocated := [] }
        [HeapCall.AllocatePersistent InvalidDescriptorIndex, HeapCall.AllocatePersistent 3,
         HeapCall.AllocatePersistent InvalidDescriptorIndex, HeapCall.FreePersistent 0] =
      some { heap := { HeapsCreated := true, NumPersistent := 4, PersistentAllocated := 2,
                       DeadList := [0, 3, 0, 1], NumTemporary := 2 },
             allocated := [2, 3] } ∧
    DescriptorHeap.AllocatePersistent
        { HeapsCreated := true, NumPersistent := 4, PersistentAllocated := 2,
          DeadList := [0, 3, 0, 1], NumTemporary := 2 } 1 =
      Except.ok ({ HeapsCreated := true, NumPersistent := 4, PersistentAllocated := 3,
                   DeadList := [0, 3, 1, 0], NumTemporary := 2 }, 1) ∧
    (1 : Nat) < 4 ∧ 1 ∉ [2, 3] :=
  have h := AllocatePersistent_fresh {}
    { HeapsCreated := true, NumPersistent := 4, DeadList := [0, 1, 2, 3], NumTemporary := 2 }
    4 2
    [HeapCall.AllocatePersistent InvalidDescriptorIndex, HeapCall.AllocatePersistent 3,
     HeapCall.AllocatePersistent InvalidDescriptorIndex, HeapCall.FreePersistent 0]
    { heap := { HeapsCreated := true, NumPersistent := 4, PersistentAllocated := 2,
                DeadList := [0, 3, 0, 1], NumTemporary := 2 },
      allocated := [2, 3] }
    1
    { HeapsCreated := true, NumPersistent := 4, PersistentAllocated := 3,
      DeadList := [0, 3, 1, 0], NumTemporary := 2 }
    1 (by decide) rfl rfl rfl
  ⟨by decide, rfl, rfl, rfl, h.2.1, h.2.2.1⟩

/-- C16 (counterexample): on a heap of two descriptors with one allocated
(`PersistentAllocated = 1 < 2 = NumPersistent`), a request for the explicit index 0, which is
the allocated one, fails. -/
theorem AllocatePersistent_fails_counterexample :
    DescriptorHeap.Init {} 2 0 =
      some { HeapsCreated := true, NumPersistent := 2, DeadList := [0, 1] } ∧
    DescriptorHeap.AllocatePersistent
        { HeapsCreated := true, NumPersistent := 2, DeadList := [0, 1] }
        InvalidDescriptorIndex =
      Except.ok ({ HeapsCreated := true, NumPersistent := 2, PersistentAllocated := 1,
                   DeadList := [0, 1] }, 0) ∧
    ¬ (DescriptorHeap.PersistentAllocated
          { HeapsCreated := true, NumPersistent := 2, PersistentAllocated := 1,
            DeadList := [0, 1] } ≥
        DescriptorHeap.NumPersistent
          { HeapsCreated := true, NumPersistent := 2, PersistentAllocated := 1,
            DeadList := [0, 1] }) ∧
    DescriptorHeap.AllocatePersistent
        { HeapsCreated := true, NumPersistent := 2, PersistentAllocated := 1,
          DeadList := [0, 1] } 0 =
      Except.error { HeapsCreated := true, NumPersistent := 2, PersistentAllocated := 1,
                     DeadList := [0, 1] } :=
  ⟨rfl, rfl, by decide, rfl⟩

/-- C16 (amended): on an initialised heap, `AllocatePersistent(index)` fails if and only if
`PersistentAllocated >= NumPersistent` or an explicit index is requested that is not among the
entries of `DeadList` from position `PersistentAllocated` on; a failed call leaves the heap
(`PersistentAllocated` and `DeadList` included) unchanged; a successful call increases
`PersistentAllocated` by exactly 1 and returns a free index, the requested one if one was
requested. -/
theorem AllocatePersistent_fails_iff (heap : DescriptorHeap) (index : Nat)
    (hCreated : heap.HeapsCreated = true) (hLen : heap.DeadList.length = heap.NumPersistent)
    (hNP : heap.NumPersistent < 2 ^ 32) :
    ((∃ failed, heap.AllocatePersistent index = Except.error failed) ↔
      (heap.PersistentAllocated ≥ heap.NumPersistent ∨
        (index ≠ InvalidDescriptorIndex ∧ index ∉ heap.freeList))) ∧
    (∀ failed, heap.AllocatePersistent index = Except.error failed → failed = heap) ∧
    (∀ heap1 i, heap.AllocatePersistent index = Except.ok (heap1, i) →
      heap1.PersistentAllocated = heap.PersistentAllocated + 1 ∧
      heap1.NumPersistent = heap.NumPersistent ∧
      heap1.DeadList.length = heap.DeadList.length ∧
      i ∈ heap.freeList ∧ heap1.DeadList[heap.PersistentAllocated]? = some i ∧
      (index ≠ InvalidDescriptorIndex → i = index) ∧
      (index = InvalidDescriptorIndex → heap1.DeadList = heap.DeadList)) := by
  by_cases hFull : heap.NumPersistent ≤ heap.PersistentAllocated
  · have herr := AllocatePersistent_full heap index hFull
    refine ⟨⟨fun _ => Or.inl hFull, fun _ => ⟨heap, herr⟩⟩, ?_, ?_⟩
    · intro failed h
      rw [herr] at h
      exact (Except.error.inj h).symm
    · intro heap1 i h
      rw [herr] at h
      exact Except.noConfusion h
  · have hPA : heap.PersistentAllocated < heap.NumPersistent := by omega
    rcases AllocatePersistent_spec heap index hCreated hLen hNP hPA with
      ⟨hidx, hmem, herr⟩ | ⟨hcase, deadList, next, hok, hlen, hperm, hdrop, hreq, hsame⟩
    · refine ⟨⟨fun _ => Or.inr ⟨hidx, hmem⟩, fun _ => ⟨heap, herr⟩⟩, ?_, ?_⟩
      · intro failed h
        rw [herr] at h
        exact (Except.error.inj h).symm
      · intro heap1 i h
        rw [herr] at h
        exact Except.noConfusion h
    · refine ⟨⟨?_, ?_⟩, ?_, ?_⟩
      · rintro ⟨failed, h⟩
        rw [hok] at h
        exact Except.noConfusion h
      · rintro (h | ⟨h1, h2⟩)
        · exact absurd h hFull
        · rcases hcase with h | h
          · exact absurd h h1
          · exact absurd h h2
      · intro failed h
        rw [hok] at h
        exact Except.noConfusion h
      · intro heap1 i h
        rw [hok] at h
        have hpair := Except.ok.inj h
        have hheap := congrArg Prod.fst hpair
        have hi : next = i := congrArg Prod.snd hpair
        simp only at hheap
        subst hheap
        subst hi
        have hmem : next ∈ heap.freeList := by
          apply hperm.subset
          rw [hdrop]
          exact List.mem_cons_self _ _
        have hget : deadList[heap.PersistentAllocated]? = some next := by
          have h0 : (deadList.drop heap.PersistentAllocated)[0]? = some next := by
            rw [hdrop]; simp
          simpa using h0
        exact ⟨rfl, rfl, hlen, hmem, hget, hreq, hsame⟩

/-- Witness for C16: on a heap of two descriptors with index 0 allocated, the request for
the explicit index 1 succeeds and makes PersistentAllocated 2. -/
theorem AllocatePersistent_fails_iff_witness :
    DescriptorHeap.AllocatePersistent
        { HeapsCreated := true, NumPersistent := 2, PersistentAllocated := 1,
          DeadList := [0, 1] } 1 =
      Except.ok ({ HeapsCreated := true, NumPersistent := 2, PersistentAllocated := 2,
                   DeadList := [0, 1] }, 1) ∧
    DescriptorHeap.PersistentAllocated
        { HeapsCreated := true, NumPersistent := 2, PersistentAllocated := 2,
          DeadList := [0, 1] } = 1 + 1 :=
  have hok : DescriptorHeap.AllocatePersistent
        { HeapsCreated := true, NumPersistent := 2, PersistentAllocated := 1,
          DeadList := [0, 1] } 1 =
      Except.ok ({ HeapsCreated := true, NumPersistent := 2, PersistentAllocated := 2,
                   DeadList := [0, 1] }, 1) := rfl
  ⟨hok,
    ((AllocatePersistent_fails_iff
      { HeapsCreated := true, NumPersistent := 2, PersistentAllocated := 1, DeadList := [0, 1] }
      1 rfl rfl (by decide)).2.2 _ _ hok).1⟩

/-! ### Recompilation in Update -/

/-- C21: in an update cycle `CompileComputeJob`, `DestroyPSOs` and `CreatePSOs` are called,
in this order and one after the other, exactly once each if `Changed()` holds for at least
one of InputBufferSizeMB, InputBufferSizeKB, InputBufferSizeBytes, ElemsPerThread,
ThreadElemStride, GroupElemOffset, ThreadElemOffset, InputBufferType, and not at all
otherwise; in particular not when the changes are confined to NumThreadGroups, HeapType,
CPUPageProperty and MemoryPool. -/
theorem Update_recompile (Changed : SettingName → Bool) (stable driver : Bool) :
    ((Changed SettingName.InputBufferSizeMB = true ∨
      Changed SettingName.InputBufferSizeKB = true ∨
      Changed SettingName.InputBufferSizeBytes = true ∨
      Changed SettingName.ElemsPerThread = true ∨
      Changed SettingName.ThreadElemStride = true ∨
      Changed SettingName.GroupElemOffset = true ∨
      Changed SettingName.ThreadElemOffset = true ∨
      Changed SettingName.InputBufferType = true) →
        (Update Changed stable driver).count Call.CompileComputeJob = 1 ∧
        (Update Changed stable driver).count Call.DestroyPSOs = 1 ∧
        (Update Changed stable driver).count Call.CreatePSOs = 1 ∧
        ∃ before after, Update Changed stable driver =
          before ++ [Call.CompileComputeJob, Call.DestroyPSOs, Call.CreatePSOs] ++ after) ∧
    ((Changed SettingName.InputBufferSizeMB = false ∧
      Changed SettingName.InputBufferSizeKB = false ∧
      Changed SettingName.InputBufferSizeBytes = false ∧
      Changed SettingName.ElemsPerThread = false ∧
      Changed SettingName.ThreadElemStride = false ∧
      Changed SettingName.GroupElemOffset = false ∧
      Changed SettingName.ThreadElemOffset = false ∧
      Changed SettingName.InputBufferType = false) →
        Call.CompileComputeJob ∉ Update Changed stable driver ∧
        Call.DestroyPSOs ∉ Update Changed stable driver ∧
        Call.CreatePSOs ∉ Update Changed stable driver) ∧
    ((∀ setting, Changed setting = true →
        setting = SettingName.NumThreadGroups ∨ setting = SettingName.HeapType ∨
        setting = SettingName.CPUPageProperty ∨ setting = SettingName.MemoryPool) →
        Call.CompileComputeJob ∉ Update Changed stable driver ∧
        Call.DestroyPSOs ∉ Update Changed stable driver ∧
        Call.CreatePSOs ∉ Update Changed stable driver) := by
  have hnone : recompileSettings.any Changed = false →
      Call.CompileComputeJob ∉ Update Changed stable driver ∧
      Call.DestroyPSOs ∉ Update Changed stable driver ∧
      Call.CreatePSOs ∉ Update Changed stable driver := by
    intro hc
    cases stable <;> cases driver <;>
      by_cases hb : rebuildBufferSettings.any Changed = true <;>
      by_cases hu : Changed SettingName.BufferUploadPath = true <;>
      simp [Update, onFirstChanged_eq, hb, hc, hu]
  refine ⟨fun h => ?_, fun h => ?_, fun h => ?_⟩
  · have hc : recompileSettings.any Changed = true := by
      simp only [recompileSettings, List.any_cons, List.any_nil, Bool.or_false,
        Bool.or_eq_true]
      tauto
    refine ⟨?_, ?_, ?_, ?_⟩
    · cases stable <;> cases driver <;>
        by_cases hb : rebuildBufferSettings.any Changed = true <;>
        by_cases hu : Changed SettingName.BufferUploadPath = true <;>
        simp [Update, onFirstChanged_eq, hb, hc, hu]
    · cases stable <;> cases driver <;>
        by_cases hb : rebuildBufferSettings.any Changed = true <;>
        by_cases hu : Changed SettingName.BufferUploadPath = true <;>
        simp [Update, onFirstChanged_eq, hb, hc, hu]
    · cases stable <;> cases driver <;>
        by_cases hb : rebuildBufferSettings.any Changed = true <;>
        by_cases hu : Changed SettingName.BufferUploadPath = true <;>
        simp [Update, onFirstChanged_eq, hb, hc, hu]
    · refine ⟨[Call.SetVSYNCEnabled, Call.TickBenchmark] ++
          (if stable = true then [Call.SetStablePowerState] else []) ++
          (if driver = true then [Call.SetBackgroundProcessingMode] else []) ++
          onFirstChanged Changed [Call.CreateBuffers] rebuildBufferSettings,
        if Changed SettingName.BufferUploadPath = true then [Call.FlushGPU] else [], ?_⟩
      simp only [Update, onFirstChanged_eq Changed _ recompileSettings, hc, if_true]
  · obtain ⟨h1, h2, h3, h4, h5, h6, h7, h8⟩ := h
    exact hnone (by simp [recompileSettings, h1, h2, h3, h4, h5, h6, h7, h8])
  · apply hnone
    have hf : ∀ setting, setting ≠ SettingName.NumThreadGroups →
        setting ≠ SettingName.HeapType → setting ≠ SettingName.CPUPageProperty →
        setting ≠ SettingName.MemoryPool → Changed setting = false := by
      intro setting n1 n2 n3 n4
      by_contra hc
      have := h setting (by simpa using hc)
      tauto
    simp [recompileSettings, hf]

/-- Witness for C21: a cycle in which only ElemsPerThread changed, and one in which only
NumThreadGroups changed. -/
theorem Update_recompile_witness :
    (Update (fun setting => decide (setting = SettingName.ElemsPerThread)) false false).count
        Call.CompileComputeJob = 1 ∧
    Call.CompileComputeJob ∉
      Update (fun setting => decide (setting = SettingName.NumThreadGroups)) false false :=
  ⟨((Update_recompile (fun setting => decide (setting = SettingName.ElemsPerThread)) false
      false).1 (by simp)).1,
   ((Update_recompile (fun setting => decide (setting = SettingName.NumThreadGroups)) false
      false).2.2 (by intro setting; simp; intro h; exact Or.inl h)).1⟩

/-! ### The sizes of CreateBuffers -/

/-- For in-range size settings the size computation of `CreateBuffers` runs without
wrap-around: the clamped request, the aligned size and the heap size. -/
theorem inputBufferSize_spec (sdk : D3D12) (settings : Settings)
    (hCount : 0 < sdk.REQ_CONSTANT_BUFFER_ELEMENT_COUNT)
    (hSmall : sdk.REQ_CONSTANT_BUFFER_ELEMENT_COUNT ≤ 2 ^ 26)
    (hMB : 0 ≤ settings.InputBufferSizeMB ∧ settings.InputBufferSizeMB ≤ 256)
    (hKB : 0 ≤ settings.InputBufferSizeKB ∧ settings.InputBufferSizeKB ≤ 1024)
    (hBytes : 0 ≤ settings.InputBufferSizeBytes ∧ settings.InputBufferSizeBytes ≤ 1024) :
    ∃ clamped aligned,
      Clamp (requestedInputBufferSize settings) 1 (maxInputBufferSize sdk settings) =
        some clamped ∧
      (clamped : Int) =
        max (1 : Int) (min (settings.InputBufferSizeMB * 2 ^ 20 +
          settings.InputBufferSizeKB * 1024 + settings.InputBufferSizeBytes)
          ((maxInputBufferSize sdk settings : Nat) : Int)) ∧
      maxInputBufferSize sdk settings =
        (if settings.InputBufferType = BufferTypes.Constant then
          sdk.REQ_CONSTANT_BUFFER_ELEMENT_COUNT * 16 else 2 ^ 30) ∧
      inputBufferAlignment settings =
        (if settings.InputBufferType = BufferTypes.Constant then 256 else 1) ∧
      inputBufferSize sdk settings = some aligned ∧
      inputBufferAlignment settings ∣ aligned ∧ clamped ≤ aligned ∧
      aligned < clamped + inputBufferAlignment settings ∧
      clamped + inputBufferAlignment settings - 1 < 2 ^ 32 ∧
      aligned ≤ 2 ^ 30 + 255 := by
  have hreq := requestedInputBufferSize_eq settings hMB hKB hBytes
  generalize hreqdef : requestedInputBufferSize settings = req at hreq ⊢
  have hmaxC : MaxCBufferSize sdk = sdk.REQ_CONSTANT_BUFFER_ELEMENT_COUNT * 16 := by
    simp only [MaxCBufferSize]; omega
  obtain ⟨m, al, hm, hal, hm1, hal1⟩ : ∃ m al, maxInputBufferSize sdk settings = m ∧
      inputBufferAlignment settings = al ∧
      m = (if settings.InputBufferType = BufferTypes.Constant then
          sdk.REQ_CONSTANT_BUFFER_ELEMENT_COUNT * 16 else 2 ^ 30) ∧
      al = (if settings.InputBufferType = BufferTypes.Constant then 256 else 1) := by
    refine ⟨_, _, rfl, rfl, ?_, ?_⟩
    · simp only [maxInputBufferSize, hmaxC]; split_ifs <;> norm_num
    · simp only [inputBufferAlignment, ConstantBufferAlignment]; split_ifs <;> norm_num
  have hmb : 1 ≤ m ∧ m ≤ 2 ^ 30 := by rw [hm1]; split_ifs <;> omega
  have halb : 1 ≤ al ∧ al ≤ 256 := by rw [hal1]; split_ifs <;> omega
  have hclamp : Clamp req 1 m = some (if req < 1 then 1 else if req > m then m else req) := by
    simp only [Clamp]; rw [if_pos (by omega)]
  obtain ⟨c, hc⟩ : ∃ c, c = (if req < 1 then 1 else if req > m then m else req) := ⟨_, rfl⟩
  have hc1 : 1 ≤ c ∧ c ≤ m := by rw [hc]; split_ifs <;> omega
  have halign := AlignTo_eq c al (by omega) (by omega)
  have hsize : inputBufferSize sdk settings = some ((c + al - 1) / al * al) := by
    simp only [inputBufferSize, hreqdef, hm, hclamp, hal, ← hc, halign]
  have hle : (c + al - 1) / al * al ≤ c + al - 1 := Nat.div_mul_le_self _ _
  have hgt : c + al - 1 < (c + al - 1) / al * al + al := by
    have := Nat.lt_div_mul_add (a := c + al - 1) (b := al) (by omega)
    omega
  rw [hm, hal]
  refine ⟨c, _, by rw [hclamp, hc], ?_, hm1, hal1, hsize, Dvd.intro_left _ rfl, by omega,
    by omega, by omega, by omega⟩
  rw [hc]; split_ifs <;> omega

/-- C22: for in-range size settings and every buffer type the size computation of
`CreateBuffers` succeeds; the request is the sum of the three settings, `clamped` is the
request clamped to [1, max] (max = `MaxCBufferSize` for Constant, 2^30 otherwise), `aligned`
is `clamped` rounded up to a multiple of the alignment (256 for Constant, 1 otherwise), and
the heap size is the least multiple of 65536 that is at least `RenderLatency * aligned`;
the sum, the additions inside both `AlignTo` and the multiplication by `RenderLatency` stay
below the bounds of their 32-bit types. The two SDK constants are parameters:
`D3D12_DEFAULT_RESOURCE_PLACEMENT_ALIGNMENT = 65536` and a constant-buffer element count
between 1 and 2^26 (the SDK value is 4096). -/
theorem totalInputBufferSize_eq (sdk : D3D12) (settings : Settings)
    (hCount : 0 < sdk.REQ_CONSTANT_BUFFER_ELEMENT_COUNT)
    (hSmall : sdk.REQ_CONSTANT_BUFFER_ELEMENT_COUNT ≤ 2 ^ 26)
    (hPlacement : sdk.DEFAULT_RESOURCE_PLACEMENT_ALIGNMENT = 65536)
    (hMB : 0 ≤ settings.InputBufferSizeMB ∧ settings.InputBufferSizeMB ≤ 256)
    (hKB : 0 ≤ settings.InputBufferSizeKB ∧ settings.InputBufferSizeKB ≤ 1024)
    (hBytes : 0 ≤ settings.InputBufferSizeBytes ∧ settings.InputBufferSizeBytes ≤ 1024) :
    ∃ clamped aligned heapSize,
      (requestedInputBufferSize settings : Int) =
        settings.InputBufferSizeMB * 2 ^ 20 + settings.InputBufferSizeKB * 1024 +
          settings.InputBufferSizeBytes ∧
      settings.InputBufferSizeMB * 2 ^ 20 + settings.InputBufferSizeKB * 1024 +
          settings.InputBufferSizeBytes < 2 ^ 31 ∧
      Clamp (requestedInputBufferSize settings) 1 (maxInputBufferSize sdk settings) =
        some clamped ∧
      1 ≤ clamped ∧ clamped ≤ maxInputBufferSize sdk settings ∧
      (clamped : Int) =
        max (1 : Int) (min (requestedInputBufferSize settings : Int)
          ((maxInputBufferSize sdk settings : Nat) : Int)) ∧
      maxInputBufferSize sdk settings =
        (if settings.InputBufferType = BufferTypes.Constant then MaxCBufferSize sdk
         else 2 ^ 30) ∧
      MaxCBufferSize sdk = sdk.REQ_CONSTANT_BUFFER_ELEMENT_COUNT * 16 ∧
      inputBufferAlignment settings =
        (if settings.InputBufferType = BufferTypes.Constant then 256 else 1) ∧
      inputBufferSize sdk settings = some aligned ∧
      inputBufferAlignment settings ∣ aligned ∧ clamped ≤ aligned ∧
      aligned < clamped + inputBufferAlignment settings ∧
      totalInputBufferSize sdk settings = some heapSize ∧
      65536 ∣ heapSize ∧ RenderLatency * aligned ≤ heapSize ∧
      heapSize < RenderLatency * aligned + 65536 ∧
      (∀ multiple, 65536 ∣ multiple → RenderLatency * aligned ≤ multiple →
        heapSize ≤ multiple) ∧
      clamped + inputBufferAlignment settings - 1 < 2 ^ 32 ∧
      aligned * RenderLatency < 2 ^ 32 ∧
      aligned * RenderLatency + 65536 - 1 < 2 ^ 32 := by
  obtain ⟨c, a, hclamp, hc, hmax, hal, hsize, hdvd, hle, hlt, hw1, hbound⟩ :=
    inputBufferSize_spec sdk settings hCount hSmall hMB hKB hBytes
  have hreq := requestedInputBufferSize_eq settings hMB hKB hBytes
  have hmaxC : MaxCBufferSize sdk = sdk.REQ_CONSTANT_BUFFER_ELEMENT_COUNT * 16 := by
    simp only [MaxCBufferSize]; omega
  have h2 : (a * (RenderLatency % 2 ^ 32)) % 2 ^ 32 = a * 2 := by
    simp only [RenderLatency]; omega
  have htotal : totalInputBufferSize sdk settings =
      some ((a * 2 + 65536 - 1) / 65536 * 65536) := by
    simp only [totalInputBufferSize, hsize, h2, hPlacement]
    exact AlignTo_eq (a * 2) 65536 (by norm_num) (by omega)
  have hc2 : 1 ≤ c ∧ c ≤ maxInputBufferSize sdk settings := by
    have : (1 : Int) ≤ c ∧ (c : Int) ≤ (maxInputBufferSize sdk settings : Nat) := by
      have hm1 : (1 : Int) ≤ (maxInputBufferSize sdk settings : Nat) := by
        rw [hmax]; split_ifs <;> omega
      rw [hc]; omega
    omega
  refine ⟨c, a, _, hreq, by omega, hclamp, hc2.1, hc2.2, by rw [hc, hreq], ?_, hmaxC, hal,
    hsize, hdvd, hle, hlt, htotal, Dvd.intro_left _ rfl, ?_, ?_, ?_, hw1, ?_, ?_⟩
  · rw [hmax, hmaxC]
  · simp only [RenderLatency]; omega
  · simp only [RenderLatency]; omega
  · rintro multiple ⟨k, rfl⟩ hk
    simp only [RenderLatency] at hk
    have : (a * 2 + 65536 - 1) / 65536 ≤ k := by omega
    omega
  · simp only [RenderLatency]; omega
  · simp only [RenderLatency]; omega

/-- Witness for C22: the default settings, 16 MiB in a raw buffer and a heap of 32 MiB. -/
theorem totalInputBufferSize_eq_witness :
    ∃ aligned heapSize,
      inputBufferSize d3d12 {} = some aligned ∧ aligned = 16777216 ∧
      totalInputBufferSize d3d12 {} = some heapSize ∧ heapSize = 33554432 ∧
      65536 ∣ heapSize ∧ RenderLatency * aligned ≤ heapSize ∧
      heapSize < RenderLatency * aligned + 65536 := by
  obtain ⟨clamped, aligned, heapSize, h⟩ :=
    totalInputBufferSize_eq d3d12 {} (by decide) (by decide) rfl (by decide) (by decide)
      (by decide)
  have ha : inputBufferSize d3d12 {} = some 16777216 := by decide
  have hh : totalInputBufferSize d3d12 {} = some 33554432 := by decide
  have h1 := h.2.2.2.2.2.2.2.2.2.1
  have h2 := h.2.2.2.2.2.2.2.2.2.2.2.2.2
  refine ⟨aligned, heapSize, h1, ?_, h2.1, ?_, h2.2.1, h2.2.2.1, h2.2.2.2.1⟩
  · rw [ha] at h1; exact (Option.some.inj h1).symm
  · rw [hh] at h2; exact (Option.some.inj h2.1).symm

/-- C26: for in-range size settings the element count `CreateBuffers` passes to
`inputBuffer.Initialize` (`numInputElems * 4`) is greater than zero exactly when the buffer
type is Constant or the requested size is at least 16 bytes; the input buffer is created
exactly in that case, and otherwise (a request below 16 bytes for a Raw, Formatted or
Structured buffer) the assertion `init.NumElements > 0` of `RawBuffer::Initialize` fails and
`CreateBuffers` with it. -/
theorem createInputBuffer_small (sdk : D3D12) (settings : Settings)
    (hCount : 0 < sdk.REQ_CONSTANT_BUFFER_ELEMENT_COUNT)
    (hSmall : sdk.REQ_CONSTANT_BUFFER_ELEMENT_COUNT ≤ 2 ^ 26)
    (hMB : 0 ≤ settings.InputBufferSizeMB ∧ settings.InputBufferSizeMB ≤ 256)
    (hKB : 0 ≤ settings.InputBufferSizeKB ∧ settings.InputBufferSizeKB ≤ 1024)
    (hBytes : 0 ≤ settings.InputBufferSizeBytes ∧ settings.InputBufferSizeBytes ≤ 1024) :
    ∃ elems, numInputElems sdk settings = some elems ∧
      ((elems * 4) % 2 ^ 32 > 0 ↔
        (settings.InputBufferType = BufferTypes.Constant ∨
          16 ≤ settings.InputBufferSizeMB * 2 ^ 20 + settings.InputBufferSizeKB * 1024 +
            settings.InputBufferSizeBytes)) ∧
      ((createInputBuffer sdk settings).isSome = true ↔ (elems * 4) % 2 ^ 32 > 0) ∧
      ((CreateBuffers sdk settings).isSome = true → (elems * 4) % 2 ^ 32 > 0) := by
  obtain ⟨c, a, hclamp, hc, hmax, hal, hsize, hdvd, hle, hlt, hw1, hbound⟩ :=
    inputBufferSize_spec sdk settings hCount hSmall hMB hKB hBytes
  have helems : numInputElems sdk settings = some (a / 16) := by
    simp only [numInputElems, hsize, Option.map_some']
  have hiff : (a / 16 * 4) % 2 ^ 32 > 0 ↔
      (settings.InputBufferType = BufferTypes.Constant ∨
        16 ≤ settings.InputBufferSizeMB * 2 ^ 20 + settings.InputBufferSizeKB * 1024 +
          settings.InputBufferSizeBytes) := by
    by_cases hT : settings.InputBufferType = BufferTypes.Constant
    · rw [hal, if_pos hT] at hdvd hlt
      have : 256 ≤ a := by
        obtain ⟨k, rfl⟩ := hdvd
        omega
      simp only [hT, true_or, iff_true]
      omega
    · rw [hal, if_neg hT] at hlt
      rw [hmax, if_neg hT] at hc
      simp only [hT, false_or]
      omega
  have hcreate : (createInputBuffer sdk settings).isSome = true ↔ (a / 16 * 4) % 2 ^ 32 > 0 := by
    constructor
    · intro h
      by_contra h0
      have hz : (a / 16 * 4) % 2 ^ 32 = 0 := by omega
      have hz2 : (a / 16 * 4) % 4294967296 = 0 := hz
      simp [createInputBuffer, helems, RawBuffer.Initialize, hz2] at h
    · intro h
      obtain ⟨buffer, hb, -⟩ := createInputBuffer_of_size sdk settings a hsize (by omega)
        (by omega)
      simp [hb]
  refine ⟨_, helems, hiff, hcreate, fun h => hcreate.1 ?_⟩
  cases hb : createInputBuffer sdk settings with
  | some buffer => rfl
  | none =>
    cases hn : numInputElems sdk settings <;> cases ht : totalInputBufferSize sdk settings <;>
      simp [CreateBuffers, hb, hn, ht] at h

/-- Witness for C26: a raw buffer of 15 bytes has no element and is not created. -/
theorem createInputBuffer_small_witness :
    numInputElems d3d12 { InputBufferSizeMB := 0, InputBufferSizeBytes := 15 } = some 0 ∧
    createInputBuffer d3d12 { InputBufferSizeMB := 0, InputBufferSizeBytes := 15 } = none ∧
    CreateBuffers d3d12 { InputBufferSizeMB := 0, InputBufferSizeBytes := 15 } = none := by
  obtain ⟨elems, h1, h2, h3, h4⟩ :=
    createInputBuffer_small d3d12 { InputBufferSizeMB := 0, InputBufferSizeBytes := 15 }
      (by decide) (by decide) (by decide) (by decide) (by decide)
  have he : numInputElems d3d12 { InputBufferSizeMB := 0, InputBufferSizeBytes := 15 } =
      some 0 := by decide
  rw [he] at h1
  have h0 : elems = 0 := (Option.some.inj h1).symm
  subst h0
  refine ⟨he, ?_, ?_⟩
  · have : ¬ ((createInputBuffer d3d12
        { InputBufferSizeMB := 0, InputBufferSizeBytes := 15 }).isSome = true) :=
      fun h => absurd (h3.1 h) (by decide)
    simpa using this
  · have : ¬ ((CreateBuffers d3d12
        { InputBufferSizeMB := 0, InputBufferSizeBytes := 15 }).isSome = true) :=
      fun h => absurd (h4 h) (by decide)
    simpa using this

/-- The input buffer `CreateBuffers` creates when `inputBufferSize` is at least 16, with all
its fields. -/
theorem createInputBuffer_eq (sdk : D3D12) (settings : Settings) (size : Nat)
    (hsize : inputBufferSize sdk settings = some size) (h16 : 16 ≤ size) (hlt : size < 2 ^ 32) :
    createInputBuffer sdk settings =
      some
        { InternalBuffer :=
            { CurrBuffer := 0, Alignment := 4, Size := 4 * (size / 16 * 4), Dynamic := true,
              CPUAccessible := IsInputBufferCPUWritable settings, HeapOffset := 0,
              Width := 4 * (size / 16 * 4) * 2 }
          NumElements := size / 16 * 4 } := by
  have hn : (size / 16 * 4) % 2 ^ 32 = size / 16 * 4 := by omega
  have hinit := RawBuffer_Initialize_dynamic (size / 16 * 4) (IsInputBufferCPUWritable settings)
    (by omega) (by omega) (by omega)
  rw [← hinit]
  simp only [createInputBuffer, numInputElems, hsize, Option.map_some', hn]

/-- The input buffer is not created when `inputBufferSize` is below 16. -/
theorem createInputBuffer_none (sdk : D3D12) (settings : Settings) (size : Nat)
    (hsize : inputBufferSize sdk settings = some size) (h16 : size < 16) :
    createInputBuffer sdk settings = none := by
  have hz : (size / 16 * 4) % 4294967296 = 0 := by omega
  simp [createInputBuffer, numInputElems, hsize, RawBuffer.Initialize, hz]

/-- What a successful `CreateBuffers` returns comes from the size computation and from
`createInputBuffer`. -/
theorem CreateBuffers_some (sdk : D3D12) (settings : Settings) (buffers : Buffers)
    (h : CreateBuffers sdk settings = some buffers) :
    numInputElems sdk settings = some buffers.readbackMem ∧
    buffers.inputBufferShadowMem = buffers.readbackMem ∧
    totalInputBufferSize sdk settings = some buffers.inputBufferHeapSize ∧
    createInputBuffer sdk settings = some buffers.inputBuffer ∧
    (IsInputBufferCPUWritable settings = false →
      ∃ uploadBuffer, buffers.uploadBuffer = some uploadBuffer ∧
        Buffer.Initialize
          { Size := buffers.inputBuffer.InternalBuffer.Size, Alignment := 4, Dynamic := true,
            CPUAccessible := true } false = some uploadBuffer) ∧
    (IsInputBufferCPUWritable settings = true → buffers.uploadBuffer = none) := by
  cases hn : numInputElems sdk settings with
  | none => simp [CreateBuffers, hn] at h
  | some elems =>
    cases ht : totalInputBufferSize sdk settings with
    | none => simp [CreateBuffers, hn, ht] at h
    | some heapSize =>
      cases hb : createInputBuffer sdk settings with
      | none => simp [CreateBuffers, hn, ht, hb] at h
      | some inputBuffer =>
        simp only [CreateBuffers, hn, ht, hb, -Nat.reducePow, -Nat.reduceSub] at h
        generalize hu : Buffer.Initialize
              { Size := inputBuffer.InternalBuffer.Size, Alignment := 4, Dynamic := true,
                CPUAccessible := true } false = upload at h
        cases hw : IsInputBufferCPUWritable settings with
        | false =>
          simp only [hw, if_true] at h
          cases upload with
          | none => simp at h
          | some uploadBuffer =>
            simp only [Option.map_some'] at h
            cases ho : RawBuffer.Initialize
                { NumElements := numTotalThreads settings, CreateUAV := true } false with
            | none => simp [ho] at h
            | some outputBuffer =>
              simp only [ho, Option.some.injEq] at h
              subst h
              exact ⟨rfl, rfl, rfl, rfl, fun _ => ⟨uploadBuffer, rfl, hu⟩,
                fun h1 => absurd h1 (by decide)⟩
        | true =>
          simp only [hw, Bool.true_eq_false, if_false] at h
          cases ho : RawBuffer.Initialize
              { NumElements := numTotalThreads settings, CreateUAV := true } false with
          | none => simp [ho] at h
          | some outputBuffer =>
            simp only [ho, Option.some.injEq] at h
            subst h
            exact ⟨rfl, rfl, rfl, rfl, fun h1 => absurd h1 (by decide), fun _ => rfl⟩

/-- C27: for in-range size settings and every buffer type the heap size is computed, and an
input buffer that `CreateBuffers` creates is placed at heap offset 0 with a resource width of
`InternalBuffer.Size * RenderLatency` that is at most the size of the heap; the buffer is
created whenever the type is Constant or the request is at least 16 bytes. -/
theorem inputBuffer_fits_heap (sdk : D3D12) (settings : Settings)
    (hCount : 0 < sdk.REQ_CONSTANT_BUFFER_ELEMENT_COUNT)
    (hSmall : sdk.REQ_CONSTANT_BUFFER_ELEMENT_COUNT ≤ 2 ^ 26)
    (hPlacement : sdk.DEFAULT_RESOURCE_PLACEMENT_ALIGNMENT = 65536)
    (hMB : 0 ≤ settings.InputBufferSizeMB ∧ settings.InputBufferSizeMB ≤ 256)
    (hKB : 0 ≤ settings.InputBufferSizeKB ∧ settings.InputBufferSizeKB ≤ 1024)
    (hBytes : 0 ≤ settings.InputBufferSizeBytes ∧ settings.InputBufferSizeBytes ≤ 1024) :
    (∃ heapSize, totalInputBufferSize sdk settings = some heapSize ∧
      (∀ buffer, createInputBuffer sdk settings = some buffer →
        buffer.InternalBuffer.HeapOffset = 0 ∧
        buffer.InternalBuffer.Width = buffer.InternalBuffer.Size * RenderLatency ∧
        buffer.InternalBuffer.HeapOffset + buffer.InternalBuffer.Width ≤ heapSize) ∧
      (∀ buffers, CreateBuffers sdk settings = some buffers →
        buffers.inputBufferHeapSize = heapSize ∧
        buffers.inputBuffer.InternalBuffer.HeapOffset = 0 ∧
        buffers.inputBuffer.InternalBuffer.Width =
          buffers.inputBuffer.InternalBuffer.Size * RenderLatency ∧
        buffers.inputBuffer.InternalBuffer.Size * RenderLatency ≤
          buffers.inputBufferHeapSize)) ∧
    ((settings.InputBufferType = BufferTypes.Constant ∨
        16 ≤ settings.InputBufferSizeMB * 2 ^ 20 + settings.InputBufferSizeKB * 1024 +
          settings.InputBufferSizeBytes) →
      (createInputBuffer sdk settings).isSome = true) := by
  obtain ⟨c, a, heapSize, -, -, -, -, -, -, -, -, -, hsize, -, -, -, htotal, -, hheap, -, -,
      -, hwrap, -⟩ :=
    totalInputBufferSize_eq sdk settings hCount hSmall hPlacement hMB hKB hBytes
  obtain ⟨elems, helems, hpos, hcreate, -⟩ :=
    createInputBuffer_small sdk settings hCount hSmall hMB hKB hBytes
  have hbuffer : ∀ buffer, createInputBuffer sdk settings = some buffer →
      buffer.InternalBuffer.HeapOffset = 0 ∧
      buffer.InternalBuffer.Width = buffer.InternalBuffer.Size * RenderLatency ∧
      buffer.InternalBuffer.HeapOffset + buffer.InternalBuffer.Width ≤ heapSize := by
    intro buffer hb
    by_cases h16 : 16 ≤ a
    · have hbound : a < 2 ^ 32 := by
        simp only [RenderLatency] at hwrap
        omega
      rw [createInputBuffer_eq sdk settings a hsize h16 hbound] at hb
      rw [← Option.some.inj hb]
      refine ⟨rfl, rfl, ?_⟩
      simp only [RenderLatency] at hheap
      show 0 + 4 * (a / 16 * 4) * 2 ≤ heapSize
      omega
    · rw [createInputBuffer_none sdk settings a hsize (by omega)] at hb
      exact absurd hb (by simp)
  refine ⟨⟨heapSize, htotal, hbuffer, ?_⟩, fun h => hcreate.2 (hpos.2 h)⟩
  intro buffers hbuffers
  obtain ⟨-, -, ht, hb, -⟩ := CreateBuffers_some sdk settings buffers hbuffers
  rw [htotal] at ht
  have hh : buffers.inputBufferHeapSize = heapSize := (Option.some.inj ht).symm
  obtain ⟨h1, h2, h3⟩ := hbuffer _ hb
  refine ⟨hh, h1, h2, ?_⟩
  rw [hh, ← h2]
  omega

/-- Witness for C27: the default settings, where the two copies of 16 MiB fill the heap of
32 MiB. -/
theorem inputBuffer_fits_heap_witness :
    ∃ buffers, CreateBuffers d3d12 {} = some buffers ∧
      buffers.inputBuffer.InternalBuffer.Width = 33554432 ∧
      buffers.inputBufferHeapSize = 33554432 ∧
      buffers.inputBuffer.InternalBuffer.Size * RenderLatency ≤ buffers.inputBufferHeapSize := by
  have h := inputBuffer_fits_heap d3d12 {} (by decide) (by decide) rfl (by decide) (by decide)
    (by decide)
  obtain ⟨⟨heapSize, -, -, hall⟩, -⟩ := h
  cases hb : CreateBuffers d3d12 {} with
  | none => exact absurd hb (by decide)
  | some buffers =>
    have hw : (CreateBuffers d3d12 {}).map (fun b => b.inputBuffer.InternalBuffer.Width) =
        some 33554432 := by decide
    have hs : (CreateBuffers d3d12 {}).map (fun b => b.inputBufferHeapSize) =
        some 33554432 := by decide
    rw [hb] at hw hs
    simp only [Option.map_some', Option.some.injEq] at hw hs
    exact ⟨buffers, rfl, hw, hs, (hall buffers hb).2.2.2⟩

/-! ### The length of the sweep -/

/-- C25: from the "Run Benchmark" state, with the bookkeeping of `InitBenchmark` for N
configurations, all ticks succeed; after exactly 73 x N of them the machine is idle
(benchmarkConfigIdx = N = numBenchmarks); after fewer it is not, and tick t then applies a
configuration if t mod 73 = 0, records a sample if t mod 73 >= 9 and does neither in the 8
warm-up ticks in between; every further tick does nothing and leaves benchmarkConfigIdx,
benchmarkFrameIdx, the samples and the results unchanged. -/
theorem TickBenchmark_sweep_length {F : Type} [DoubleArith F] (frames : Nat → Frame F)
    (N : Nat) (s : State F) (hReady : Ready N s)
    (hStart : s.benchmarkConfigIdx = 0 ∧ s.benchmarkFrameIdx = NumBenchmarkTotalFrames) :
    (∃ s', runTicks frames (73 * N) s = some s' ∧ s'.numBenchmarks = N ∧
      s'.benchmarkConfigIdx = N) ∧
    (∀ t, t < 73 * N → ∃ s' log, runTicks frames t s = some s' ∧ s'.numBenchmarks = N ∧
      s'.benchmarkConfigIdx < N ∧ tickLog frames t s = some log ∧
      (log.applied.isSome = true ↔ t % 73 = 0) ∧
      (log.sampleIdx.isSome = true ↔ 9 ≤ t % 73) ∧
      (log.aggregated.isSome = true ↔ t % 73 = 72)) ∧
    (∀ t, 73 * N ≤ t → ∃ s' s'', runTicks frames t s = some s' ∧
      runTicks frames (t + 1) s = some s'' ∧ tickLog frames t s = some {} ∧
      s'.benchmarkConfigIdx = N ∧
      s''.benchmarkConfigIdx = s'.benchmarkConfigIdx ∧
      s''.benchmarkFrameIdx = s'.benchmarkFrameIdx ∧
      s''.benchmarkSamples = s'.benchmarkSamples ∧
      s''.benchmarkResults = s'.benchmarkResults) := by
  obtain ⟨hc, hf⟩ := hStart
  refine ⟨?_, ?_, ?_⟩
  · obtain ⟨s', hrun, hR, hc1, -⟩ := runTicks_counters frames N s hReady hc hf (73 * N)
    refine ⟨s', hrun, hR.1, ?_⟩
    rw [hc1, sweepConfigIdx, if_pos (Nat.le_refl _)]
  · intro t ht
    obtain ⟨s', hrun, hR, hc1, -⟩ := runTicks_counters frames N s hReady hc hf t
    obtain ⟨log, hlog, ha, hs, hg, -, -⟩ := tickLog_sweep frames N s hReady hc hf t
    refine ⟨s', log, hrun, hR.1, ?_, hlog, ?_, ?_, ?_⟩
    · rw [hc1, sweepConfigIdx, if_neg (by omega)]
      omega
    · rw [ha]; split_ifs with h <;> simp <;> omega
    · rw [hs]; split_ifs with h <;> simp <;> omega
    · rw [hg]; split_ifs with h <;> simp <;> omega
  · intro t ht
    obtain ⟨s', hrun, hR, hc1, -⟩ := runTicks_counters frames N s hReady hc hf t
    have hidle : s'.benchmarkConfigIdx = N := by
      rw [hc1, sweepConfigIdx, if_pos ht]
    have hstep : tickFrame frames t s' =
        some ({ s' with AppSettings := (frames t).editSettings s'.AppSettings }, {}) := by
      simp only [tickFrame]
      exact TickBenchmark_idle _ _ (by show s'.numBenchmarks ≤ s'.benchmarkConfigIdx
                                       rw [hR.1, hidle])
    refine ⟨s', { s' with AppSettings := (frames t).editSettings s'.AppSettings }, hrun, ?_,
      ?_, hidle, rfl, rfl, rfl, rfl⟩
    · simp only [runTicks, hrun, hstep, Option.map_some']
    · simp only [tickLog, hrun, hstep, Option.map_some']

/-- Witness for C25: the started sweep of 8 configurations is idle after 584 ticks. -/
theorem TickBenchmark_sweep_length_witness :
    ∃ s', runTicks steadyFrames (73 * 8) startedSweep = some s' ∧ s'.numBenchmarks = 8 ∧
      s'.benchmarkConfigIdx = 8 :=
  (TickBenchmark_sweep_length steadyFrames 8 startedSweep startedSweep_ready ⟨rfl, rfl⟩).1

/-! ### The CPU read time of the samples -/

/-- What a successful tick did, by the branch of `TickBenchmark` it took. -/
theorem TickBenchmark_cases {F : Type} [DoubleArith F] (s s' : State F)
    (p : ProfilerTimings F) (log : TickLog) (h : TickBenchmark s p = some (s', log)) :
    (s.numBenchmarks ≤ s.benchmarkConfigIdx ∧ s' = s ∧ log = {}) ∨
    (s.benchmarkConfigIdx < s.numBenchmarks ∧ NumBenchmarkTotalFrames ≤ s.benchmarkFrameIdx ∧
      ∃ config, s.benchmarkConfigs[s.benchmarkConfigIdx]? = some config ∧
        s' = { s with AppSettings := applyConfig config s.AppSettings, benchmarkFrameIdx := 0 } ∧
        log = { applied := some s.benchmarkConfigIdx }) ∨
    (s.benchmarkConfigIdx < s.numBenchmarks ∧ s.benchmarkFrameIdx < NumBenchmarkTotalFrames ∧
      recordSample s p = some (s'.benchmarkSamples, log.sampleIdx) ∧
      log.applied = none ∧
      s'.AppSettings = s.AppSettings ∧ s'.benchmarkConfigs = s.benchmarkConfigs ∧
      s'.numBenchmarks = s.numBenchmarks ∧
      s'.benchmarkFrameIdx = (s.benchmarkFrameIdx + 1) % 2 ^ 32 ∧
      (log.aggregated.isSome = true ↔
        (s.benchmarkFrameIdx + 1) % 2 ^ 32 = NumBenchmarkTotalFrames) ∧
      ((s.benchmarkFrameIdx + 1) % 2 ^ 32 = NumBenchmarkTotalFrames →
        ∃ results, averageSamples s'.benchmarkSamples = some results ∧
          s.benchmarkConfigIdx < s.benchmarkResults.length ∧
          s'.benchmarkResults = s.benchmarkResults.set s.benchmarkConfigIdx results ∧
          s'.benchmarkConfigIdx = (s.benchmarkConfigIdx + 1) % 2 ^ 32 ∧
          log.aggregated = some s.benchmarkConfigIdx) ∧
      ((s.benchmarkFrameIdx + 1) % 2 ^ 32 ≠ NumBenchmarkTotalFrames →
        s'.benchmarkResults = s.benchmarkResults ∧
        s'.benchmarkConfigIdx = s.benchmarkConfigIdx)) := by
  by_cases hc : s.benchmarkConfigIdx ≥ s.numBenchmarks
  · left
    simp only [TickBenchmark, if_pos hc, Option.some.injEq, Prod.mk.injEq] at h
    exact ⟨hc, h.1.symm, h.2.symm⟩
  · right
    by_cases hf : s.benchmarkFrameIdx ≥ NumBenchmarkTotalFrames
    · left
      simp only [TickBenchmark, if_neg hc, if_pos hf] at h
      cases hcfg : s.benchmarkConfigs[s.benchmarkConfigIdx]? with
      | none => simp [hcfg] at h
      | some config =>
        simp only [hcfg, Option.some.injEq, Prod.mk.injEq] at h
        exact ⟨by omega, hf, config, rfl, h.1.symm, h.2.symm⟩
    · right
      simp only [TickBenchmark, if_neg hc, if_neg hf] at h
      cases hrec : recordSample s p with
      | none => simp [hrec] at h
      | some r =>
        obtain ⟨samples, sampleIdx⟩ := r
        simp only [hrec] at h
        by_cases hlast : (s.benchmarkFrameIdx + 1) % 2 ^ 32 = NumBenchmarkTotalFrames
        · simp only [hlast, if_true] at h
          by_cases hres : s.benchmarkConfigIdx < s.benchmarkResults.length
          · simp only [if_pos hres] at h
            cases havg : averageSamples samples with
            | none => simp [havg] at h
            | some results =>
              simp only [havg] at h
              split_ifs at h with hN
              · split at h
                · simp at h
                · simp only [Option.some.injEq, Prod.mk.injEq] at h
                  obtain ⟨h1, h2⟩ := h
                  subst h1; subst h2
                  exact ⟨by omega, by omega, rfl, rfl, rfl, rfl, rfl, hlast.symm,
                    ⟨fun _ => hlast, fun _ => rfl⟩, fun _ => ⟨results, havg, hres, rfl, rfl, rfl⟩,
                    fun hne => absurd hlast hne⟩
              · simp only [Option.some.injEq, Prod.mk.injEq] at h
                obtain ⟨h1, h2⟩ := h
                subst h1; subst h2
                exact ⟨by omega, by omega, rfl, rfl, rfl, rfl, rfl, hlast.symm,
                  ⟨fun _ => hlast, fun _ => rfl⟩, fun _ => ⟨results, havg, hres, rfl, rfl, rfl⟩,
                  fun hne => absurd hlast hne⟩
          · simp [if_neg hres] at h
        · simp only [if_neg hlast] at h
          split_ifs at h with hN
          · split at h
            · simp at h
            · simp only [Option.some.injEq, Prod.mk.injEq] at h
              obtain ⟨h1, h2⟩ := h
              subst h1; subst h2
              exact ⟨by omega, by omega, rfl, rfl, rfl, rfl, rfl, rfl,
                ⟨fun h => absurd h (by simp), fun h => absurd h hlast⟩, fun he => absurd he hlast, fun _ => ⟨rfl, rfl⟩⟩
          · simp only [Option.some.injEq, Prod.mk.injEq] at h
            obtain ⟨h1, h2⟩ := h
            subst h1; subst h2
            exact ⟨by omega, by omega, rfl, rfl, rfl, rfl, rfl, rfl,
              ⟨fun h => absurd h (by simp), fun h => absurd h hlast⟩, fun he => absurd he hlast, fun _ => ⟨rfl, rfl⟩⟩

/-- A successful tick leaves `benchmarkConfigs` as it is. -/
theorem TickBenchmark_configs {F : Type} [DoubleArith F] (s s' : State F)
    (p : ProfilerTimings F) (log : TickLog) (h : TickBenchmark s p = some (s', log)) :
    s'.benchmarkConfigs = s.benchmarkConfigs := by
  rcases TickBenchmark_cases s s' p log h with ⟨-, h1, -⟩ | ⟨-, -, config, -, h1, -⟩ |
    ⟨-, -, -, -, -, h1, -⟩
  · rw [h1]
  · rw [h1]
  · exact h1

/-- The ticks of a run leave `benchmarkConfigs` as it is. -/
theorem runTicks_configs {F : Type} [DoubleArith F] (frames : Nat → Frame F) (s : State F) :
    ∀ t s', runTicks frames t s = some s' → s'.benchmarkConfigs = s.benchmarkConfigs := by
  intro t
  induction t with
  | zero =>
    intro s' h
    simp only [runTicks, Option.some.injEq] at h
    rw [← h]
  | succ t ih =>
    intro s' h
    simp only [runTicks] at h
    cases hrun : runTicks frames t s with
    | none => simp [hrun] at h
    | some s1 =>
      simp only [hrun] at h
      cases hstep : tickFrame frames t s1 with
      | none => simp [hstep] at h
      | some r =>
        obtain ⟨s2, log⟩ := r
        simp only [hstep, Option.map_some', Option.some.injEq] at h
        subst h
        have := TickBenchmark_configs _ _ _ _ hstep
        rw [this]
        exact ih s1 hrun

/-- The sample a tick records is the one `makeSample` builds from the settings and the
timings of that tick. -/
theorem TickBenchmark_sample {F : Type} [DoubleArith F] (s s' : State F)
    (p : ProfilerTimings F) (log : TickLog) (h : TickBenchmark s p = some (s', log))
    (j : Nat) (hj : log.sampleIdx = some j) :
    s'.benchmarkSamples[j]? = some (makeSample s.AppSettings p) ∧
    s'.benchmarkSamples.length = s.benchmarkSamples.length ∧
    ∀ i, i ≠ j → s'.benchmarkSamples[i]? = s.benchmarkSamples[i]? := by
  rcases TickBenchmark_cases s s' p log h with ⟨-, -, h1⟩ | ⟨-, -, config, -, -, h1⟩ |
    ⟨-, -, hrec, -⟩
  · rw [h1] at hj; simp at hj
  · rw [h1] at hj; simp at hj
  · rw [hj] at hrec
    simp only [recordSample] at hrec
    split_ifs at hrec with h8 hlen
    · simp only [Option.some.injEq, Prod.mk.injEq] at hrec
      obtain ⟨h1, h2⟩ := hrec
      rw [h2] at h1 hlen
      rw [← h1]
      exact ⟨by simp [hlen], by simp, fun i hi => List.getElem?_set_ne (Ne.symm hi)⟩
    · simp at hrec

/-- A tick that records no sample leaves the samples as they are. -/
theorem TickBenchmark_no_sample {F : Type} [DoubleArith F] (s s' : State F)
    (p : ProfilerTimings F) (log : TickLog) (h : TickBenchmark s p = some (s', log))
    (hj : log.sampleIdx = none) : s'.benchmarkSamples = s.benchmarkSamples := by
  rcases TickBenchmark_cases s s' p log h with ⟨-, h1, -⟩ | ⟨-, -, config, -, h1, -⟩ |
    ⟨-, -, hrec, -⟩
  · rw [h1]
  · rw [h1]
  · rw [hj] at hrec
    simp only [recordSample] at hrec
    split_ifs at hrec with h8 hlen
    · simp at hrec
    · simp only [Option.some.injEq, Prod.mk.injEq] at hrec
      exact hrec.1.symm

/-- The settings a configuration leaves decide CPU-writability as the configuration does. -/
theorem IsInputBufferCPUWritable_applyConfig (config : BenchmarkConfig) (settings : Settings) :
    IsInputBufferCPUWritable (applyConfig config settings) =
      IsInputBufferCPUWritableConfig config := rfl

/-- A sample recorded while the input buffer is not CPU-writable or `ReadFromGPUMem` is not
set has no CPU read time. -/
theorem makeSample_reading (F : Type) [DoubleArith F] (settings : Settings)
    (p : ProfilerTimings F)
    (h : ¬ (IsInputBufferCPUWritable settings = true ∧ settings.ReadFromGPUMem = true)) :
    (makeSample settings p).CPUTimeReadingBuffer = DoubleArith.zero := by
  simp only [makeSample, if_neg h]

/-- During the measurement of a configuration that is not CPU-writable, provided the
settings are not edited into a CPU-writable heap in between, the input buffer stays
non-writable and every sample recorded so far has no CPU read time. -/
theorem runTicks_reading_zero {F : Type} [DoubleArith F] (frames : Nat → Frame F) (N : Nat)
    (s : State F) (hReady : Ready N s) (hc : s.benchmarkConfigIdx = 0)
    (hf : s.benchmarkFrameIdx = NumBenchmarkTotalFrames) (i : Nat) (hi : i < N)
    (config : BenchmarkConfig) (hConfig : s.benchmarkConfigs[i]? = some config)
    (hW : IsInputBufferCPUWritableConfig config = false)
    (hEdit : ∀ n settings, 73 * i < n → n < 73 * i + 73 →
      IsInputBufferCPUWritable settings = false →
      IsInputBufferCPUWritable ((frames n).editSettings settings) = false) :
    ∀ k, k ≤ 72 → ∃ sk, runTicks frames (73 * i + 1 + k) s = some sk ∧
      IsInputBufferCPUWritable sk.AppSettings = false ∧
      ∀ j, j + 8 < k → ∃ sample, sk.benchmarkSamples[j]? = some sample ∧
        sample.CPUTimeReadingBuffer = DoubleArith.zero := by
  intro k
  induction k with
  | zero =>
    intro _
    obtain ⟨sa, hrunA, hRA, hcA, hfA⟩ := runTicks_counters frames N s hReady hc hf (73 * i)
    obtain ⟨sb, hrunB, -⟩ := runTicks_counters frames N s hReady hc hf (73 * i + 1)
    have hcA' : sa.benchmarkConfigIdx = i := by
      rw [hcA, sweepConfigIdx, if_neg (by omega)]; omega
    have hfA' : sa.benchmarkFrameIdx = 72 := by
      rw [hfA, sweepFrameIdx, if_neg (by omega), if_pos (by omega)]
    refine ⟨sb, hrunB, ?_, fun j hj => absurd hj (by omega)⟩
    simp only [runTicks, hrunA] at hrunB
    cases hstep : tickFrame frames (73 * i) sa with
    | none => simp [hstep] at hrunB
    | some r =>
      obtain ⟨s2, log⟩ := r
      simp only [hstep, Option.map_some', Option.some.injEq] at hrunB
      subst hrunB
      simp only [tickFrame] at hstep
      rcases TickBenchmark_cases _ _ _ _ hstep with ⟨h1, -⟩ | ⟨-, -, config1, h1, h2, -⟩ |
        ⟨-, h1, -⟩
      · dsimp only at h1
        rw [hRA.1, hcA'] at h1
        omega
      · dsimp only at h1
        have hcfg := runTicks_configs frames s _ sa hrunA
        rw [hcfg, hcA', hConfig] at h1
        rw [h2]
        show IsInputBufferCPUWritable (applyConfig config1 _) = false
        rw [IsInputBufferCPUWritable_applyConfig, ← Option.some.inj h1]
        exact hW
      · dsimp only at h1
        rw [hfA'] at h1
        simp only [NumBenchmarkTotalFrames, NumBenchmarkWarmupFrames,
          NumBenchmarkMeasureFrames] at h1
        omega
  | succ k ih =>
    intro hk
    obtain ⟨sk, hrunK, hwK, hsK⟩ := ih (by omega)
    obtain ⟨sa, hrunA, hRA, hcA, hfA⟩ :=
      runTicks_counters frames N s hReady hc hf (73 * i + 1 + k)
    rw [hrunK] at hrunA
    have hsa : sk = sa := Option.some.inj hrunA
    subst hsa
    have hcA' : sk.benchmarkConfigIdx = i := by
      rw [hcA, sweepConfigIdx, if_neg (by omega)]; omega
    have hfA' : sk.benchmarkFrameIdx = k := by
      rw [hfA, sweepFrameIdx, if_neg (by omega), if_neg (by omega)]; omega
    obtain ⟨sb, hrunB, -⟩ := runTicks_counters frames N s hReady hc hf (73 * i + 1 + (k + 1))
    refine ⟨sb, hrunB, ?_⟩
    have hrunB' : runTicks frames (73 * i + 1 + k + 1) s = some sb := hrunB
    simp only [runTicks, hrunK] at hrunB'
    cases hstep : tickFrame frames (73 * i + 1 + k) sk with
    | none => simp [hstep] at hrunB'
    | some r =>
      obtain ⟨s2, log⟩ := r
      simp only [hstep, Option.map_some', Option.some.injEq] at hrunB'
      subst hrunB'
      simp only [tickFrame] at hstep
      have hwE : IsInputBufferCPUWritable
          ((frames (73 * i + 1 + k)).editSettings sk.AppSettings) = false :=
        hEdit _ _ (by omega) (by omega) hwK
      rcases TickBenchmark_cases _ _ _ _ hstep with ⟨h1, -⟩ | ⟨-, h1, -⟩ |
        ⟨-, -, hrec, -, hset, -⟩
      · dsimp only at h1
        rw [hRA.1, hcA'] at h1
        omega
      · dsimp only at h1
        rw [hfA'] at h1
        simp only [NumBenchmarkTotalFrames, NumBenchmarkWarmupFrames,
          NumBenchmarkMeasureFrames] at h1
        omega
      · dsimp only at hset
        refine ⟨by rw [hset]; exact hwE, ?_⟩
        intro j hj
        cases hidx : log.sampleIdx with
        | none =>
          have hsame := TickBenchmark_no_sample _ _ _ _ hstep hidx
          dsimp only at hsame
          rw [hidx] at hrec
          simp only [recordSample, NumBenchmarkWarmupFrames] at hrec
          rw [hfA'] at hrec
          split_ifs at hrec with h8 hlen
          · simp at hrec
          · rw [hsame]
            exact hsK j (by omega)
        | some j1 =>
          obtain ⟨hnew, -, hold⟩ := TickBenchmark_sample _ _ _ _ hstep j1 hidx
          dsimp only at hnew hold
          by_cases hjj : j = j1
          · subst hjj
            exact ⟨_, hnew, makeSample_reading F _ _ (by rw [hwE]; simp)⟩
          · rw [hold j hjj]
            rw [hidx] at hrec
            simp only [recordSample, NumBenchmarkWarmupFrames] at hrec
            rw [hfA'] at hrec
            split_ifs at hrec with h8 hlen
            · simp only [Option.some.injEq, Prod.mk.injEq] at hrec
              have hj1 : j1 = k - 8 := by
                have := hrec.2
                omega
              exact hsK j (by omega)
            · simp at hrec

/-- One more tick of a run. -/
theorem runTicks_succ {F : Type} [DoubleArith F] (frames : Nat → Frame F) (t : Nat)
    (s s1 : State F) (h : runTicks frames t s = some s1) :
    runTicks frames (t + 1) s = (tickFrame frames t s1).map Prod.fst := by
  simp only [runTicks, h]

/-- The tick that ends the measurement of configuration `i` stores the average of the
samples as result `i`. -/
theorem runTicks_aggregated {F : Type} [DoubleArith F] (frames : Nat → Frame F) (N : Nat)
    (s : State F) (hReady : Ready N s) (hc : s.benchmarkConfigIdx = 0)
    (hf : s.benchmarkFrameIdx = NumBenchmarkTotalFrames) (i : Nat) (hi : i < N) :
    ∃ s' results, runTicks frames (73 * i + 73) s = some s' ∧
      s'.benchmarkSamples.length = NumBenchmarkMeasureFrames ∧
      averageSamples s'.benchmarkSamples = some results ∧
      s'.benchmarkResults[i]? = some results := by
  obtain ⟨sa, hrunA, hRA, hcA, hfA⟩ := runTicks_counters frames N s hReady hc hf (73 * i + 72)
  obtain ⟨sb, hrunB, hRB, -⟩ := runTicks_counters frames N s hReady hc hf (73 * i + 73)
  have hcA' : sa.benchmarkConfigIdx = i := by
    rw [hcA, sweepConfigIdx, if_neg (by omega)]; omega
  have hfA' : sa.benchmarkFrameIdx = 71 := by
    rw [hfA, sweepFrameIdx, if_neg (by omega), if_neg (by omega)]; omega
  have hrunB' : runTicks frames (73 * i + 72 + 1) s = some sb := hrunB
  rw [runTicks_succ frames _ s sa hrunA] at hrunB'
  cases hstep : tickFrame frames (73 * i + 72) sa with
  | none => simp [hstep] at hrunB'
  | some r =>
    obtain ⟨s2, log⟩ := r
    simp only [hstep, Option.map_some', Option.some.injEq] at hrunB'
    subst hrunB'
    simp only [tickFrame] at hstep
    rcases TickBenchmark_cases _ _ _ _ hstep with ⟨h1, -⟩ | ⟨-, h1, -⟩ |
      ⟨-, -, -, -, -, -, -, -, -, hlast, -⟩
    · dsimp only at h1
      rw [hRA.1, hcA'] at h1
      omega
    · dsimp only at h1
      rw [hfA'] at h1
      simp only [NumBenchmarkTotalFrames, NumBenchmarkWarmupFrames,
        NumBenchmarkMeasureFrames] at h1
      omega
    · dsimp only at hlast
      rw [hfA', hcA'] at hlast
      obtain ⟨results, havg, hlen, hres, -⟩ := hlast (by decide)
      refine ⟨s2, results, hrunB, hRB.2.2.2.1, havg, ?_⟩
      rw [hres]
      simp [hlen]

/-- A sum of zeros is zero when `0.0 + 0.0 = 0.0`. -/
theorem sumOf_zero {F : Type} [DoubleArith F]
    (hAdd : DoubleArith.add (DoubleArith.zero : F) DoubleArith.zero = DoubleArith.zero)
    (values : List F) (hz : ∀ value ∈ values, value = DoubleArith.zero) :
    sumOf values = DoubleArith.zero := by
  have hfold : ∀ (l : List F), (∀ value ∈ l, value = DoubleArith.zero) →
      l.foldl DoubleArith.add (DoubleArith.zero : F) = DoubleArith.zero := by
    intro l
    induction l with
    | nil => intro _; rfl
    | cons value rest ih =>
      intro hl
      rw [List.foldl_cons, hl value (List.mem_cons_self _ _), hAdd]
      exact ih (fun v hv => hl v (List.mem_cons_of_mem _ hv))
  exact hfold values hz

/-- C24: a sample recorded by a tick is the one built from the settings and timings of that
tick, and its CPUTimeReadingBuffer is 0.0 unless the input buffer is CPU-writable and
ReadFromGPUMem is set; consequently, in a sweep started by "Run Benchmark", for a
configuration with HeapType = Default whose heap settings are not edited into a CPU-writable
heap during its 72 frames, all 64 samples have CPUTimeReadingBuffer 0.0 and so has the
aggregated result. The arithmetic is abstract; 0.0 + 0.0 = 0.0 and 0.0 / 64 = 0.0, which hold
for doubles, are hypotheses. -/
theorem TickBenchmark_reading_time {F : Type} [DoubleArith F] (frames : Nat → Frame F)
    (N : Nat) (s : State F) (hReady : Ready N s)
    (hStart : s.benchmarkConfigIdx = 0 ∧ s.benchmarkFrameIdx = NumBenchmarkTotalFrames)
    (hAdd : DoubleArith.add (DoubleArith.zero : F) DoubleArith.zero = DoubleArith.zero)
    (hDiv : DoubleArith.div (DoubleArith.zero : F)
      (DoubleArith.ofNat NumBenchmarkMeasureFrames) = DoubleArith.zero)
    (i : Nat) (hi : i < N) (config : BenchmarkConfig)
    (hConfig : s.benchmarkConfigs[i]? = some config)
    (hDefault : config.HeapType = HeapTypes.Default)
    (hEdit : ∀ n settings, 73 * i < n → n < 73 * i + 73 →
      IsInputBufferCPUWritable settings = false →
      IsInputBufferCPUWritable ((frames n).editSettings settings) = false) :
    (∀ (s0 s1 : State F) (timings : ProfilerTimings F) (log : TickLog) (j : Nat),
      TickBenchmark s0 timings = some (s1, log) → log.sampleIdx = some j →
        s1.benchmarkSamples[j]? = some (makeSample s0.AppSettings timings) ∧
        (¬ (IsInputBufferCPUWritable s0.AppSettings = true ∧
            s0.AppSettings.ReadFromGPUMem = true) →
          (makeSample s0.AppSettings timings).CPUTimeReadingBuffer = DoubleArith.zero)) ∧
    ∃ s' results, runTicks frames (73 * i + 73) s = some s' ∧
      s'.benchmarkResults[i]? = some results ∧
      results = meanOfSamples s'.benchmarkSamples ∧
      (∀ j, j < NumBenchmarkMeasureFrames → ∃ sample, s'.benchmarkSamples[j]? = some sample ∧
        sample.CPUTimeReadingBuffer = DoubleArith.zero) ∧
      results.CPUTimeReadingBuffer = DoubleArith.zero := by
  obtain ⟨hc, hf⟩ := hStart
  refine ⟨fun s0 s1 timings log j h hj =>
    ⟨(TickBenchmark_sample s0 s1 timings log h j hj).1, makeSample_reading F _ _⟩, ?_⟩
  have hW : IsInputBufferCPUWritableConfig config = false := by
    simp [IsInputBufferCPUWritableConfig, hDefault]
  obtain ⟨s', results, hrun, hlen, havg, hres⟩ :=
    runTicks_aggregated frames N s hReady hc hf i hi
  obtain ⟨sk, hrunK, -, hzero⟩ :=
    runTicks_reading_zero frames N s hReady hc hf i hi config hConfig hW hEdit 72 (Nat.le_refl _)
  have hrunK' : runTicks frames (73 * i + 73) s = some sk := hrunK
  rw [hrun] at hrunK'
  have hsk : s' = sk := Option.some.inj hrunK'
  subst hsk
  have hmean := averageSamples_eq_mean s'.benchmarkSamples hlen
  rw [havg] at hmean
  have hresults : results = meanOfSamples s'.benchmarkSamples := Option.some.inj hmean
  have hall : ∀ j, j < NumBenchmarkMeasureFrames → ∃ sample,
      s'.benchmarkSamples[j]? = some sample ∧
        sample.CPUTimeReadingBuffer = DoubleArith.zero := by
    intro j hj
    simp only [NumBenchmarkMeasureFrames] at hj
    exact hzero j (by omega)
  refine ⟨s', results, hrun, hres, hresults, hall, ?_⟩
  rw [hresults]
  show DoubleArith.div
    (sumOf (s'.benchmarkSamples.map (fun sample => sample.CPUTimeReadingBuffer)))
    (DoubleArith.ofNat NumBenchmarkMeasureFrames) = DoubleArith.zero
  rw [sumOf_zero hAdd, hDiv]
  intro value hvalue
  obtain ⟨sample, hmem, rfl⟩ := List.mem_map.1 hvalue
  obtain ⟨j, hjlt, hjeq⟩ := List.getElem_of_mem hmem
  obtain ⟨sample1, h1, h2⟩ := hall j (by rw [← hlen]; exact hjlt)
  rw [List.getElem?_eq_getElem hjlt, hjeq] at h1
  rw [Option.some.inj h1]
  exact h2

/-- Witness for C24: configuration 4 of the started sweep (Default heap, 32 MiB) with a
profiler that reports 5 ms for "Read From Buffer" in every frame. -/
theorem TickBenchmark_reading_time_witness :
    ∃ s' results,
      runTicks
          (fun _ =>
            ({ timings := { ComputeJob := 1, UpdateBuffer := 1, ReadFromBuffer := 5 }
               editSettings := id } : Frame Rat))
          (73 * 4 + 73) startedSweep = some s' ∧
      s'.benchmarkResults[4]? = some results ∧
      results.CPUTimeReadingBuffer = 0 := by
  obtain ⟨-, s', results, h1, h2, -, -, h3⟩ :=
    TickBenchmark_reading_time
      (fun _ =>
        ({ timings := { ComputeJob := 1, UpdateBuffer := 1, ReadFromBuffer := 5 }
           editSettings := id } : Frame Rat))
      8 startedSweep startedSweep_ready ⟨rfl, rfl⟩ (zero_add (0 : Rat))
      (zero_div ((NumBenchmarkMeasureFrames : Nat) : Rat)) 4 (by decide)
      (sweepConfig HeapTypes.Default (32 * 2 ^ 20)) (by decide) rfl
      (fun _ _ _ _ h => h)
  exact ⟨s', results, h1, h2, h3⟩

/-! ### Cycling and updating the input buffer -/

/-- C23: on an initialised dynamic buffer `CycleBuffer` fails its assertion when
`UploadFrame` equals `DX12::CurrentCPUFrame`; otherwise it succeeds, sets `UploadFrame` to
`CurrentCPUFrame` and `CurrBuffer` to `(CurrBuffer + 1) mod RenderLatency`, changes nothing
else and returns the new `CurrBuffer` times `Size`, so that the returned offset plus `Size` is
at most `Size * RenderLatency`. -/
theorem Buffer_CycleBuffer (buffer : Buffer) (CurrentCPUFrame : Nat)
    (hInit : buffer.Initialized = true) (hDynamic : buffer.Dynamic = true)
    (hSize : buffer.Size < 2 ^ 64) :
    (buffer.UploadFrame = CurrentCPUFrame → buffer.CycleBuffer CurrentCPUFrame = none) ∧
    (buffer.UploadFrame ≠ CurrentCPUFrame →
      ∃ cycled offset, buffer.CycleBuffer CurrentCPUFrame = some (cycled, offset) ∧
        cycled = { buffer with UploadFrame := CurrentCPUFrame
                               CurrBuffer := (buffer.CurrBuffer + 1) % RenderLatency } ∧
        cycled.UploadFrame = CurrentCPUFrame ∧
        cycled.CurrBuffer = (buffer.CurrBuffer + 1) % RenderLatency ∧
        cycled.Size = buffer.Size ∧
        offset = cycled.CurrBuffer * buffer.Size ∧
        offset + buffer.Size ≤ buffer.Size * RenderLatency) := by
  have hcurr : ((buffer.CurrBuffer + 1) % 2 ^ 64) % RenderLatency =
      (buffer.CurrBuffer + 1) % RenderLatency := by
    simp only [RenderLatency]; omega
  have hlt : (buffer.CurrBuffer + 1) % RenderLatency < 2 := Nat.mod_lt _ (by decide)
  have hmul : (buffer.CurrBuffer + 1) % RenderLatency * buffer.Size ≤ buffer.Size := by
    calc (buffer.CurrBuffer + 1) % RenderLatency * buffer.Size ≤ 1 * buffer.Size :=
          Nat.mul_le_mul_right _ (by omega)
      _ = buffer.Size := Nat.one_mul _
  constructor
  · intro h
    simp [Buffer.CycleBuffer, hInit, hDynamic, h]
  · intro h
    refine ⟨_, _, ?_, rfl, rfl, rfl, rfl, rfl, ?_⟩
    · have hoff : ((buffer.CurrBuffer + 1) % RenderLatency * buffer.Size) % 2 ^ 64 =
          (buffer.CurrBuffer + 1) % RenderLatency * buffer.Size :=
        Nat.mod_eq_of_lt (by omega)
      simp only [Buffer.CycleBuffer, hInit, hDynamic, hcurr, hoff]
      rw [if_neg (by simp), if_neg (by simp), if_neg (by simpa using h)]
    · show (buffer.CurrBuffer + 1) % RenderLatency * buffer.Size + buffer.Size ≤
        buffer.Size * RenderLatency
      simp only [RenderLatency] at hmul ⊢
      omega

/-- Witness for C23: a buffer of 64 bytes cycled in frame 7 and cycled again in the same
frame. -/
theorem Buffer_CycleBuffer_witness :
    Buffer.CycleBuffer { Size := 64, Dynamic := true, CurrBuffer := 1, UploadFrame := 6 } 7 =
      some ({ Size := 64, Dynamic := true, CurrBuffer := 0, UploadFrame := 7 }, 0) ∧
    Buffer.CycleBuffer { Size := 64, Dynamic := true, CurrBuffer := 0, UploadFrame := 7 } 7 =
      none :=
  have h := Buffer_CycleBuffer { Size := 64, Dynamic := true, CurrBuffer := 0, UploadFrame := 7 }
    7 rfl rfl (by decide)
  ⟨by decide, h.1 rfl⟩

/-- The size `CreateBuffers` computes fits in 32 bits. -/
theorem inputBufferSize_lt (sdk : D3D12) (settings : Settings) (size : Nat)
    (h : inputBufferSize sdk settings = some size) : size < 2 ^ 32 := by
  simp only [inputBufferSize] at h
  split at h
  · simp at h
  · simp only [AlignTo] at h
    split_ifs at h
    simp only [Option.some.injEq] at h
    rw [← h]
    exact Nat.mod_lt _ (by norm_num)

/-- An input buffer that `CreateBuffers` creates, with all its fields. -/
theorem createInputBuffer_some (sdk : D3D12) (settings : Settings) (buffer : RawBuffer)
    (h : createInputBuffer sdk settings = some buffer) :
    ∃ elems, numInputElems sdk settings = some elems ∧ 0 < elems ∧ elems < 2 ^ 28 ∧
      buffer =
        { InternalBuffer :=
            { CurrBuffer := 0, Alignment := 4, Size := 4 * (elems * 4), Dynamic := true,
              CPUAccessible := IsInputBufferCPUWritable settings, HeapOffset := 0,
              Width := 4 * (elems * 4) * 2 }
          NumElements := elems * 4 } := by
  cases hsize : inputBufferSize sdk settings with
  | none => simp [createInputBuffer, numInputElems, hsize] at h
  | some size =>
    have hlt := inputBufferSize_lt sdk settings size hsize
    by_cases h16 : 16 ≤ size
    · rw [createInputBuffer_eq sdk settings size hsize h16 hlt] at h
      refine ⟨size / 16, by simp [numInputElems, hsize], by omega, by omega, ?_⟩
      exact (Option.some.inj h).symm
    · rw [createInputBuffer_none sdk settings size hsize (by omega)] at h
      exact absurd h (by simp)

/-- The upload buffer `CreateBuffers` creates for an input buffer of `n` bytes, `n` a
positive multiple of four. -/
theorem uploadBuffer_Initialize (n : Nat) (hpos : 0 < n) (h4 : 4 ∣ n) (hlt : n < 2 ^ 32) :
    Buffer.Initialize { Size := n, Alignment := 4, Dynamic := true, CPUAccessible := true }
        false =
      some { CurrBuffer := 0, Alignment := 4, Size := n, Dynamic := true, CPUAccessible := true,
             HeapOffset := 0, Width := n * 2 } := by
  have e3 : AlignTo64 n 4 = some n := AlignTo64_of_dvd _ _ (by norm_num) h4 (by omega)
  have e4 : (n * 2) % 2 ^ 64 = n * 2 := by omega
  have hn0 : n ≠ 0 := by omega
  simp only [Buffer.Initialize, RenderLatency, e3, e4]
  simp [hpos, hn0]

/-- The buffers a successful `CreateBuffers` leaves, as far as `UpdateBuffer` uses them. -/
theorem CreateBuffers_buffers (sdk : D3D12) (settings : Settings) (buffers : Buffers)
    (h : CreateBuffers sdk settings = some buffers) :
    ∃ elems, numInputElems sdk settings = some elems ∧ 0 < elems ∧ elems < 2 ^ 28 ∧
      buffers.readbackMem = elems ∧
      buffers.inputBuffer =
        { InternalBuffer :=
            { CurrBuffer := 0, Alignment := 4, Size := 4 * (elems * 4), Dynamic := true,
              CPUAccessible := IsInputBufferCPUWritable settings, HeapOffset := 0,
              Width := 4 * (elems * 4) * 2 }
          NumElements := elems * 4 } ∧
      (IsInputBufferCPUWritable settings = false →
        buffers.uploadBuffer =
          some { CurrBuffer := 0, Alignment := 4, Size := 4 * (elems * 4), Dynamic := true,
                 CPUAccessible := true, HeapOffset := 0, Width := 4 * (elems * 4) * 2 }) := by
  obtain ⟨h1, -, -, h4, h5, -⟩ := CreateBuffers_some sdk settings buffers h
  obtain ⟨elems, he, hpos, hlt, hb⟩ := createInputBuffer_some sdk settings _ h4
  rw [he] at h1
  refine ⟨elems, he, hpos, hlt, (Option.some.inj h1).symm, hb, fun hw => ?_⟩
  obtain ⟨uploadBuffer, hu1, hu2⟩ := h5 hw
  rw [hb] at hu2
  rw [uploadBuffer_Initialize (4 * (elems * 4)) (by omega) (by omega) (by omega)] at hu2
  rw [hu1, ← Option.some.inj hu2]

/-- C30: when `UpdateBuffer` performs the CPU read-back on the buffers `CreateBuffers` left
(input buffer CPU-writable, ReadFromGPUMem set), the call succeeds and the `memcpy` copies
`readbackMem.Size()` bytes, which is the number of elements `numInputElems` of `readbackMem`
and not its byte size `readbackMem.MemorySize()` = 16 x numInputElems: one sixteenth of the
payload is read back. -/
theorem UpdateBuffer_readback (sdk : D3D12) (settings : Settings) (buffers : Buffers)
    (CurrentCPUFrame : Nat) (hCreate : CreateBuffers sdk settings = some buffers)
    (hWritable : IsInputBufferCPUWritable settings = true)
    (hRead : settings.ReadFromGPUMem = true) (hFrame : CurrentCPUFrame ≠ 2 ^ 64 - 1) :
    ∃ buffers1 log copied,
      UpdateBuffer settings buffers CurrentCPUFrame = some (buffers1, log) ∧
      log.readback = some copied ∧
      copied = ArraySize buffers.readbackMem ∧
      numInputElems sdk settings = some buffers.readbackMem ∧
      ArrayMemorySize buffers.readbackMem sizeofFloat4 = 16 * buffers.readbackMem ∧
      16 * copied = ArrayMemorySize buffers.readbackMem sizeofFloat4 ∧
      copied < ArrayMemorySize buffers.readbackMem sizeofFloat4 := by
  obtain ⟨elems, he, hpos, hlt, hr, hb, -⟩ := CreateBuffers_buffers sdk settings buffers hCreate
  have hmem : ArrayMemorySize buffers.readbackMem sizeofFloat4 = 16 * buffers.readbackMem := by
    simp only [ArrayMemorySize, sizeofFloat4, hr]; omega
  have hne : ¬ (18446744073709551615 = CurrentCPUFrame) := by omega
  have hsz : decide (4 * (elems * 4) > 0) = true := by simpa using hpos
  have hU : ∃ buffers1 log, UpdateBuffer settings buffers CurrentCPUFrame =
      some (buffers1, log) ∧ log.readback = some buffers.readbackMem := by
    simp only [UpdateBuffer, hWritable, hRead, hb, RawBuffer.MapAndSetData, Buffer.Map,
      Buffer.CycleBuffer, Buffer.Initialized, hsz, and_self, if_true, ArraySize]
    simp only [hne, if_false, Bool.true_eq_false, not_true_eq_false, not_false_eq_true,
      Option.some.injEq, Prod.mk.injEq, le_refl, ne_eq, Nat.reducePow, Nat.reduceSub,
      Nat.reduceAdd, Nat.reduceMod]
    exact ⟨_, _, ⟨rfl, rfl⟩, rfl⟩
  obtain ⟨buffers1, log, hU1, hU2⟩ := hU
  exact ⟨buffers1, log, buffers.readbackMem, hU1, hU2, rfl, by rw [he, hr], hmem,
    by rw [hmem], by rw [hmem, hr]; omega⟩

/-- One call of `UpdateBuffer` on a non-CPU-writable input buffer of `4 * n` bytes whose
current copy is `c`: the upload goes to copy `(c + 1) % RenderLatency`. -/
theorem UpdateBuffer_upload_step (settings : Settings) (buffers : Buffers)
    (CurrentCPUFrame n c uploadFrame width : Nat) (upload : Buffer)
    (hWritable : IsInputBufferCPUWritable settings = false) (hpos : 0 < n) (hn : n < 2 ^ 32)
    (hInput : buffers.inputBuffer =
      { InternalBuffer :=
          { CurrBuffer := c, Alignment := 4, Size := 4 * n, Dynamic := true,
            CPUAccessible := false, HeapOffset := 0, Width := width,
            UploadFrame := uploadFrame }
        NumElements := n })
    (hUpload : buffers.uploadBuffer = some upload) (hUploadSize : upload.Size = 4 * n)
    (hUploadDynamic : upload.Dynamic = true) (hUploadCPU : upload.CPUAccessible = true)
    (hFrame : uploadFrame ≠ CurrentCPUFrame) (hUploadFrame : upload.UploadFrame ≠ CurrentCPUFrame) :
    ∃ buffers1 log upload1,
      UpdateBuffer settings buffers CurrentCPUFrame = some (buffers1, log) ∧
      log.upload = some { dstOffset := (c + 1) % RenderLatency * (4 * n), size := 4 * n } ∧
      log.mapped = none ∧ log.readback = none ∧
      buffers1.inputBuffer =
        { InternalBuffer :=
            { CurrBuffer := (c + 1) % RenderLatency, Alignment := 4, Size := 4 * n,
              Dynamic := true, CPUAccessible := false, HeapOffset := 0, Width := width,
              UploadFrame := CurrentCPUFrame }
          NumElements := n } ∧
      buffers1.uploadBuffer = some upload1 ∧ upload1.Size = 4 * n ∧
      upload1.Dynamic = true ∧ upload1.CPUAccessible = true ∧
      (upload1.UploadFrame = upload.UploadFrame ∨ upload1.UploadFrame = CurrentCPUFrame) ∧
      buffers1.readbackMem = buffers.readbackMem := by
  have hcurr : ((c + 1) % 2 ^ 64) % RenderLatency = (c + 1) % RenderLatency := by
    simp only [RenderLatency]; omega
  have hlt : (c + 1) % RenderLatency < 2 := Nat.mod_lt _ (by decide)
  have hoff : ((c + 1) % RenderLatency * (4 * n)) % 2 ^ 64 = (c + 1) % RenderLatency * (4 * n) := by
    apply Nat.mod_eq_of_lt
    calc (c + 1) % RenderLatency * (4 * n) ≤ 1 * (4 * n) := Nat.mul_le_mul_right _ (by omega)
      _ < 2 ^ 64 := by omega
  have hsz : decide (4 * n > 0) = true := by simpa using hpos
  have hsrc : (n * RawBuffer.Stride) % 2 ^ 64 = 4 * n := by
    simp only [RawBuffer.Stride]; omega
  have hdst : (0 * RawBuffer.Stride) % 2 ^ 64 = 0 := by simp
  have hle : (0 + 4 * n) % 2 ^ 64 ≤ 4 * n := by omega
  have hadd : ((c + 1) % RenderLatency * (4 * n) + 0) % 2 ^ 64 =
      (c + 1) % RenderLatency * (4 * n) := by rw [Nat.add_zero, hoff]
  have hcycle : Buffer.CycleBuffer
      { CurrBuffer := c, Alignment := 4, Size := 4 * n, Dynamic := true,
        CPUAccessible := false, HeapOffset := 0, Width := width, UploadFrame := uploadFrame }
      CurrentCPUFrame =
      some ({ CurrBuffer := (c + 1) % RenderLatency, Alignment := 4, Size := 4 * n,
              Dynamic := true, CPUAccessible := false, HeapOffset := 0, Width := width,
              UploadFrame := CurrentCPUFrame }, (c + 1) % RenderLatency * (4 * n)) := by
    simp only [Buffer.CycleBuffer, Buffer.Initialized, hsz, hcurr, hoff]
    rw [if_neg (by simp), if_neg (by simp), if_neg (by simpa using hFrame)]
  have hmap : ∃ upload1, upload.MapAndSetData upload.Size CurrentCPUFrame =
      some (upload1, ((upload.CurrBuffer + 1) % 2 ^ 64) % RenderLatency * upload.Size % 2 ^ 64) ∧
      upload1.Size = 4 * n ∧ upload1.Dynamic = true ∧ upload1.CPUAccessible = true ∧
      upload1.UploadFrame = CurrentCPUFrame := by
    have husz : decide (upload.Size > 0) = true := by rw [hUploadSize]; simpa using hpos
    refine ⟨{ upload with UploadFrame := CurrentCPUFrame
                          CurrBuffer := ((upload.CurrBuffer + 1) % 2 ^ 64) % RenderLatency },
      ?_, hUploadSize, hUploadDynamic, hUploadCPU, rfl⟩
    simp only [Buffer.MapAndSetData, Buffer.Map, Buffer.CycleBuffer, Buffer.Initialized, husz,
      hUploadDynamic, hUploadCPU]
    rw [if_neg (by simp), if_neg (by simp), if_neg (by simp), if_neg (by simp),
      if_neg (by simp), if_neg (by simp), if_neg (by simpa using hUploadFrame)]
  obtain ⟨upload1, hmap1, hu1, hu2, hu3, hu4⟩ := hmap
  have hqueue : RawBuffer.QueueUpload
      { InternalBuffer :=
          { CurrBuffer := c, Alignment := 4, Size := 4 * n, Dynamic := true,
            CPUAccessible := false, HeapOffset := 0, Width := width,
            UploadFrame := uploadFrame }
        NumElements := n } n 0 CurrentCPUFrame =
      some ({ InternalBuffer :=
                { CurrBuffer := (c + 1) % RenderLatency, Alignment := 4, Size := 4 * n,
                  Dynamic := true, CPUAccessible := false, HeapOffset := 0, Width := width,
                  UploadFrame := CurrentCPUFrame }
              NumElements := n },
            { dstOffset := (c + 1) % RenderLatency * (4 * n), size := 4 * n }) := by
    simp only [RawBuffer.QueueUpload, Buffer.QueueUpload, hsrc, hdst, hcycle, hadd]
    rw [if_neg (by simp), if_neg (by simp), if_neg (by simpa using hle)]
    simp
  have hrawcycle : RawBuffer.CycleBuffer
      { InternalBuffer :=
          { CurrBuffer := c, Alignment := 4, Size := 4 * n, Dynamic := true,
            CPUAccessible := false, HeapOffset := 0, Width := width,
            UploadFrame := uploadFrame }
        NumElements := n } CurrentCPUFrame =
      some ({ InternalBuffer :=
                { CurrBuffer := (c + 1) % RenderLatency, Alignment := 4, Size := 4 * n,
                  Dynamic := true, CPUAccessible := false, HeapOffset := 0, Width := width,
                  UploadFrame := CurrentCPUFrame }
              NumElements := n }, (c + 1) % RenderLatency * (4 * n)) := by
    simp only [RawBuffer.CycleBuffer, hcycle]
    simp
  have hnw : ¬ (IsInputBufferCPUWritable settings = true ∧ settings.ReadFromGPUMem = true) := by
    rw [hWritable]; simp
  cases hpath : settings.BufferUploadPath with
  | FastUploadCopyQueue =>
    refine ⟨{ buffers with
              inputBuffer :=
                { InternalBuffer :=
                    { CurrBuffer := (c + 1) % RenderLatency, Alignment := 4, Size := 4 * n,
                      Dynamic := true, CPUAccessible := false, HeapOffset := 0, Width := width,
                      UploadFrame := CurrentCPUFrame }
                  NumElements := n }
              uploadBuffer := some upload1 },
      { upload := some { dstOffset := (c + 1) % RenderLatency * (4 * n), size := 4 * n } },
      upload1, ?_, rfl, rfl, rfl, rfl, rfl, hu1, hu2, hu3, Or.inr hu4, rfl⟩
    simp only [UpdateBuffer, hWritable, hpath, hUpload, Option.getD_some, hmap1, hInput, hqueue,
      if_neg hnw]
    simp
  | UploadCopyQueue =>
    refine ⟨{ buffers with
              inputBuffer :=
                { InternalBuffer :=
                    { CurrBuffer := (c + 1) % RenderLatency, Alignment := 4, Size := 4 * n,
                      Dynamic := true, CPUAccessible := false, HeapOffset := 0, Width := width,
                      UploadFrame := CurrentCPUFrame }
                  NumElements := n } },
      { upload := some { dstOffset := (c + 1) % RenderLatency * (4 * n), size := 4 * n } },
      upload, ?_, rfl, rfl, rfl, rfl, hUpload, hUploadSize, hUploadDynamic, hUploadCPU,
      Or.inl rfl, rfl⟩
    simp only [UpdateBuffer, hWritable, hpath, hUpload, Option.getD_some, hInput, hrawcycle,
      if_neg hnw, hUploadSize]
    simp
  | DirectQueue =>
    refine ⟨{ buffers with
              inputBuffer :=
                { InternalBuffer :=
                    { CurrBuffer := (c + 1) % RenderLatency, Alignment := 4, Size := 4 * n,
                      Dynamic := true, CPUAccessible := false, HeapOffset := 0, Width := width,
                      UploadFrame := CurrentCPUFrame }
                  NumElements := n }
              uploadBuffer := some upload1 },
      { upload := some { dstOffset := (c + 1) % RenderLatency * (4 * n), size := 4 * n } },
      upload1, ?_, rfl, rfl, rfl, rfl, rfl, hu1, hu2, hu3, Or.inr hu4, rfl⟩
    simp only [UpdateBuffer, hWritable, hpath, hUpload, Option.getD_some, hmap1, hInput,
      hrawcycle, if_neg hnw, hu1]
    simp

/-- C28: for an input buffer that is not CPU-writable and of type Raw, Structured or
Formatted, the views `CreateBuffers` creates all cover the bytes [0, size) of the resource,
`size` being the single-copy size, while the resource is `RenderLatency * size` wide; the
first `UpdateBuffer` after `CreateBuffers` uploads to the bytes [size, 2 x size), outside the
views, and the next one to the bytes [0, size), whatever the upload path. -/
theorem UpdateBuffer_upload_region (sdk : D3D12) (settings : Settings) (buffers : Buffers)
    (CurrentCPUFrame : Nat) (hCreate : CreateBuffers sdk settings = some buffers)
    (hWritable : IsInputBufferCPUWritable settings = false)
    (hType : settings.InputBufferType ≠ BufferTypes.Constant)
    (hFrame : CurrentCPUFrame + 1 < 2 ^ 64 - 1) :
    ∃ size buffers1 log1 buffers2 log2,
      0 < size ∧ buffers.inputBuffer.InternalBuffer.Size = size ∧
      buffers.inputBuffer.InternalBuffer.Width = size * RenderLatency ∧
      (inputBufferViews settings buffers.inputBuffer buffers.readbackMem).length =
        RenderLatency ∧
      (∀ view ∈ inputBufferViews settings buffers.inputBuffer buffers.readbackMem,
        view.firstByte = 0 ∧ view.endByte = size) ∧
      UpdateBuffer settings buffers CurrentCPUFrame = some (buffers1, log1) ∧
      log1.upload = some { dstOffset := size, size := size } ∧
      UpdateBuffer settings buffers1 (CurrentCPUFrame + 1) = some (buffers2, log2) ∧
      log2.upload = some { dstOffset := 0, size := size } := by
  obtain ⟨elems, he, hpos, hlt, hr, hb, hu⟩ := CreateBuffers_buffers sdk settings buffers hCreate
  have hu' := hu hWritable
  rw [hWritable] at hb
  obtain ⟨buffers1, log1, upload1, hU1, hlog1, -, -, hin1, hup1, hs1, hd1, hc1, hf1, -⟩ :=
    UpdateBuffer_upload_step settings buffers CurrentCPUFrame (elems * 4) 0 (2 ^ 64 - 1)
      (4 * (elems * 4) * 2) _ hWritable (by omega) (by omega) hb hu' rfl rfl rfl (by omega)
      (by show 2 ^ 64 - 1 ≠ CurrentCPUFrame; omega)
  obtain ⟨buffers2, log2, upload2, hU2, hlog2, -⟩ :=
    UpdateBuffer_upload_step settings buffers1 (CurrentCPUFrame + 1) (elems * 4)
      ((0 + 1) % RenderLatency) CurrentCPUFrame (4 * (elems * 4) * 2) upload1 hWritable
      (by omega) (by omega) hin1 hup1 hs1 hd1 hc1 (by omega)
      (by
        rcases hf1 with h | h
        · rw [h]; show 2 ^ 64 - 1 ≠ CurrentCPUFrame + 1; omega
        · rw [h]; omega)
  refine ⟨4 * (elems * 4), buffers1, log1, buffers2, log2, by omega, by rw [hb],
    by rw [hb]; rfl, ?_, ?_, hU1, ?_, hU2, ?_⟩
  · simp only [inputBufferViews, RenderLatency]
    cases hT : settings.InputBufferType <;> simp_all [List.range_succ]
  · intro view hview
    simp only [inputBufferViews, RenderLatency, hWritable, hb, hr] at hview
    cases hT : settings.InputBufferType <;>
      simp_all [List.range_succ, BufferSRV.firstByte, BufferSRV.endByte] <;> omega
  · rw [hlog1]
    simp [RenderLatency]
  · rw [hlog2]
    simp [RenderLatency]

/-- Witness for C28: the default settings on a Default heap, 16 MiB in a raw buffer, in
frame 0. -/
theorem UpdateBuffer_upload_region_witness :
    ∃ buffers buffers1 log1,
      CreateBuffers d3d12 { HeapType := HeapTypes.Default } = some buffers ∧
      UpdateBuffer { HeapType := HeapTypes.Default } buffers 0 = some (buffers1, log1) ∧
      log1.upload = some { dstOffset := 16777216, size := 16777216 } ∧
      ∀ view ∈ inputBufferViews { HeapType := HeapTypes.Default } buffers.inputBuffer
          buffers.readbackMem,
        view.firstByte = 0 ∧ view.endByte = 16777216 := by
  cases hb : CreateBuffers d3d12 { HeapType := HeapTypes.Default } with
  | none => exact absurd hb (by decide)
  | some buffers =>
    obtain ⟨size, buffers1, log1, buffers2, log2, -, hsize, -, -, hviews, hU1, hlog1, -, -⟩ :=
      UpdateBuffer_upload_region d3d12 { HeapType := HeapTypes.Default } buffers 0 hb rfl
        (by decide) (by decide)
    have hs : (CreateBuffers d3d12 { HeapType := HeapTypes.Default }).map
        (fun b => b.inputBuffer.InternalBuffer.Size) = some 16777216 := by decide
    rw [hb] at hs
    simp only [Option.map_some', Option.some.injEq] at hs
    rw [hs] at hsize
    subst hsize
    exact ⟨buffers, buffers1, log1, rfl, hU1, hlog1, hviews⟩

/-- Witness for C30: the default settings (Upload heap, 16 MiB) with ReadFromGPUMem set:
1,048,576 bytes are copied out of 16,777,216. -/
theorem UpdateBuffer_readback_witness :
    ∃ buffers buffers1 log,
      CreateBuffers d3d12 { ReadFromGPUMem := true } = some buffers ∧
      UpdateBuffer { ReadFromGPUMem := true } buffers 0 = some (buffers1, log) ∧
      log.readback = some 1048576 ∧
      ArrayMemorySize buffers.readbackMem sizeofFloat4 = 16777216 := by
  cases hb : CreateBuffers d3d12 { ReadFromGPUMem := true } with
  | none => exact absurd hb (by decide)
  | some buffers =>
    obtain ⟨buffers1, log, copied, hU, hlog, hcopied, helems, hmem, -, -⟩ :=
      UpdateBuffer_readback d3d12 { ReadFromGPUMem := true } buffers 0 hb rfl rfl (by decide)
    have he : numInputElems d3d12 { ReadFromGPUMem := true } = some 1048576 := by decide
    rw [he] at helems
    have hr : buffers.readbackMem = 1048576 := (Option.some.inj helems).symm
    refine ⟨buffers, buffers1, log, rfl, hU, ?_, ?_⟩
    · rw [hlog, hcopied, ArraySize, hr]
    · rw [hmem, hr]

/-! ### The descriptors of CreateBuffers -/

/-- The call `FreePersistent` keeps the dead list in range and leaves an invalid index. -/
theorem FreePersistentRef_inRange (heap heap1 : DescriptorHeap) (idx idx1 : Nat)
    (hHeap : heap.InRange) (h : heap.FreePersistentRef idx = some (heap1, idx1)) :
    heap1.InRange ∧ heap1.NumPersistent = heap.NumPersistent ∧
      idx1 = InvalidDescriptorIndex := by
  obtain ⟨h1, h2, h3, h4⟩ := hHeap
  simp only [DescriptorHeap.FreePersistentRef, DescriptorHeap.FreePersistent] at h
  by_cases hidx : idx = InvalidDescriptorIndex
  · rw [if_pos hidx] at h
    simp only [Option.map_some', Option.some.injEq, Prod.mk.injEq] at h
    rw [← h.1, ← h.2]
    exact ⟨⟨h1, h2, h3, h4⟩, rfl, rfl⟩
  · rw [if_neg hidx] at h
    by_cases hlt : idx < heap.NumPersistent
    · rw [if_neg (not_not.2 hlt)] at h
      split_ifs at h
      all_goals first
        | (simp only [Option.map_none', reduceCtorEq] at h)
        | skip
      simp only [Option.map_some', Option.some.injEq, Prod.mk.injEq] at h
      rw [← h.1, ← h.2]
      refine ⟨⟨h1, by simpa using h2, h3, ?_⟩, rfl, rfl⟩
      intro index hmem
      rcases List.mem_or_eq_of_mem_set hmem with hm | hm
      · exact h4 index hm
      · rw [hm]; exact hlt
    · rw [if_pos hlt] at h
      simp at h

/-- A successful `AllocatePersistent()` keeps the dead list in range and returns an index
of the heap. -/
theorem AllocatePersistent_inRange (heap heap1 : DescriptorHeap) (index : Nat)
    (hHeap : heap.InRange)
    (h : heap.AllocatePersistent InvalidDescriptorIndex = Except.ok (heap1, index)) :
    heap1.InRange ∧ heap1.NumPersistent = heap.NumPersistent ∧
      index < heap.NumPersistent := by
  obtain ⟨h1, h2, h3, h4⟩ := hHeap
  by_cases hPA : heap.PersistentAllocated < heap.NumPersistent
  · rcases AllocatePersistent_spec heap InvalidDescriptorIndex h1 h2 h3 hPA with
      ⟨hne, -⟩ | ⟨-, deadList, next, hok, hlen, -, hdrop, -, hsame⟩
    · exact absurd rfl hne
    · rw [hok] at h
      have hpair := Except.ok.inj h
      have hheap := congrArg Prod.fst hpair
      have hi : next = index := congrArg Prod.snd hpair
      simp only at hheap
      rw [← hheap, ← hi]
      have hd : deadList = heap.DeadList := hsame rfl
      have hmem : next ∈ heap.DeadList := by
        rw [← hd]
        apply List.mem_of_mem_drop (n := heap.PersistentAllocated)
        rw [hdrop]
        exact List.mem_cons_self _ _
      refine ⟨⟨h1, by show deadList.length = heap.NumPersistent; rw [hd, h2], h3, ?_⟩, rfl,
        h4 next hmem⟩
      intro x hx
      have hx' : x ∈ deadList := hx
      rw [hd] at hx'
      exact h4 x hx'
  · rw [AllocatePersistent_full heap InvalidDescriptorIndex (by omega)] at h
    exact Except.noConfusion h

/-- The descriptor part of `RawBuffer::Shutdown` leaves both indices invalid. -/
theorem RawBufferDescriptors_Shutdown (heap heap1 : DescriptorHeap)
    (buffer buffer1 : RawBufferDescriptors) (hHeap : heap.InRange)
    (h : buffer.Shutdown heap = some (heap1, buffer1)) :
    heap1.InRange ∧ heap1.NumPersistent = heap.NumPersistent ∧
      buffer1.SRV = InvalidDescriptorIndex ∧ buffer1.UAV = InvalidDescriptorIndex := by
  simp only [RawBufferDescriptors.Shutdown] at h
  cases h1 : heap.FreePersistentRef buffer.SRV with
  | none => simp [h1] at h
  | some r1 =>
    obtain ⟨heapA, srv⟩ := r1
    simp only [h1] at h
    obtain ⟨hA, hnA, hsrv⟩ := FreePersistentRef_inRange heap heapA _ _ hHeap h1
    cases h2 : heapA.FreePersistentRef buffer.UAV with
    | none => simp [h2] at h
    | some r2 =>
      obtain ⟨heapB, uav⟩ := r2
      simp only [h2, Option.some.injEq, Prod.mk.injEq] at h
      obtain ⟨hB, hnB, huav⟩ := FreePersistentRef_inRange heapA heapB _ _ hA h2
      rw [← h.1, ← h.2]
      exact ⟨hB, by rw [hnB, hnA], hsrv, huav⟩

/-- The descriptor part of `RawBuffer::Initialize` leaves an index of the heap in `SRV`, and
in `UAV` if a UAV is created; without one `UAV` is invalid. -/
theorem RawBufferDescriptors_Initialize (heap heap1 : DescriptorHeap)
    (buffer buffer1 : RawBufferDescriptors) (createUAV : Bool) (hHeap : heap.InRange)
    (h : buffer.Initialize heap createUAV = some (heap1, buffer1)) :
    heap1.InRange ∧ heap1.NumPersistent = heap.NumPersistent ∧
      buffer1.SRV < heap.NumPersistent ∧
      (createUAV = true → buffer1.UAV < heap.NumPersistent) ∧
      (createUAV = false → buffer1.UAV = InvalidDescriptorIndex) := by
  simp only [RawBufferDescriptors.Initialize] at h
  cases h1 : buffer.Shutdown heap with
  | none => simp [h1] at h
  | some r1 =>
    obtain ⟨heapA, bufferA⟩ := r1
    simp only [h1] at h
    obtain ⟨hA, hnA, -, huavA⟩ := RawBufferDescriptors_Shutdown heap heapA _ _ hHeap h1
    cases h2 : heapA.AllocatePersistent InvalidDescriptorIndex with
    | error e => simp [h2] at h
    | ok r2 =>
      obtain ⟨heapB, srv⟩ := r2
      simp only [h2] at h
      obtain ⟨hB, hnB, hsrv⟩ := AllocatePersistent_inRange heapA heapB srv hA h2
      cases createUAV with
      | false =>
        simp only [Bool.false_eq_true, if_false, Option.some.injEq, Prod.mk.injEq] at h
        rw [← h.1, ← h.2]
        exact ⟨hB, by rw [hnB, hnA], by rw [← hnA]; exact hsrv,
          fun hc => absurd hc (by decide), fun _ => huavA⟩
      | true =>
        simp only [if_true] at h
        cases h3 : heapB.AllocatePersistent InvalidDescriptorIndex with
        | error e => simp [h3] at h
        | ok r3 =>
          obtain ⟨heapC, uav⟩ := r3
          simp only [h3, Option.some.injEq, Prod.mk.injEq] at h
          obtain ⟨hC, hnC, huav⟩ := AllocatePersistent_inRange heapB heapC uav hB h3
          rw [← h.1, ← h.2]
          exact ⟨hC, by rw [hnC, hnB, hnA], by rw [← hnA]; exact hsrv,
            fun _ => by rw [← hnA, ← hnB]; exact huav, fun hc => absurd hc (by decide)⟩

/-- C29: after a successful `CreateBuffers` on a heap whose dead list is in range, the
InputBufferIdx setting is the newly allocated `inputBufferSRV`, an index of the heap, but the
OutputBufferIdx setting is -1, the invalid index 2^32-1 as `uint32`, and differs from
`outputBuffer.UAV`, the index of the heap that `outputBuffer.Initialize` allocates after the
setting was written. -/
theorem CreateBuffers_buffer_indices (state state1 : DescriptorState)
    (hHeap : state.SRVDescriptorHeap.InRange)
    (hCreate : CreateBuffersDescriptors state = some state1) :
    state1.AppSettings.OutputBufferIdx = -1 ∧
    toUInt32 state1.AppSettings.OutputBufferIdx = InvalidDescriptorIndex ∧
    state1.outputBuffer.UAV < state.SRVDescriptorHeap.NumPersistent ∧
    state1.outputBuffer.UAV ≠ InvalidDescriptorIndex ∧
    toUInt32 state1.AppSettings.OutputBufferIdx ≠ state1.outputBuffer.UAV ∧
    toUInt32 state1.AppSettings.InputBufferIdx = state1.inputBufferSRV ∧
    state1.inputBufferSRV < state.SRVDescriptorHeap.NumPersistent ∧
    state1.inputBufferSRV ≠ InvalidDescriptorIndex := by
  simp only [CreateBuffersDescriptors] at hCreate
  cases h1 : state.inputBuffer.Shutdown state.SRVDescriptorHeap with
  | none => simp [h1] at hCreate
  | some r1 =>
    obtain ⟨heap1, inputBuffer1⟩ := r1
    simp only [h1] at hCreate
    obtain ⟨hI1, hn1, -, -⟩ := RawBufferDescriptors_Shutdown _ _ _ _ hHeap h1
    cases h2 : state.outputBuffer.Shutdown heap1 with
    | none => simp [h2] at hCreate
    | some r2 =>
      obtain ⟨heap2, outputBuffer1⟩ := r2
      simp only [h2] at hCreate
      obtain ⟨hI2, hn2, -, huav⟩ := RawBufferDescriptors_Shutdown _ _ _ _ hI1 h2
      cases h3 : heap2.FreePersistentRef state.inputBufferSRV with
      | none => simp [h3] at hCreate
      | some r3 =>
        obtain ⟨heap3, srv0⟩ := r3
        simp only [h3] at hCreate
        obtain ⟨hI3, hn3, -⟩ := FreePersistentRef_inRange _ _ _ _ hI2 h3
        cases h4 : inputBuffer1.Initialize heap3 false with
        | none => simp [h4] at hCreate
        | some r4 =>
          obtain ⟨heap4, inputBuffer2⟩ := r4
          simp only [h4] at hCreate
          obtain ⟨hI4, hn4, -⟩ := RawBufferDescriptors_Initialize _ _ _ _ _ hI3 h4
          cases h5 : heap4.AllocatePersistent InvalidDescriptorIndex with
          | error e => simp [h5] at hCreate
          | ok r5 =>
            obtain ⟨heap5, inputBufferSRV⟩ := r5
            simp only [h5] at hCreate
            obtain ⟨hI5, hn5, hsrv⟩ := AllocatePersistent_inRange _ _ _ hI4 h5
            cases h6 : outputBuffer1.Initialize heap5 true with
            | none => simp [h6] at hCreate
            | some r6 =>
              obtain ⟨heap6, outputBuffer2⟩ := r6
              simp only [h6, Option.some.injEq] at hCreate
              obtain ⟨-, -, -, huav2, -⟩ := RawBufferDescriptors_Initialize _ _ _ _ _ hI5 h6
              have hNP : state.SRVDescriptorHeap.NumPersistent < 2 ^ 32 := hHeap.2.2.1
              have hnn : heap5.NumPersistent = state.SRVDescriptorHeap.NumPersistent := by
                rw [hn5, hn4, hn3, hn2, hn1]
              have hnn4 : heap4.NumPersistent = state.SRVDescriptorHeap.NumPersistent := by
                rw [hn4, hn3, hn2, hn1]
              have huav3 : outputBuffer2.UAV < state.SRVDescriptorHeap.NumPersistent := by
                rw [← hnn]; exact huav2 rfl
              rw [hnn4] at hsrv
              rw [← hCreate]
              have hout : IntSettingSetValue (-2147483648) 2147483647
                  (toInt32 outputBuffer1.UAV) = -1 := by
                rw [huav]
                simp only [IntSettingSetValue, toInt32, InvalidDescriptorIndex]
                split_ifs <;> omega
              have hin : toUInt32 (IntSettingSetValue (-2147483648) 2147483647
                  (toInt32 inputBufferSRV)) = inputBufferSRV := by
                simp only [IntSettingSetValue, toInt32, toUInt32]
                split_ifs <;> omega
              refine ⟨hout, ?_, huav3, ?_, ?_, hin, hsrv, ?_⟩
              · show toUInt32 (IntSettingSetValue (-2147483648) 2147483647
                  (toInt32 outputBuffer1.UAV)) = InvalidDescriptorIndex
                rw [hout]; decide
              · simp only [InvalidDescriptorIndex]; omega
              · show toUInt32 (IntSettingSetValue (-2147483648) 2147483647
                  (toInt32 outputBuffer1.UAV)) ≠ outputBuffer2.UAV
                rw [hout]
                have : toUInt32 (-1) = 2 ^ 32 - 1 := by decide
                rw [this]; omega
              · simp only [InvalidDescriptorIndex]; omega

/-- Witness for C29: a heap of 8 descriptors on which a previous `CreateBuffers` allocated
the indices 0 to 3; the call leaves OutputBufferIdx = -1 and `outputBuffer.UAV` = 0. -/
theorem CreateBuffers_buffer_indices_witness :
    CreateBuffersDescriptors
        { SRVDescriptorHeap :=
            { HeapsCreated := true, NumPersistent := 8, PersistentAllocated := 4,
              DeadList := [0, 1, 2, 3, 4, 5, 6, 7] }
          inputBuffer := { SRV := 0 }
          inputBufferSRV := 1
          outputBuffer := { SRV := 2, UAV := 3 }
          AppSettings := {} } =
      some
        { SRVDescriptorHeap :=
            { HeapsCreated := true, NumPersistent := 8, PersistentAllocated := 4,
              DeadList := [1, 3, 2, 0, 4, 5, 6, 7] }
          inputBuffer := { SRV := 1 }
          inputBufferSRV := 3
          outputBuffer := { SRV := 2, UAV := 0 }
          AppSettings := { InputBufferIdx := 3, OutputBufferIdx := -1 } } ∧
    toUInt32 (-1) ≠ 0 :=
  have hc : CreateBuffersDescriptors
        { SRVDescriptorHeap :=
            { HeapsCreated := true, NumPersistent := 8, PersistentAllocated := 4,
              DeadList := [0, 1, 2, 3, 4, 5, 6, 7] }
          inputBuffer := { SRV := 0 }
          inputBufferSRV := 1
          outputBuffer := { SRV := 2, UAV := 3 }
          AppSettings := {} } =
      some
        { SRVDescriptorHeap :=
            { HeapsCreated := true, NumPersistent := 8, PersistentAllocated := 4,
              DeadList := [1, 3, 2, 0, 4, 5, 6, 7] }
          inputBuffer := { SRV := 1 }
          inputBufferSRV := 3
          outputBuffer := { SRV := 2, UAV := 0 }
          AppSettings := { InputBufferIdx := 3, OutputBufferIdx := -1 } } := by decide
  ⟨hc, (CreateBuffers_buffer_indices _ _ ⟨rfl, rfl, by decide, by decide⟩ hc).2.2.2.2.1⟩

end MemPoolTest
